import Mathlib

/-!
# Frame orchestration of `src/graphics/Screen.cpp`

A shallow embedding of the frame-set builder (`Screen::setFrames`), the input
handlers, the tick (`Screen::runOnce`), the command queue, the observers
(`Screen::handleStatusUpdate` to `Screen::handleAdminMessage`),
`Screen::dismissCurrentFrame`, the wait loops of the e-ink build,
`deltaToTimestamp`, `retrieveAndSortNodes`, the function overlay and the
brightness steps, followed by the properties proved about them.

Conventions of the embedding

* The build modelled is the one of `variants/esp32/nano-g1/variant.h`
  (`USE_SH1106`): `USE_EINK`, `USERPREFS_OEM_TEXT`, `ARCH_PORTDUINO`,
  `USE_ST7789` and `T_WATCH_S3` are not defined, so `EINK_ADD_FRAMEFLAG`
  expands to nothing.  `DISPLAY_CLOCK_FRAME` and `HAS_WIFI` stay switches of
  the model (fields of `Env`), because the frame-set depends on them.
* `normalFrames[numframes++] = f` appends `f` to the list of frames written so
  far; `numframes` is the length of that list.
* Indices and counts are natural numbers; a conversion to `uint8_t` that the
  source writes out is a `% 256`.
* `OLEDDisplayUi` is an external library: its methods are the fields of the
  record `OLEDDisplayUi U`, over an arbitrary type `U` of library states.
-/

namespace graphics

/-! ## Constants -/

/-- The macro `#define IDLE_FRAMERATE 1 // in fps`. -/
def IDLE_FRAMERATE : Nat := 1

/-- The macro `#define NUM_EXTRA_FRAMES 3 // text message and debug frame`. -/
def NUM_EXTRA_FRAMES : Nat := 3

/-- The macro `#define SCREEN_TRANSITION_FRAMERATE 30 // fps`. -/
def SCREEN_TRANSITION_FRAMERATE : Nat := 30

/-! ## Frames and the frame-set table -/

/-- The frame callbacks that `Screen.cpp` stores in a frame array. -/
inductive FrameCallback where
  | drawModuleFrame
  | drawCriticalFaultFrame
  | drawDigitalClockFrame
  | drawAnalogClockFrame
  | drawTextMessageFrame
  | drawDeviceFocused
  | drawLastHeardScreen
  | drawHopSignalScreen
  | drawDistanceScreen
  | drawNodeListWithCompasses
  | drawCompassAndLocationScreen
  | drawLoRaFocused
  | drawMemoryScreen
  | drawDebugInfoWiFiTrampoline
  | drawFrameFirmware
  | drawWelcomeScreen
  | alert (id : Nat)
  deriving DecidableEq, Repr

/-- The argument of `Screen::setFrames`: the five cases of its `switch (focus)`. -/
inductive FrameFocus where
  | FOCUS_DEFAULT
  | FOCUS_FAULT
  | FOCUS_TEXTMESSAGE
  | FOCUS_MODULE
  | FOCUS_PRESERVE
  deriving DecidableEq, Repr

/-- Modelled from the spec: the declaration of `FramesetInfo::FramePositions`
(Screen.h) is not among the sources.  The fields are the special positions
that `setFrames` and `dismissCurrentFrame` read and write.  The value given
here to a position that a rebuild does not write stands for the value of a
freshly constructed table, which Screen.h fixes; Screen.cpp speaks of it only
for `focusedModule` (`FOCUS_MODULE`: "If no module requested focus, will show
the first frame instead"). -/
structure FramePositions where
  fault : Nat := 0
  textMessage : Nat := 0
  waypoint : Nat := 0
  focusedModule : Nat := 0
  log : Nat := 0
  settings : Nat := 0
  wifi : Nat := 0
  deriving DecidableEq, Repr

/-- Modelled from the spec: the declaration of `FramesetInfo` (Screen.h) is
not among the sources: the special positions and the total frame count. -/
structure FramesetInfo where
  positions : FramePositions := {}
  frameCount : Nat := 0
  deriving DecidableEq, Repr

/-- What `setFrames` asks of a `MeshModule` with a UI frame. -/
structure MeshModule where
  /-- Result of `m->isRequestingFocus()`. -/
  isRequestingFocus : Bool
  /-- Whether `m == waypointModule`. -/
  isWaypointModule : Bool
  /-- Result of `m->interceptingKeyboardInput()`. -/
  interceptingKeyboardInput : Bool := false
  deriving DecidableEq, Repr

/-- Everything outside the `Screen` object that the modelled functions read. -/
structure Env where
  /-- Result of `MeshModule::GetMeshModulesWithUIFrames()`. -/
  modules : List MeshModule
  /-- The global `error_code`. -/
  error_code : Nat
  /-- Whether `DISPLAY_CLOCK_FRAME` is defined. -/
  displayClockFrame : Bool
  /-- The member `digitalWatchFace`. -/
  digitalWatchFace : Bool
  /-- Field `devicestate.has_rx_text_message`. -/
  has_rx_text_message : Bool
  /-- Field `devicestate.rx_text_message.from`. -/
  rx_text_message_from : Nat
  /-- Field `moduleConfig.store_forward.enabled`. -/
  store_forward_enabled : Bool
  /-- Whether `HAS_WIFI && !defined(ARCH_PORTDUINO)` holds. -/
  hasWifi : Bool
  /-- Result of `isWifiAvailable()`. -/
  wifiAvailable : Bool
  deriving DecidableEq, Repr

/-- The function `shouldDrawMessage(packet)`:
`return packet->from != 0 && !moduleConfig.store_forward.enabled;`. -/
def shouldDrawMessage (env : Env) (packetFrom : Nat) : Bool :=
  packetFrom != 0 && !env.store_forward_enabled

/-- The locals `normalFrames[0 .. numframes-1]` and `fsi` while `setFrames` builds. -/
structure Build where
  frames : List FrameCallback := []
  fsi : FramesetInfo := {}
  deriving DecidableEq, Repr

/-- The local `numframes`: how many entries of `normalFrames` are written. -/
def Build.numframes (b : Build) : Nat := b.frames.length

/-- The statement `normalFrames[numframes++] = f`. -/
def Build.push (b : Build) (f : FrameCallback) : Build :=
  { b with frames := b.frames ++ [f] }

/-- One iteration of the module loop of `setFrames`. -/
def addModuleFrame (b : Build) (m : MeshModule) : Build :=
  -- normalFrames[numframes] = drawModuleFrame; (numframes++ closes the iteration)
  let n := b.numframes
  let fsi1 : FramesetInfo :=
    if m.isRequestingFocus then
      { b.fsi with positions := { b.fsi.positions with focusedModule := n } }
    else b.fsi
  let fsi2 : FramesetInfo :=
    if m.isWaypointModule then
      { fsi1 with positions := { fsi1.positions with waypoint := n } }
    else fsi1
  { frames := b.frames ++ [FrameCallback.drawModuleFrame], fsi := fsi2 }

/-- The loop `for (auto i = moduleFrames.begin(); i != moduleFrames.end(); ++i)`. -/
def addModuleFrames (b : Build) (ms : List MeshModule) : Build :=
  ms.foldl addModuleFrame b

/-- The fault step: `fsi.positions.fault = numframes; if (error_code) { ... }`.
The second component is the possibly replaced `focus`. -/
def addFaultFrame (env : Env) (focus : FrameFocus) (b : Build) : Build × FrameFocus :=
  let b1 : Build := { b with fsi := { b.fsi with positions := { b.fsi.positions with fault := b.numframes } } }
  if env.error_code != 0 then
    (b1.push FrameCallback.drawCriticalFaultFrame, FrameFocus.FOCUS_FAULT)
  else (b1, focus)

/-- The step under `#if defined(DISPLAY_CLOCK_FRAME)`. -/
def addClockFrame (env : Env) (b : Build) : Build :=
  if env.displayClockFrame then
    b.push (if env.digitalWatchFace then FrameCallback.drawDigitalClockFrame
            else FrameCallback.drawAnalogClockFrame)
  else b

/-- The text message step. -/
def addTextMessageFrame (env : Env) (b : Build) : Build :=
  if env.has_rx_text_message && shouldDrawMessage env env.rx_text_message_from then
    let b1 : Build :=
      { b with fsi := { b.fsi with positions := { b.fsi.positions with textMessage := b.numframes } } }
    b1.push FrameCallback.drawTextMessageFrame
  else b

/-- The eight frames every frame-set has, in the order `setFrames` writes them. -/
def fixedFrames : List FrameCallback :=
  [FrameCallback.drawDeviceFocused, FrameCallback.drawLastHeardScreen,
   FrameCallback.drawHopSignalScreen, FrameCallback.drawDistanceScreen,
   FrameCallback.drawNodeListWithCompasses, FrameCallback.drawCompassAndLocationScreen,
   FrameCallback.drawLoRaFocused, FrameCallback.drawMemoryScreen]

/-- The eight statements `normalFrames[numframes++] = drawDeviceFocused; ...`. -/
def addFixedFrames (b : Build) : Build :=
  fixedFrames.foldl Build.push b

/-- The WiFi step: `fsi.positions.wifi = numframes;` and the frame under
`#if HAS_WIFI && !defined(ARCH_PORTDUINO)`. -/
def addWifiFrame (env : Env) (b : Build) : Build :=
  let b1 : Build := { b with fsi := { b.fsi with positions := { b.fsi.positions with wifi := b.numframes } } }
  if env.hasWifi && env.wifiAvailable then
    b1.push FrameCallback.drawDebugInfoWiFiTrampoline
  else b1

/-- The building part of `setFrames`, up to and including
`fsi.frameCount = numframes;`, with the `focus` it leaves. -/
def buildFrames (env : Env) (focus : FrameFocus) : Build × FrameFocus :=
  let b0 : Build := {}
  let b1 := addModuleFrames b0 env.modules
  let (b2, focus2) := addFaultFrame env focus b1
  let b3 := addClockFrame env b2
  let b4 := addTextMessageFrame env b3
  let b5 := addFixedFrames b4
  let b6 := addWifiFrame env b5
  ({ b6 with fsi := { b6.fsi with frameCount := b6.numframes } }, focus2)

/-- The `switch (focus)` of `setFrames`: the argument it gives to
`ui->switchToFrame`. -/
def focusTarget (focus : FrameFocus) (originalPosition : Nat) (oldFsi fsi : FramesetInfo) : Nat :=
  match focus with
  | FrameFocus.FOCUS_DEFAULT => 0
  | FrameFocus.FOCUS_FAULT => fsi.positions.fault
  | FrameFocus.FOCUS_TEXTMESSAGE => fsi.positions.textMessage
  | FrameFocus.FOCUS_MODULE => fsi.positions.focusedModule
  | FrameFocus.FOCUS_PRESERVE =>
    if originalPosition = oldFsi.positions.log then fsi.positions.log
    else if originalPosition = oldFsi.positions.settings then fsi.positions.settings
    else if originalPosition = oldFsi.positions.wifi then fsi.positions.wifi
    else if fsi.frameCount < oldFsi.frameCount then
      -- uint8_t numDropped = oldFsi.frameCount - fsi.frameCount;
      let numDropped := (oldFsi.frameCount - fsi.frameCount) % 256
      if numDropped ≤ originalPosition then originalPosition - numDropped
      else 0
    else originalPosition

/-- What one call of `setFrames` computes. -/
structure Rebuild where
  /-- The frames given to `ui->setFrames(normalFrames, numframes)`. -/
  frames : List FrameCallback
  /-- The table stored in `this->framesetInfo`. -/
  fsi : FramesetInfo
  /-- The argument given to `ui->switchToFrame`. -/
  switchTo : Nat
  deriving DecidableEq, Repr

/-- The computation of `Screen::setFrames(focus)`, where `originalPosition` is
`ui->getUiState()->currentFrame` on entry and `oldFsi` is `this->framesetInfo`
on entry. -/
def rebuild (env : Env) (focus : FrameFocus) (originalPosition : Nat) (oldFsi : FramesetInfo) :
    Rebuild :=
  let (b, focus2) := buildFrames env focus
  { frames := b.frames, fsi := b.fsi, switchTo := focusTarget focus2 originalPosition oldFsi b.fsi }

/-! ## The parts of a frame-set, for stating what a rebuild produces -/

/-- The fault frame, present iff `error_code` is non-zero. -/
def faultFrames (env : Env) : List FrameCallback :=
  if env.error_code != 0 then [FrameCallback.drawCriticalFaultFrame] else []

/-- The clock frame, present iff the build has one. -/
def clockFrames (env : Env) : List FrameCallback :=
  if env.displayClockFrame then
    [if env.digitalWatchFace then FrameCallback.drawDigitalClockFrame
     else FrameCallback.drawAnalogClockFrame]
  else []

/-- The text message frame, present iff a message is stored and
`shouldDrawMessage` accepts it. -/
def textMessageFrames (env : Env) : List FrameCallback :=
  if env.has_rx_text_message && shouldDrawMessage env env.rx_text_message_from then
    [FrameCallback.drawTextMessageFrame]
  else []

/-- The WiFi frame, present iff the build has WiFi and WiFi is available. -/
def wifiFrames (env : Env) : List FrameCallback :=
  if env.hasWifi && env.wifiAvailable then [FrameCallback.drawDebugInfoWiFiTrampoline] else []

/-! ## The command queue -/

/-- The commands of the `switch (cmd.cmd)` of `runOnce`; `INVALID` stands for
every value that reaches its `default:` branch. -/
inductive Cmd where
  | INVALID
  | SET_ON
  | SET_OFF
  | ON_PRESS
  | SHOW_PREV_FRAME
  | SHOW_NEXT_FRAME
  | START_ALERT_FRAME
  | STOP_ALERT_FRAME
  | START_FIRMWARE_UPDATE_SCREEN
  | STOP_BOOT_SCREEN
  | PRINT
  deriving DecidableEq, Repr

/-- A queued command: `cmd.cmd` and, for `PRINT`, `cmd.print_text`. -/
structure ScreenCmd where
  cmd : Cmd
  print_text : String := ""
  deriving DecidableEq, Repr

/-- Modelled from the spec: `TypedQueue` (concurrency/TypedQueue.h) is not
among the sources.  Section 4.1: a bounded queue of fixed, finite capacity,
strictly FIFO; the oldest element is the head of `items`. -/
structure TypedQueue (α : Type) where
  maxElements : Nat
  items : List α := []
  deriving DecidableEq, Repr

/-- Modelled from the spec: `TypedQueue::enqueue` is not among the sources.
Section 4.1: `enqueue(command) -> success|full`; on overflow the enqueue fails
and the command is dropped. -/
def TypedQueue.enqueue {α : Type} (q : TypedQueue α) (x : α) : Bool × TypedQueue α :=
  if q.items.length < q.maxElements then (true, { q with items := q.items ++ [x] })
  else (false, q)

/-- Modelled from the spec: `TypedQueue::dequeue` is not among the sources.
Section 4.1: `tryDequeue(timeout=0) -> command|empty`, oldest command first. -/
def TypedQueue.dequeue {α : Type} (q : TypedQueue α) : Option α × TypedQueue α :=
  match q.items with
  | [] => (none, q)
  | x :: rest => (some x, { q with items := rest })

/-- Modelled from the spec: `TypedQueue::isEmpty` is not among the sources. -/
def TypedQueue.isEmpty {α : Type} (q : TypedQueue α) : Bool := q.items.isEmpty

/-- A run of `enqueue` calls with no dequeue in between: the result of each
call, in order, and the queue after the last one. -/
def TypedQueue.enqueueAll {α : Type} (q : TypedQueue α) : List α → List Bool × TypedQueue α
  | [] => ([], q)
  | x :: xs =>
    let r := q.enqueue x
    let rs := TypedQueue.enqueueAll r.2 xs
    (r.1 :: rs.1, rs.2)

/-- The member initialiser `cmdQueue(32)` of the constructor `Screen::Screen`. -/
def cmdQueueInit : TypedQueue ScreenCmd := { maxElements := 32 }

/-! ## The display UI library -/

/-- The two values of `frameState` of the UI library. -/
inductive FrameState where
  | IN_TRANSITION
  | FIXED
  deriving DecidableEq, Repr

/-- The fields of `OLEDDisplayUiState` that `Screen.cpp` reads through
`ui->getUiState()`. -/
structure OLEDDisplayUiState where
  frameState : FrameState
  currentFrame : Nat
  deriving DecidableEq, Repr

/-- The methods of the external library class `OLEDDisplayUi` that the
modelled functions call, as transformers of a library state of type `U`.
The argument of `update` is the time `millis()` at the call. -/
structure OLEDDisplayUi (U : Type) where
  getUiState : U → OLEDDisplayUiState
  setTargetFPS : Nat → U → U
  setFrames : List FrameCallback → U → U
  setOverlays : Nat → U → U
  enableAllIndicators : U → U
  disableAllIndicators : U → U
  switchToFrame : Nat → U → U
  nextFrame : U → U
  previousFrame : U → U
  update : Nat → U → U

/-! ## The `Screen` object -/

/-- The members of `Screen` and the statics of `Screen.cpp` that the modelled
functions read or write.  Logging, the power monitor and drawing on `dispdev`
are not modelled; `displayOn` records `dispdev->displayOn()` and
`dispdev->displayOff()`. -/
structure Screen (U : Type) where
  ui : U
  cmdQueue : TypedQueue ScreenCmd
  useDisplay : Bool
  screenOn : Bool
  /-- The member `enabled` of `OSThread`. -/
  enabled : Bool
  displayOn : Bool
  /-- The members `interval` and `runASAP` of `OSThread`, as left by
  `setInterval(0); runASAP = true;`. -/
  interval : Option Nat
  runASAP : Bool
  showingNormalScreen : Bool
  /-- The `static bool showingBootScreen` of `runOnce`. -/
  showingBootScreen : Bool
  logo_timeout : Nat
  serialSinceMsec : Nat
  /-- Whether `address_found.address` is non-zero. -/
  addressFound : Bool
  /-- The member `alertFrame`, copied to `alertFrames[0]` by `START_ALERT_FRAME`. -/
  alertFrame : FrameCallback
  /-- The global `moduleFrames`. -/
  moduleFrames : List MeshModule
  /-- The `static int8_t prevFrame`. -/
  prevFrame : Int
  framesetInfo : FramesetInfo
  /-- The `static uint32_t targetFramerate`. -/
  targetFramerate : Nat
  /-- The `static uint32_t lastScreenTransition`. -/
  lastScreenTransition : Nat

/-- What a tick reads besides `Env`: inputs that change from tick to tick. -/
structure TickEnv where
  /-- Result of `millis()`. -/
  now : Nat
  /-- Whether `DISABLE_WELCOME_UNSET` is defined. -/
  disableWelcomeUnset : Bool
  /-- Whether `config.lora.region == meshtastic_Config_LoRaConfig_RegionCode_UNSET`. -/
  regionUnset : Bool
  /-- Field `config.display.auto_screen_carousel_secs`. -/
  auto_screen_carousel_secs : Nat
  /-- Result of `Throttle::isWithinTimespanMs(lastUsedMs, timeSpanMs)`, a
  function of this repository that is not among the sources. -/
  isWithinTimespanMs : Nat → Nat → Bool
  /-- Result of
  `scanAndSelectInput != nullptr && scanAndSelectInput->dismissCannedMessageFrame()`. -/
  scanAndSelectDismisses : Bool

/-- The value a tick returns to the scheduler. -/
inductive RunResult where
  /-- The constant `RUN_SAME`. -/
  | RUN_SAME
  /-- A delay in milliseconds. -/
  | delay (ms : Nat)
  deriving DecidableEq, Repr

section ScreenOps

variable {U : Type}

/-- The method `Screen::setFastFramerate`. -/
def Screen.setFastFramerate (lib : OLEDDisplayUi U) (s : Screen U) : Screen U :=
  { s with
    targetFramerate := SCREEN_TRANSITION_FRAMERATE
    ui := lib.setTargetFPS SCREEN_TRANSITION_FRAMERATE s.ui
    interval := some 0
    runASAP := true }

/-- The method `Screen::setFrames(focus)`. -/
def Screen.setFrames (lib : OLEDDisplayUi U) (env : Env) (focus : FrameFocus) (s : Screen U) :
    Screen U :=
  -- uint8_t originalPosition = ui->getUiState()->currentFrame;
  let originalPosition := (lib.getUiState s.ui).currentFrame % 256
  let r := rebuild env focus originalPosition s.framesetInfo
  let ui1 := lib.setFrames r.frames s.ui
  let ui2 := lib.enableAllIndicators ui1
  let ui3 := lib.setOverlays 1 ui2
  let ui4 := lib.switchToFrame r.switchTo ui3
  Screen.setFastFramerate lib
    { s with
      showingNormalScreen := true
      moduleFrames := env.modules
      ui := ui4
      prevFrame := -1
      framesetInfo := r.fsi }

/-- The method `Screen::setFrameImmediateDraw(drawFrames)`, always called with
one frame. -/
def Screen.setFrameImmediateDraw (lib : OLEDDisplayUi U) (drawFrame : FrameCallback)
    (s : Screen U) : Screen U :=
  Screen.setFastFramerate lib
    { s with ui := lib.setFrames [drawFrame] (lib.disableAllIndicators s.ui) }

/-- The method `Screen::setWelcomeFrames`. -/
def Screen.setWelcomeFrames (lib : OLEDDisplayUi U) (s : Screen U) : Screen U :=
  if s.addressFound then Screen.setFrameImmediateDraw lib FrameCallback.drawWelcomeScreen s
  else s

/-- The method `Screen::handleSetOn(on)`; the argument `on` is `turnOn` here. -/
def Screen.handleSetOn (turnOn : Bool) (s : Screen U) : Screen U :=
  if !s.useDisplay then s
  else if turnOn != s.screenOn then
    if turnOn then
      { s with displayOn := true, enabled := true, interval := some 0, runASAP := true,
               screenOn := turnOn }
    else
      { s with displayOn := false, enabled := false, screenOn := turnOn }
  else s

/-- The method `Screen::handleOnPress`. -/
def Screen.handleOnPress (lib : OLEDDisplayUi U) (t : TickEnv) (s : Screen U) : Screen U :=
  if t.scanAndSelectDismisses then s
  else if (lib.getUiState s.ui).frameState = FrameState.FIXED then
    Screen.setFastFramerate lib
      { s with ui := lib.nextFrame s.ui, lastScreenTransition := t.now }
  else s

/-- The method `Screen::handleShowPrevFrame`. -/
def Screen.handleShowPrevFrame (lib : OLEDDisplayUi U) (t : TickEnv) (s : Screen U) : Screen U :=
  if (lib.getUiState s.ui).frameState = FrameState.FIXED then
    Screen.setFastFramerate lib
      { s with ui := lib.previousFrame s.ui, lastScreenTransition := t.now }
  else s

/-- The method `Screen::handleShowNextFrame`. -/
def Screen.handleShowNextFrame (lib : OLEDDisplayUi U) (t : TickEnv) (s : Screen U) : Screen U :=
  if (lib.getUiState s.ui).frameState = FrameState.FIXED then
    Screen.setFastFramerate lib
      { s with ui := lib.nextFrame s.ui, lastScreenTransition := t.now }
  else s

/-- The method `Screen::handleStartFirmwareUpdateScreen`. -/
def Screen.handleStartFirmwareUpdateScreen (lib : OLEDDisplayUi U) (s : Screen U) : Screen U :=
  Screen.setFrameImmediateDraw lib FrameCallback.drawFrameFirmware
    { s with showingNormalScreen := false }

/-- The method `Screen::handlePrint`: past its guard it only writes to `dispdev`. -/
def Screen.handlePrint (_text : String) (s : Screen U) : Screen U := s

/-- Modelled from the spec: `Screen::stopBootScreen` and `enqueueCmd` are
declared in Screen.h, which is not among the sources.  Section 6: the
boot-screen stop is a command put on the command queue. -/
def Screen.stopBootScreen (s : Screen U) : Screen U :=
  { s with cmdQueue := (s.cmdQueue.enqueue { cmd := Cmd.STOP_BOOT_SCREEN }).2 }

/-- The body of the `switch (cmd.cmd)` of `runOnce`.  `setFrames()` without
an argument is `setFrames(FOCUS_DEFAULT)`. -/
def Screen.dispatch (lib : OLEDDisplayUi U) (env : Env) (t : TickEnv) (cmd : ScreenCmd)
    (s : Screen U) : Screen U :=
  match cmd.cmd with
  | Cmd.SET_ON => Screen.handleSetOn true s
  | Cmd.SET_OFF => Screen.handleSetOn false s
  | Cmd.ON_PRESS => Screen.handleOnPress lib t s
  | Cmd.SHOW_PREV_FRAME => Screen.handleShowPrevFrame lib t s
  | Cmd.SHOW_NEXT_FRAME => Screen.handleShowNextFrame lib t s
  | Cmd.START_ALERT_FRAME =>
    Screen.setFrameImmediateDraw lib s.alertFrame
      { s with showingBootScreen := false, showingNormalScreen := false }
  | Cmd.START_FIRMWARE_UPDATE_SCREEN => Screen.handleStartFirmwareUpdateScreen lib s
  | Cmd.STOP_ALERT_FRAME => Screen.setFrames lib env FrameFocus.FOCUS_DEFAULT s
  | Cmd.STOP_BOOT_SCREEN => Screen.setFrames lib env FrameFocus.FOCUS_DEFAULT s
  | Cmd.PRINT => Screen.handlePrint cmd.print_text s
  | Cmd.INVALID => s

/-- The loop `for (;;) { if (!cmdQueue.dequeue(&cmd, 0)) break; switch ... }`
of `runOnce`, cut after `fuel` iterations. -/
def Screen.commandLoop (lib : OLEDDisplayUi U) (env : Env) (t : TickEnv) :
    Nat → Screen U → Screen U
  | 0, s => s
  | fuel + 1, s =>
    match s.cmdQueue.dequeue with
    | (none, _) => s
    | (some cmd, q) =>
      Screen.commandLoop lib env t fuel (Screen.dispatch lib env t cmd { s with cmdQueue := q })

/-- The part of `runOnce` before the command loop, once `useDisplay` is known
to hold: the end of the boot screen and the welcome frame. -/
def Screen.beforeCommands (lib : OLEDDisplayUi U) (t : TickEnv) (s : Screen U) : Screen U :=
  let s1 :=
    if s.showingBootScreen && decide (t.now > (s.logo_timeout + s.serialSinceMsec) % 2 ^ 32) then
      { Screen.stopBootScreen s with showingBootScreen := false }
    else s
  if !t.disableWelcomeUnset && (s1.showingNormalScreen && t.regionUnset) then
    Screen.setWelcomeFrames lib s1
  else s1

/-- The state of `runOnce` when its command loop ends.  No handler of this
build enqueues a command, so the loop ends after as many iterations as
commands are pending. -/
def Screen.afterCommands (lib : OLEDDisplayUi U) (env : Env) (t : TickEnv) (s : Screen U) :
    Screen U :=
  let s0 := Screen.beforeCommands lib t s
  Screen.commandLoop lib env t s0.cmdQueue.items.length s0

/-- The part of `runOnce` after the command loop. -/
def Screen.afterLoop (lib : OLEDDisplayUi U) (t : TickEnv) (s : Screen U) :
    Screen U × RunResult :=
  if !s.screenOn then
    ({ s with enabled := false }, RunResult.delay 0)
  else
    let s1 := { s with ui := lib.update t.now s.ui }
    let s2 :=
      if s1.targetFramerate != IDLE_FRAMERATE
          && decide ((lib.getUiState s1.ui).frameState = FrameState.FIXED) then
        -- forceDisplay() does nothing without USE_EINK
        { s1 with targetFramerate := IDLE_FRAMERATE, ui := lib.setTargetFPS IDLE_FRAMERATE s1.ui }
      else s1
    let s3 :=
      if s2.showingNormalScreen
          && (decide (t.auto_screen_carousel_secs > 0)
            && !t.isWithinTimespanMs s2.lastScreenTransition
                (t.auto_screen_carousel_secs * 1000 % 2 ^ 32)) then
        Screen.handleOnPress lib t s2
      else s2
    (s3, RunResult.delay (1000 / s3.targetFramerate))

/-- The method `Screen::runOnce`. -/
def Screen.runOnce (lib : OLEDDisplayUi U) (env : Env) (t : TickEnv) (s : Screen U) :
    Screen U × RunResult :=
  if !s.useDisplay then
    ({ s with enabled := false }, RunResult.RUN_SAME)
  else
    Screen.afterLoop lib t (Screen.afterCommands lib env t s)

end ScreenOps

/-! ## Concrete instances used in examples -/

/-- An environment with no module, no fault, no clock frame, no text message
and WiFi available. -/
def envWifi : Env :=
  { modules := [], error_code := 0, displayClockFrame := false, digitalWatchFace := false,
    has_rx_text_message := false, rx_text_message_from := 0, store_forward_enabled := false,
    hasWifi := true, wifiAvailable := true }

/-- The environment `envWifi` after WiFi became unavailable. -/
def envNoWifi : Env := { envWifi with wifiAvailable := false }

/-- The table installed by a rebuild in `envWifi`: nine frames, WiFi at index 8. -/
def fsiWifi : FramesetInfo := (rebuild envWifi FrameFocus.FOCUS_DEFAULT 0 {}).fsi

/-- An environment with two modules, a critical fault, a clock frame and an
unread incoming text message. -/
def envFault : Env :=
  { modules := [{ isRequestingFocus := false, isWaypointModule := false },
                { isRequestingFocus := true, isWaypointModule := false }],
    error_code := 7, displayClockFrame := true, digitalWatchFace := false,
    has_rx_text_message := true, rx_text_message_from := 5, store_forward_enabled := false,
    hasWifi := true, wifiAvailable := true }

/-- The environment `envFault` without the fault. -/
def envText : Env := { envFault with error_code := 0 }

/-- A state of the UI library for examples: what `getUiState` returns, the
number of frames installed, the direction of a pending transition and the
target rate. -/
structure UiModel where
  state : OLEDDisplayUiState
  frameCount : Nat
  direction : Int
  targetFPS : Nat
  deriving DecidableEq, Repr

/-- A UI library whose transitions take no time, the way `Screen::setup`
configures it (`ui->setTimePerTransition(0)`): the first `update` after
`nextFrame` or `previousFrame` completes the transition. -/
def instantUi : OLEDDisplayUi UiModel where
  getUiState u := u.state
  setTargetFPS fps u := { u with targetFPS := fps }
  setFrames frames u :=
    { u with frameCount := frames.length, state := { frameState := FrameState.FIXED, currentFrame := 0 } }
  setOverlays _ u := u
  enableAllIndicators u := u
  disableAllIndicators u := u
  switchToFrame n u :=
    if n ≥ u.frameCount then u
    else { u with state := { frameState := FrameState.FIXED, currentFrame := n } }
  nextFrame u :=
    if u.state.frameState = FrameState.FIXED then
      { u with state := { u.state with frameState := FrameState.IN_TRANSITION }, direction := 1 }
    else u
  previousFrame u :=
    if u.state.frameState = FrameState.FIXED then
      { u with state := { u.state with frameState := FrameState.IN_TRANSITION }, direction := -1 }
    else u
  update _ u :=
    if u.state.frameState = FrameState.IN_TRANSITION then
      { u with state :=
          { frameState := FrameState.FIXED
            currentFrame := ((u.state.currentFrame + u.direction) % u.frameCount).toNat } }
    else u

/-- A UI library whose transitions outlast a tick: `update` leaves a pending
transition pending. -/
def slowUi : OLEDDisplayUi UiModel :=
  { instantUi with update := fun _ u => u }

/-- A tick at time 60000 ms with no welcome frame, no carousel and no
scan-and-select input. -/
def tickQuiet : TickEnv :=
  { now := 60000, disableWelcomeUnset := false, regionUnset := false,
    auto_screen_carousel_secs := 0, isWithinTimespanMs := fun _ _ => true,
    scanAndSelectDismisses := false }

/-- A screen that is on and idle, showing frame 2 of the nine frames of
`envWifi`, with the commands `cmds` pending. -/
def screenIdle (cmds : List ScreenCmd) : Screen UiModel :=
  { ui := { state := { frameState := FrameState.FIXED, currentFrame := 2 }, frameCount := 9,
            direction := 1, targetFPS := IDLE_FRAMERATE }
    cmdQueue := { maxElements := 32, items := cmds }
    useDisplay := true, screenOn := true, enabled := true, displayOn := true
    interval := some 0, runASAP := false
    showingNormalScreen := true, showingBootScreen := false
    logo_timeout := 5000, serialSinceMsec := 0
    addressFound := true, alertFrame := FrameCallback.alert 0
    moduleFrames := [], prevFrame := -1
    framesetInfo := fsiWifi
    targetFramerate := IDLE_FRAMERATE, lastScreenTransition := 0 }

/-- The state `screenIdle` in the middle of a transition. -/
def screenAnimating : Screen UiModel :=
  { screenIdle [] with
    ui := { state := { frameState := FrameState.IN_TRANSITION, currentFrame := 2 }, frameCount := 9,
            direction := 1, targetFPS := SCREEN_TRANSITION_FRAMERATE }
    targetFramerate := SCREEN_TRANSITION_FRAMERATE }

/-- The commands `cmds` handled in order, each by the `switch` of `runOnce`. -/
def Screen.processCmds {U : Type} (lib : OLEDDisplayUi U) (env : Env) (t : TickEnv)
    (cmds : List ScreenCmd) (s : Screen U) : Screen U :=
  cmds.foldl (fun st cmd => Screen.dispatch lib env t cmd st) s

/-! ## The command loop with its trace -/

/-- What one run of the command loop of `runOnce` did: the commands it gave
to the `switch`, in order; how many times it called `cmdQueue.dequeue`; the
state it left; and whether it ended through its `break`. -/
structure LoopTrace (U : Type) where
  dispatched : List ScreenCmd
  dequeues : Nat
  state : Screen U
  finished : Bool

/-- The loop `for (;;) { if (!cmdQueue.dequeue(&cmd, 0)) break; switch ... }`
of `runOnce` with its trace, cut after `fuel` iterations; the state it
computes is the one of `Screen.commandLoop`. -/
def Screen.commandLoopTrace {U : Type} (lib : OLEDDisplayUi U) (env : Env) (t : TickEnv) :
    Nat → Screen U → LoopTrace U
  | 0, s => { dispatched := [], dequeues := 0, state := s, finished := false }
  | fuel + 1, s =>
    match s.cmdQueue.dequeue with
    | (none, _) => { dispatched := [], dequeues := 1, state := s, finished := true }
    | (some cmd, q) =>
      let r := Screen.commandLoopTrace lib env t fuel
        (Screen.dispatch lib env t cmd { s with cmdQueue := q })
      { dispatched := cmd :: r.dispatched, dequeues := r.dequeues + 1, state := r.state,
        finished := r.finished }

/-- A UI library that behaves as `lib` and counts the calls of `update` in the
second component of its state. -/
def countingUpdates {U : Type} (lib : OLEDDisplayUi U) : OLEDDisplayUi (U × Nat) where
  getUiState u := lib.getUiState u.1
  setTargetFPS fps u := (lib.setTargetFPS fps u.1, u.2)
  setFrames frames u := (lib.setFrames frames u.1, u.2)
  setOverlays n u := (lib.setOverlays n u.1, u.2)
  enableAllIndicators u := (lib.enableAllIndicators u.1, u.2)
  disableAllIndicators u := (lib.disableAllIndicators u.1, u.2)
  switchToFrame n u := (lib.switchToFrame n u.1, u.2)
  nextFrame u := (lib.nextFrame u.1, u.2)
  previousFrame u := (lib.previousFrame u.1, u.2)
  update now u := (lib.update now u.1, u.2 + 1)

/-! ## The observers -/

/-- The argument of `handleStatusUpdate` and the node counts it compares. -/
structure StatusArg where
  /-- Whether `arg->getStatusType()` is `STATUS_TYPE_NODE`. -/
  isNodeStatus : Bool
  /-- Result of `nodeStatus->getLastNumTotal()`. -/
  lastNumTotal : Nat
  /-- Result of `nodeStatus->getNumTotal()`. -/
  numTotal : Nat
  deriving DecidableEq, Repr

/-- The three values of `UIFrameEvent::Action` that `handleUIFrameEvent` tests. -/
inductive UIFrameEventAction where
  | REDRAW_ONLY
  | REGENERATE_FRAMESET
  | REGENERATE_FRAMESET_BACKGROUND
  deriving DecidableEq, Repr

/-- What `handleInputEvent` compares `event->inputEvent` with. -/
inductive InputEventChar where
  | LEFT
  | RIGHT
  | OTHER
  deriving DecidableEq, Repr

/-- The fields of `InputEvent` that `handleInputEvent` reads. -/
structure InputEvent where
  inputEvent : InputEventChar
  touchX : Nat
  touchY : Nat
  deriving DecidableEq, Repr

/-- The cases of `arg->which_payload_variant` in `handleAdminMessage`. -/
inductive AdminPayload where
  | remove_by_nodenum
  | other
  deriving DecidableEq, Repr

section Observers

variable {U : Type}

/-- Modelled from the spec: `Screen::showPrevFrame` and `enqueueCmd` are
declared in Screen.h, which is not among the sources.  Section 6: a
directional input puts advance-previous on the command queue. -/
def Screen.showPrevFrame (s : Screen U) : Screen U :=
  { s with cmdQueue := (s.cmdQueue.enqueue { cmd := Cmd.SHOW_PREV_FRAME }).2 }

/-- Modelled from the spec: `Screen::showNextFrame` and `enqueueCmd` are
declared in Screen.h, which is not among the sources.  Section 6: a
directional input puts advance-next on the command queue. -/
def Screen.showNextFrame (s : Screen U) : Screen U :=
  { s with cmdQueue := (s.cmdQueue.enqueue { cmd := Cmd.SHOW_NEXT_FRAME }).2 }

/-- The method `Screen::handleStatusUpdate`, with the value it returns; the
write to `nodeDB->updateGUI` is outside the model. -/
def Screen.handleStatusUpdate (lib : OLEDDisplayUi U) (env : Env) (arg : StatusArg)
    (s : Screen U) : Screen U × Int :=
  if arg.isNodeStatus then
    if s.showingNormalScreen && (arg.lastNumTotal != arg.numTotal) then
      (Screen.setFrames lib env FrameFocus.FOCUS_PRESERVE s, 0)
    else (s, 0)
  else (s, 0)

/-- The method `Screen::handleTextMessage`, with the value it returns;
`packetFrom` is `packet->from`. -/
def Screen.handleTextMessage (lib : OLEDDisplayUi U) (env : Env) (packetFrom : Nat)
    (s : Screen U) : Screen U × Int :=
  if s.showingNormalScreen then
    if packetFrom = 0 then (Screen.setFrames lib env FrameFocus.FOCUS_PRESERVE s, 0)
    else (Screen.setFrames lib env FrameFocus.FOCUS_TEXTMESSAGE s, 0)
  else (s, 0)

/-- The method `Screen::handleUIFrameEvent`, with the value it returns. -/
def Screen.handleUIFrameEvent (lib : OLEDDisplayUi U) (env : Env) (action : UIFrameEventAction)
    (s : Screen U) : Screen U × Int :=
  if s.showingNormalScreen then
    if action = UIFrameEventAction.REGENERATE_FRAMESET then
      (Screen.setFrames lib env FrameFocus.FOCUS_MODULE s, 0)
    else if action = UIFrameEventAction.REGENERATE_FRAMESET_BACKGROUND then
      (Screen.setFrames lib env FrameFocus.FOCUS_PRESERVE s, 0)
    else if action = UIFrameEventAction.REDRAW_ONLY then
      (Screen.setFastFramerate lib s, 0)
    else (s, 0)
  else (s, 0)

/-- The method `Screen::handleInputEvent`, with the environment it leaves (it
may toggle `digitalWatchFace`) and the value it returns. -/
def Screen.handleInputEvent (lib : OLEDDisplayUi U) (env : Env) (event : InputEvent)
    (s : Screen U) : Screen U × Env × Int :=
  -- uint8_t watchFaceFrame = error_code ? 1 : 0;
  let watchFaceFrame : Nat := if env.error_code != 0 then 1 else 0
  if env.displayClockFrame
      && (decide ((lib.getUiState s.ui).currentFrame = watchFaceFrame)
        && decide (event.touchX ≥ 204) && decide (event.touchX ≤ 240)
        && decide (event.touchY ≥ 204) && decide (event.touchY ≤ 240)) then
    let env1 : Env := { env with digitalWatchFace := !env.digitalWatchFace }
    (Screen.setFrames lib env1 FrameFocus.FOCUS_DEFAULT s, env1, 0)
  else if s.showingNormalScreen then
    let inputIntercepted := s.moduleFrames.any (fun m => m.interceptingKeyboardInput)
    if !inputIntercepted then
      if event.inputEvent = InputEventChar.LEFT then (Screen.showPrevFrame s, env, 0)
      else if event.inputEvent = InputEventChar.RIGHT then (Screen.showNextFrame s, env, 0)
      else (s, env, 0)
    else (s, env, 0)
  else (s, env, 0)

/-- The method `Screen::handleAdminMessage`, with the value it returns. -/
def Screen.handleAdminMessage (lib : OLEDDisplayUi U) (env : Env) (arg : AdminPayload)
    (s : Screen U) : Screen U × Int :=
  match arg with
  | AdminPayload.remove_by_nodenum => (Screen.setFrames lib env FrameFocus.FOCUS_PRESERVE s, 0)
  | AdminPayload.other => (s, 0)

end Observers

/-- The state `screenIdle` once the tick has handled
`START_FIRMWARE_UPDATE_SCREEN`: the firmware update frame is showing. -/
def screenUpdating : Screen UiModel :=
  Screen.dispatch instantUi envWifi tickQuiet { cmd := Cmd.START_FIRMWARE_UPDATE_SCREEN }
    (screenIdle [])

/-- An environment in which two modules ask for focus in the same rebuild,
the ones at index 0 and at index 1 of three. -/
def envTwoFocus : Env :=
  { envWifi with
    modules := [{ isRequestingFocus := true, isWaypointModule := false },
                { isRequestingFocus := true, isWaypointModule := false },
                { isRequestingFocus := false, isWaypointModule := false }] }

/-- An environment holding an unread text message from node 5 while store and
forward is enabled. -/
def envStoreForward : Env :=
  { envWifi with has_rx_text_message := true, rx_text_message_from := 5,
                 store_forward_enabled := true }

/-! ## Dismissing a frame and the reachable states -/

/-- The method `Screen::dismissCurrentFrame`.  `has_rx_waypoint` is the field
`devicestate.has_rx_waypoint`; the result carries the state, the environment
with the `devicestate.has_rx_text_message` the method leaves, and the
`devicestate.has_rx_waypoint` it leaves.  `setFrames()` without an argument
is `setFrames(FOCUS_DEFAULT)` and runs after the flag is cleared. -/
def Screen.dismissCurrentFrame {U : Type} (lib : OLEDDisplayUi U) (env : Env)
    (has_rx_waypoint : Bool) (s : Screen U) : Screen U × Env × Bool :=
  -- uint8_t currentFrame = ui->getUiState()->currentFrame;
  let currentFrame := (lib.getUiState s.ui).currentFrame % 256
  if decide (currentFrame = s.framesetInfo.positions.textMessage) && env.has_rx_text_message then
    let env1 : Env := { env with has_rx_text_message := false }
    (Screen.setFrames lib env1 FrameFocus.FOCUS_DEFAULT s, env1, has_rx_waypoint)
  else if decide (currentFrame = s.framesetInfo.positions.waypoint) && has_rx_waypoint then
    (Screen.setFrames lib env FrameFocus.FOCUS_DEFAULT s, env, false)
  else (s, env, has_rx_waypoint)

/-- The states of the `Screen` object that the modelled entry points can
produce: any state in which `targetFramerate` still has the value of its
initialiser (`static uint32_t targetFramerate = IDLE_FRAMERATE;`), closed
under the tick, the observers, `dismissCurrentFrame`, `setFrames`,
`setFastFramerate` (also called by `blink`, `setFunctionSymbol` and
`removeFunctionSymbol`), `setFrameImmediateDraw`, `handleSetOn` and the
enqueue of a command by a producer. -/
inductive Screen.Reachable {U : Type} (lib : OLEDDisplayUi U) : Screen U → Prop where
  | start (s : Screen U) (h : s.targetFramerate = IDLE_FRAMERATE) : Screen.Reachable lib s
  | runOnce (env : Env) (t : TickEnv) (s : Screen U) (h : Screen.Reachable lib s) :
      Screen.Reachable lib (Screen.runOnce lib env t s).1
  | handleStatusUpdate (env : Env) (arg : StatusArg) (s : Screen U)
      (h : Screen.Reachable lib s) :
      Screen.Reachable lib (Screen.handleStatusUpdate lib env arg s).1
  | handleTextMessage (env : Env) (packetFrom : Nat) (s : Screen U)
      (h : Screen.Reachable lib s) :
      Screen.Reachable lib (Screen.handleTextMessage lib env packetFrom s).1
  | handleUIFrameEvent (env : Env) (action : UIFrameEventAction) (s : Screen U)
      (h : Screen.Reachable lib s) :
      Screen.Reachable lib (Screen.handleUIFrameEvent lib env action s).1
  | handleInputEvent (env : Env) (event : InputEvent) (s : Screen U)
      (h : Screen.Reachable lib s) :
      Screen.Reachable lib (Screen.handleInputEvent lib env event s).1
  | handleAdminMessage (env : Env) (arg : AdminPayload) (s : Screen U)
      (h : Screen.Reachable lib s) :
      Screen.Reachable lib (Screen.handleAdminMessage lib env arg s).1
  | dismissCurrentFrame (env : Env) (has_rx_waypoint : Bool) (s : Screen U)
      (h : Screen.Reachable lib s) :
      Screen.Reachable lib (Screen.dismissCurrentFrame lib env has_rx_waypoint s).1
  | setFrames (env : Env) (focus : FrameFocus) (s : Screen U) (h : Screen.Reachable lib s) :
      Screen.Reachable lib (Screen.setFrames lib env focus s)
  | setFastFramerate (s : Screen U) (h : Screen.Reachable lib s) :
      Screen.Reachable lib (Screen.setFastFramerate lib s)
  | setFrameImmediateDraw (drawFrame : FrameCallback) (s : Screen U)
      (h : Screen.Reachable lib s) :
      Screen.Reachable lib (Screen.setFrameImmediateDraw lib drawFrame s)
  | handleSetOn (turnOn : Bool) (s : Screen U) (h : Screen.Reachable lib s) :
      Screen.Reachable lib (Screen.handleSetOn turnOn s)
  | enqueue (cmd : ScreenCmd) (s : Screen U) (h : Screen.Reachable lib s) :
      Screen.Reachable lib { s with cmdQueue := (s.cmdQueue.enqueue cmd).2 }

/-- The two values that `targetFramerate` is given. -/
def Screen.rateOk {U : Type} (s : Screen U) : Prop :=
  s.targetFramerate = IDLE_FRAMERATE ∨ s.targetFramerate = SCREEN_TRANSITION_FRAMERATE

/-! ## The wait loops of the e-ink build -/

/-- The loop
`do { startUpdate = millis(); delay(..); ui->update(); } while (ui->getUiState()->lastUpdate < startUpdate);`
of `Screen::forceDisplay(true)` (with `delay(10)`) and of
`Screen::setScreensaverFrames` (with `delay(1)`), both under `USE_EINK`, cut
after `fuel` iterations.  `obs i` is what iteration `i` reads: the
`startUpdate` it captures and the `lastUpdate` of the UI after its
`ui->update()`.  The result is the number of iterations run when the loop
ends, `none` when the fuel runs out first. -/
def drawWaitLoop (obs : Nat → Nat × Nat) : Nat → Nat → Option Nat
  | 0, _ => none
  | fuel + 1, i =>
    let startUpdate := (obs i).1
    let lastUpdate := (obs i).2
    if lastUpdate < startUpdate then drawWaitLoop obs fuel (i + 1)
    else some (i + 1)

/-- A UI whose `lastUpdate` never advances: it stays 0 while `millis()` reads
1000, 1010, 1020, ... -/
def obsStuck : Nat → Nat × Nat := fun i => (1000 + 10 * i, 0)

/-- A UI whose third `ui->update()` draws: `lastUpdate` stays 990 in the first
two iterations and is 1025 after the third. -/
def obsThird : Nat → Nat × Nat := fun i => (1000 + 10 * i, if i < 2 then 990 else 1025)

/-! ## Timestamps -/

/-- Modelled from the spec: the macro `SEC_PER_DAY` (gps/RTC.h) is not among
the sources; the seconds of a day. -/
def SEC_PER_DAY : Nat := 86400

/-- Modelled from the spec: the macro `SEC_PER_HOUR` (gps/RTC.h) is not among
the sources; the seconds of an hour. -/
def SEC_PER_HOUR : Nat := 3600

/-- Modelled from the spec: the macro `SEC_PER_MIN` (gps/RTC.h) is not among
the sources; the seconds of a minute. -/
def SEC_PER_MIN : Nat := 60

/-- The statics of `deltaToTimestamp`, with their initialisers. -/
structure TimestampCache where
  hoursCached : Nat := 0
  minutesCached : Nat := 0
  /-- The `uint32_t daysAgoCached`. -/
  daysAgoCached : Nat := 0
  secondsAgoCached : Nat := 0
  validCached : Bool := false
  deriving DecidableEq, Repr

/-- What one call of `deltaToTimestamp` reads. -/
structure TimestampCall where
  /-- Result of `strlen(config.device.tzdef)`. -/
  tzdefLength : Nat
  /-- Whether none of `hours`, `minutes`, `daysAgo` is `nullptr`. -/
  pointersValid : Bool
  /-- The argument `secondsAgo`, a `uint32_t`. -/
  secondsAgo : Nat
  /-- Result of `getValidTime(RTCQuality::RTCQualityDevice, true)`, a
  `uint32_t`, read only when the call reaches it. -/
  secondsRTC : Nat
  deriving DecidableEq, Repr

/-- What one call of `deltaToTimestamp` leaves: the statics, the value
returned, and `(*hours, *minutes, *daysAgo)` when the call writes them
(`*daysAgo` as the 32-bit pattern the source computes). -/
structure TimestampResult where
  cache : TimestampCache
  result : Bool
  written : Option (Nat × Nat × Nat)
  deriving DecidableEq, Repr

/-- The function `deltaToTimestamp`; `uint32_t` arithmetic is taken modulo
`2 ^ 32`, the stores to `uint8_t` modulo 256. -/
def deltaToTimestamp (c : TimestampCache) (a : TimestampCall) : TimestampResult :=
  if a.tzdefLength = 0 then
    { cache := { c with validCached := false }, result := false, written := none }
  else if !a.pointersValid then
    { cache := { c with validCached := false }, result := false, written := none }
  else if a.secondsAgo > SEC_PER_DAY * 30 * 6 then
    { cache := { c with validCached := false }, result := false, written := none }
  else if (a.secondsAgo + 2 ^ 32 - c.secondsAgoCached) % 2 ^ 32 < 60
      ∧ c.secondsAgoCached ≠ 0 then
    if c.validCached then
      { cache := c, result := true,
        written := some (c.hoursCached, c.minutesCached, c.daysAgoCached) }
    else
      { cache := c, result := false, written := none }
  else if a.secondsRTC = 0 then
    { cache := { c with validCached := false }, result := false, written := none }
  else
    let secondsSeenAt := (a.secondsRTC + 2 ^ 32 - a.secondsAgo) % 2 ^ 32
    let daysAgo := (a.secondsRTC / SEC_PER_DAY + 2 ^ 32 - secondsSeenAt / SEC_PER_DAY) % 2 ^ 32
    let hms0 := ((a.secondsRTC + 2 ^ 32 - a.secondsAgo) % 2 ^ 32) % SEC_PER_DAY
    let hms := ((hms0 + SEC_PER_DAY) % 2 ^ 32) % SEC_PER_DAY
    let hours := (hms / SEC_PER_HOUR) % 256
    let minutes := ((hms % SEC_PER_HOUR) / SEC_PER_MIN) % 256
    { cache := { hoursCached := hours, minutesCached := minutes, daysAgoCached := daysAgo,
                 secondsAgoCached := a.secondsAgo, validCached := true },
      result := true, written := some (hours, minutes, daysAgo) }

/-- Whether the call is answered from the statics: the test
`secondsAgo - secondsAgoCached < 60 && secondsAgoCached != 0`. -/
def TimestampCache.hit (c : TimestampCache) (secondsAgo : Nat) : Prop :=
  (secondsAgo + 2 ^ 32 - c.secondsAgoCached) % 2 ^ 32 < 60 ∧ c.secondsAgoCached ≠ 0

instance (c : TimestampCache) (secondsAgo : Nat) : Decidable (c.hit secondsAgo) := by
  unfold TimestampCache.hit
  exact inferInstance

/-! ## The node list -/

/-- The constant `UINT32_MAX`. -/
def UINT32_MAX : Nat := 2 ^ 32 - 1

/-- The fields of `meshtastic_NodeInfoLite` that `retrieveAndSortNodes` reads. -/
structure NodeInfoLite where
  num : Nat
  is_favorite : Bool
  deriving DecidableEq, Repr

/-- The `struct NodeEntry`: a node and how long ago it was heard. -/
structure NodeEntry where
  node : NodeInfoLite
  lastHeard : Nat
  deriving DecidableEq, Repr

/-- The comparator that `retrieveAndSortNodes` passes to `std::sort`. -/
def nodeLess (a b : NodeEntry) : Bool :=
  let aFav := a.node.is_favorite
  let bFav := b.node.is_favorite
  if aFav != bFav then decide (aFav > bFav)
  else if a.lastHeard == 0 || a.lastHeard == UINT32_MAX then false
  else if b.lastHeard == 0 || b.lastHeard == UINT32_MAX then true
  else decide (a.lastHeard < b.lastHeard)

/-- The loop of `retrieveAndSortNodes`: `db` lists `nodeDB->getMeshNodeByIndex(i)`
for `i` below `nodeDB->getNumMeshNodes()` (`none` for a null pointer),
`localNum` is `nodeDB->getNodeNum()`, and `sinceLastSeen` is the function of
that name, which is not among the sources. -/
def collectNodes (db : List (Option NodeInfoLite)) (localNum : Nat)
    (sinceLastSeen : NodeInfoLite → Nat) (nodeList : List NodeEntry) : List NodeEntry :=
  db.foldl
    (fun acc entry =>
      match entry with
      | none => acc
      | some node =>
        if node.num = localNum then acc
        else acc ++ [{ node := node, lastHeard := sinceLastSeen node }])
    nodeList

/-- The function `retrieveAndSortNodes`; `sort` stands for `std::sort` of the
C++ standard library. -/
def retrieveAndSortNodes (sort : (NodeEntry → NodeEntry → Bool) → List NodeEntry → List NodeEntry)
    (db : List (Option NodeInfoLite)) (localNum : Nat) (sinceLastSeen : NodeInfoLite → Nat)
    (nodeList : List NodeEntry) : List NodeEntry :=
  sort nodeLess (collectNodes db localNum sinceLastSeen nodeList)

/-- A sorting function that meets the contract of `std::sort`, for examples. -/
def stdSort (less : NodeEntry → NodeEntry → Bool) (l : List NodeEntry) : List NodeEntry :=
  l.insertionSort (fun a b => less b a = false)

/-- Whether the age of an entry is known: neither 0 nor `UINT32_MAX`. -/
def NodeEntry.known (a : NodeEntry) : Prop := a.lastHeard ≠ 0 ∧ a.lastHeard ≠ UINT32_MAX

/-- The order that the result of `retrieveAndSortNodes` has, for an entry `a`
placed before an entry `b`: a favorite is not behind a non-favorite and, in
the same group, a known age is not behind an unknown one and known ages do
not decrease. -/
def NodeEntry.inOrder (a b : NodeEntry) : Prop :=
  (b.node.is_favorite = true → a.node.is_favorite = true) ∧
  (a.node.is_favorite = b.node.is_favorite →
    (b.known → a.known) ∧ (a.known → b.known → a.lastHeard ≤ b.lastHeard))

/-- A database of five entries: the local node 1, a null entry and three
other nodes, node 4 a favorite. -/
def dbExample : List (Option NodeInfoLite) :=
  [some { num := 1, is_favorite := false }, some { num := 2, is_favorite := false }, none,
   some { num := 3, is_favorite := false }, some { num := 4, is_favorite := true }]

/-- Ages for `dbExample`: node 2 heard 50 s ago, node 3 never, node 4 heard
900 s ago. -/
def sinceExample (n : NodeInfoLite) : Nat :=
  if n.num = 2 then 50 else if n.num = 3 then UINT32_MAX else 900

/-! ## The function overlay and the brightness -/

/-- The globals `functionSymbol` and `functionSymbolString`. -/
structure FunctionSymbols where
  functionSymbol : List String := []
  functionSymbolString : String := ""
  deriving DecidableEq, Repr

/-- The loop `for (auto symbol : functionSymbol) functionSymbolString = symbol + " " + functionSymbolString;`
run on the empty string. -/
def buildFunctionSymbolString (symbols : List String) : String :=
  symbols.foldl (fun acc symbol => symbol ++ " " ++ acc) ""

/-- The method `Screen::setFunctionSymbol`, on the screen and the two globals. -/
def Screen.setFunctionSymbol {U : Type} (lib : OLEDDisplayUi U) (sym : String)
    (s : Screen U × FunctionSymbols) : Screen U × FunctionSymbols :=
  if sym ∉ s.2.functionSymbol then
    let symbols := s.2.functionSymbol ++ [sym]
    (Screen.setFastFramerate lib s.1,
     { functionSymbol := symbols, functionSymbolString := buildFunctionSymbolString symbols })
  else s

/-- The method `Screen::removeFunctionSymbol`, on the screen and the two
globals; `erase(remove(...))` drops every element equal to `sym`. -/
def Screen.removeFunctionSymbol {U : Type} (lib : OLEDDisplayUi U) (sym : String)
    (s : Screen U × FunctionSymbols) : Screen U × FunctionSymbols :=
  let symbols := s.2.functionSymbol.filter (fun x => x != sym)
  (Screen.setFastFramerate lib s.1,
   { functionSymbol := symbols, functionSymbolString := buildFunctionSymbolString symbols })

/-- One of the two operations on the function overlay. -/
inductive SymbolOp where
  | set (sym : String)
  | remove (sym : String)
  deriving DecidableEq, Repr

/-- A sequence of the two operations, applied in order. -/
def Screen.runSymbolOps {U : Type} (lib : OLEDDisplayUi U) (ops : List SymbolOp)
    (s : Screen U × FunctionSymbols) : Screen U × FunctionSymbols :=
  ops.foldl
    (fun st op =>
      match op with
      | SymbolOp.set sym => Screen.setFunctionSymbol lib sym st
      | SymbolOp.remove sym => Screen.removeFunctionSymbol lib sym st)
    s

/-- The symbols in reverse order, each followed by one space. -/
def reversedWithSpaces : List String → String
  | [] => ""
  | sym :: rest => reversedWithSpaces rest ++ (sym ++ " ")

/-- Specification: the calls made after the last
`removeFunctionSymbol(sym)` among the calls `ops` (all of them if `sym` was
never removed). -/
def specSinceRemoval (ops : List SymbolOp) (sym : String) : List SymbolOp :=
  (ops.reverse.takeWhile (fun op => op != SymbolOp.remove sym)).reverse

/-- Specification: `sym` is shown after the calls `ops`
when `setFunctionSymbol(sym)` was called since `sym` was last removed. -/
def specShown (ops : List SymbolOp) (sym : String) : Prop :=
  SymbolOp.set sym ∈ specSinceRemoval ops sym

instance (ops : List SymbolOp) (sym : String) : Decidable (specShown ops sym) :=
  inferInstanceAs (Decidable (SymbolOp.set sym ∈ specSinceRemoval ops sym))

/-- Specification: the symbols inserted by the calls `rest`
that come after the calls `before`, in the order of the inserting calls.  A
call inserts `sym` when it is `setFunctionSymbol(sym)`, `sym` is not shown
after the calls before it, and no later call removes `sym`. -/
def specInsertionsFrom (before : List SymbolOp) : List SymbolOp → List String
  | [] => []
  | SymbolOp.set sym :: rest =>
    if ¬ specShown before sym ∧ SymbolOp.remove sym ∉ rest then
      sym :: specInsertionsFrom (before ++ [SymbolOp.set sym]) rest
    else specInsertionsFrom (before ++ [SymbolOp.set sym]) rest
  | SymbolOp.remove sym :: rest =>
    specInsertionsFrom (before ++ [SymbolOp.remove sym]) rest

/-- Specification: the insertion order after the calls
`ops`, the symbols shown at the end in the order of the calls that inserted
them. -/
def specInsertionOrder (ops : List SymbolOp) : List String :=
  specInsertionsFrom [] ops

/-- Six calls: `A`, `B`, `A` again (already shown), `A` removed, `C`, and `A`
once more. -/
def symbolOpsExample : List SymbolOp :=
  [SymbolOp.set "A", SymbolOp.set "B", SymbolOp.set "A", SymbolOp.remove "A",
   SymbolOp.set "C", SymbolOp.set "A"]

/-- The method `Screen::increaseBrightness` on the `uint8_t brightness`
(`ST7789_CS` is not defined). -/
def increaseBrightness (brightness : Nat) : Nat :=
  (if brightness + 62 > 254 then brightness else brightness + 62) % 256

/-- The method `Screen::decreaseBrightness` on the `uint8_t brightness`
(`ST7789_CS` is not defined). -/
def decreaseBrightness (brightness : Nat) : Nat :=
  (if brightness < 70 then brightness else brightness - 62) % 256

/-- A UI library that behaves as `lib` and keeps, in the second component of
its state, the frames last given to `ui->setFrames`. -/
def recordingFrames {U : Type} (lib : OLEDDisplayUi U) :
    OLEDDisplayUi (U × List FrameCallback) where
  getUiState u := lib.getUiState u.1
  setTargetFPS fps u := (lib.setTargetFPS fps u.1, u.2)
  setFrames frames u := (lib.setFrames frames u.1, frames)
  setOverlays n u := (lib.setOverlays n u.1, u.2)
  enableAllIndicators u := (lib.enableAllIndicators u.1, u.2)
  disableAllIndicators u := (lib.disableAllIndicators u.1, u.2)
  switchToFrame n u := (lib.switchToFrame n u.1, u.2)
  nextFrame u := (lib.nextFrame u.1, u.2)
  previousFrame u := (lib.previousFrame u.1, u.2)
  update now u := (lib.update now u.1, u.2)

/-- An environment with no module, no fault and no clock frame, holding an
unread text message from node 5: the text message frame is the first frame
that `setFrames` writes. -/
def envIncoming : Env :=
  { envWifi with has_rx_text_message := true, rx_text_message_from := 5 }

/-- The idle screen after `setFrames(FOCUS_TEXTMESSAGE)` in `envIncoming`,
the call that `handleTextMessage` makes for the incoming message. -/
def screenTextMessage : Screen (UiModel × List FrameCallback) :=
  Screen.setFrames (recordingFrames instantUi) envIncoming FrameFocus.FOCUS_TEXTMESSAGE
    { screenIdle [] with
      ui := ((screenIdle []).ui, (rebuild envWifi FrameFocus.FOCUS_DEFAULT 0 {}).frames) }

/-- The state `screenTextMessage` after `handleStartFirmwareUpdateScreen`:
the firmware update frame is showing. -/
def screenTextThenFirmware : Screen (UiModel × List FrameCallback) :=
  Screen.handleStartFirmwareUpdateScreen (recordingFrames instantUi) screenTextMessage

/-! ## Theorems -/

/-! ### The frame-set builder -/

theorem addModuleFrame_frames (b : Build) (m : MeshModule) :
    (addModuleFrame b m).frames = b.frames ++ [FrameCallback.drawModuleFrame] := by
  simp [addModuleFrame]

theorem addModuleFrame_fixed (b : Build) (m : MeshModule) :
    (addModuleFrame b m).fsi.positions.fault = b.fsi.positions.fault ∧
    (addModuleFrame b m).fsi.positions.textMessage = b.fsi.positions.textMessage ∧
    (addModuleFrame b m).fsi.positions.log = b.fsi.positions.log ∧
    (addModuleFrame b m).fsi.positions.settings = b.fsi.positions.settings ∧
    (addModuleFrame b m).fsi.positions.wifi = b.fsi.positions.wifi ∧
    (addModuleFrame b m).fsi.frameCount = b.fsi.frameCount := by
  unfold addModuleFrame
  cases m.isRequestingFocus <;> cases m.isWaypointModule <;> simp

theorem addModuleFrames_frames (ms : List MeshModule) (b : Build) :
    (addModuleFrames b ms).frames
      = b.frames ++ List.replicate ms.length FrameCallback.drawModuleFrame := by
  induction ms generalizing b with
  | nil => simp [addModuleFrames]
  | cons m ms ih =>
    have h := ih (addModuleFrame b m)
    simp only [addModuleFrames, List.foldl_cons] at h ⊢
    rw [h, addModuleFrame_frames]
    simp [List.replicate_succ]

theorem addModuleFrames_fixed (ms : List MeshModule) (b : Build) :
    (addModuleFrames b ms).fsi.positions.fault = b.fsi.positions.fault ∧
    (addModuleFrames b ms).fsi.positions.textMessage = b.fsi.positions.textMessage ∧
    (addModuleFrames b ms).fsi.positions.log = b.fsi.positions.log ∧
    (addModuleFrames b ms).fsi.positions.settings = b.fsi.positions.settings ∧
    (addModuleFrames b ms).fsi.positions.wifi = b.fsi.positions.wifi ∧
    (addModuleFrames b ms).fsi.frameCount = b.fsi.frameCount := by
  induction ms generalizing b with
  | nil => simp [addModuleFrames]
  | cons m ms ih =>
    have h := ih (addModuleFrame b m)
    have h1 := addModuleFrame_fixed b m
    simp only [addModuleFrames, List.foldl_cons] at h ⊢
    refine ⟨?_, ?_, ?_, ?_, ?_, ?_⟩
    · rw [h.1, h1.1]
    · rw [h.2.1, h1.2.1]
    · rw [h.2.2.1, h1.2.2.1]
    · rw [h.2.2.2.1, h1.2.2.2.1]
    · rw [h.2.2.2.2.1, h1.2.2.2.2.1]
    · rw [h.2.2.2.2.2, h1.2.2.2.2.2]

theorem addModuleFrames_numframes (ms : List MeshModule) :
    (addModuleFrames {} ms).numframes = ms.length := by
  simp [Build.numframes, addModuleFrames_frames]

theorem addFixedFrames_eq (b : Build) :
    addFixedFrames b = { frames := b.frames ++ fixedFrames, fsi := b.fsi } := by
  simp [addFixedFrames, fixedFrames, Build.push]

theorem buildFrames_frames (env : Env) (focus : FrameFocus) :
    (buildFrames env focus).1.frames
      = List.replicate env.modules.length FrameCallback.drawModuleFrame ++ faultFrames env
          ++ clockFrames env ++ textMessageFrames env ++ fixedFrames ++ wifiFrames env := by
  simp only [buildFrames, addFaultFrame, addClockFrame, addTextMessageFrame, addFixedFrames_eq,
    addWifiFrame, Build.push, faultFrames, clockFrames, textMessageFrames, wifiFrames]
  split_ifs <;> simp [addModuleFrames_frames]

theorem buildFrames_focus (env : Env) (focus : FrameFocus) :
    (buildFrames env focus).2 = if env.error_code != 0 then FrameFocus.FOCUS_FAULT else focus := by
  simp only [buildFrames, addFaultFrame]
  split_ifs <;> rfl

theorem buildFrames_frameCount (env : Env) (focus : FrameFocus) :
    (buildFrames env focus).1.fsi.frameCount = (buildFrames env focus).1.frames.length := by
  simp [buildFrames, Build.numframes]

theorem buildFrames_fault (env : Env) (focus : FrameFocus) :
    (buildFrames env focus).1.fsi.positions.fault = env.modules.length := by
  have h := addModuleFrames_frames env.modules {}
  simp only [buildFrames, addFaultFrame, addClockFrame, addTextMessageFrame, addFixedFrames_eq,
    addWifiFrame, Build.push, Build.numframes]
  split_ifs <;> simp [h]

theorem buildFrames_log_settings (env : Env) (focus : FrameFocus) :
    (buildFrames env focus).1.fsi.positions.log = 0 ∧
    (buildFrames env focus).1.fsi.positions.settings = 0 := by
  have h := addModuleFrames_fixed env.modules {}
  simp only [buildFrames, addFaultFrame, addClockFrame, addTextMessageFrame, addFixedFrames_eq,
    addWifiFrame, Build.push, Build.numframes]
  split_ifs <;> simp [h]

theorem buildFrames_textMessage (env : Env) (focus : FrameFocus)
    (h : (env.has_rx_text_message && shouldDrawMessage env env.rx_text_message_from) = true) :
    (buildFrames env focus).1.fsi.positions.textMessage
      = env.modules.length + (faultFrames env).length + (clockFrames env).length := by
  have h1 := addModuleFrames_frames env.modules {}
  simp only [buildFrames, addFaultFrame, addClockFrame, addTextMessageFrame, addFixedFrames_eq,
    addWifiFrame, Build.push, Build.numframes, faultFrames, clockFrames, h]
  split_ifs <;> simp [h1]

theorem buildFrames_wifi (env : Env) (focus : FrameFocus) :
    (buildFrames env focus).1.fsi.positions.wifi
      = env.modules.length + (faultFrames env).length + (clockFrames env).length
          + (textMessageFrames env).length + 8 := by
  have h1 := addModuleFrames_frames env.modules {}
  simp only [buildFrames, addFaultFrame, addClockFrame, addTextMessageFrame, addFixedFrames_eq,
    addWifiFrame, Build.push, Build.numframes, faultFrames, clockFrames, textMessageFrames]
  split_ifs <;> simp [h1, fixedFrames]

/-! ### Focus resolution of a rebuild (C1 to C7) -/

theorem rebuild_fsi (env : Env) (focus : FrameFocus) (p : Nat) (oldFsi : FramesetInfo) :
    (rebuild env focus p oldFsi).fsi = (buildFrames env focus).1.fsi := rfl

theorem rebuild_frames (env : Env) (focus : FrameFocus) (p : Nat) (oldFsi : FramesetInfo) :
    (rebuild env focus p oldFsi).frames = (buildFrames env focus).1.frames := rfl

theorem rebuild_switchTo (env : Env) (focus : FrameFocus) (p : Nat) (oldFsi : FramesetInfo) :
    (rebuild env focus p oldFsi).switchTo
      = focusTarget (if env.error_code != 0 then FrameFocus.FOCUS_FAULT else focus) p oldFsi
          (buildFrames env focus).1.fsi := by
  rw [← buildFrames_focus]; rfl

/-- What `Screen::setFrames` leaves in the state, in terms of `rebuild`: the
normal screen is showing, the new table is stored, and the UI library was
given the new frames and then the index `switchTo`. -/
theorem setFrames_state {U : Type} (lib : OLEDDisplayUi U) (env : Env) (focus : FrameFocus)
    (s : Screen U) :
    (Screen.setFrames lib env focus s).showingNormalScreen = true ∧
    (Screen.setFrames lib env focus s).framesetInfo
      = (rebuild env focus ((lib.getUiState s.ui).currentFrame % 256) s.framesetInfo).fsi ∧
    (Screen.setFrames lib env focus s).targetFramerate = SCREEN_TRANSITION_FRAMERATE ∧
    (Screen.setFrames lib env focus s).ui
      = lib.setTargetFPS SCREEN_TRANSITION_FRAMERATE
          (lib.switchToFrame
            (rebuild env focus ((lib.getUiState s.ui).currentFrame % 256) s.framesetInfo).switchTo
            (lib.setOverlays 1 (lib.enableAllIndicators
              (lib.setFrames
                (rebuild env focus ((lib.getUiState s.ui).currentFrame % 256)
                  s.framesetInfo).frames s.ui)))) :=
  ⟨rfl, rfl, rfl, rfl⟩

/-- Claim C1 as stated fails.  The table `fsiWifi` was installed by a rebuild
with WiFi available: nine frames, the WiFi frame at index 8.  The viewer is on
that frame (`p = 8`) when a rebuild with `FOCUS_PRESERVE`, no fault and WiFi
gone builds eight frames (`k = 1`).  The claim gives `p - k = 7`; the rebuild
matches the WiFi position of the old table first and asks for index 8, the
WiFi position it recorded in the new table. -/
theorem setFrames_preserve_shift_counterexample :
    envNoWifi.error_code = 0 ∧
    fsiWifi = (rebuild envWifi FrameFocus.FOCUS_DEFAULT 0 {}).fsi ∧
    fsiWifi.frameCount = 9 ∧
    (rebuild envNoWifi FrameFocus.FOCUS_PRESERVE 8 fsiWifi).fsi.frameCount = 9 - 1 ∧
    1 ≤ 8 ∧
    (rebuild envNoWifi FrameFocus.FOCUS_PRESERVE 8 fsiWifi).switchTo = 8 ∧
    (rebuild envNoWifi FrameFocus.FOCUS_PRESERVE 8 fsiWifi).switchTo ≠ 8 - 1 := by
  decide

/-- Claim C1, amended: a rebuild with `FOCUS_PRESERVE` and no critical fault,
from an old table of `n` frames (an 8-bit count, `n < 256`) to a new one of
`n - k` frames with `0 < k`, whose previous index `p` is none of the special
positions recorded in the old table (log, settings, wifi), focuses `p - k` when
`k ≤ p` and `0` when `p < k`. -/
theorem setFrames_preserve_shift (env : Env) (oldFsi : FramesetInfo) (p k : Nat)
    (hfault : env.error_code = 0) (hk : 0 < k)
    (hcount : (rebuild env FrameFocus.FOCUS_PRESERVE p oldFsi).fsi.frameCount + k
      = oldFsi.frameCount)
    (h8 : oldFsi.frameCount < 256)
    (hlog : p ≠ oldFsi.positions.log) (hsettings : p ≠ oldFsi.positions.settings)
    (hwifi : p ≠ oldFsi.positions.wifi) :
    (rebuild env FrameFocus.FOCUS_PRESERVE p oldFsi).switchTo = if k ≤ p then p - k else 0 := by
  rw [rebuild_fsi] at hcount
  rw [rebuild_switchTo]
  simp only [hfault, bne_self_eq_false, Bool.false_eq_true, if_false, focusTarget, hlog,
    hsettings, hwifi]
  have hlt : (buildFrames env FrameFocus.FOCUS_PRESERVE).1.fsi.frameCount < oldFsi.frameCount := by
    omega
  have hd : (oldFsi.frameCount - (buildFrames env FrameFocus.FOCUS_PRESERVE).1.fsi.frameCount) % 256
      = k := by
    rw [Nat.mod_eq_of_lt] <;> omega
  simp only [hlt, if_true, hd]

/-- The amended claim C1 at `p = 3`, `k = 1`, from nine frames to eight. -/
theorem setFrames_preserve_shift_witness :
    (rebuild envNoWifi FrameFocus.FOCUS_PRESERVE 3 fsiWifi).switchTo = if 1 ≤ 3 then 3 - 1 else 0 :=
  setFrames_preserve_shift envNoWifi fsiWifi 3 1 (by decide) (by decide) (by decide) (by decide)
    (by decide) (by decide) (by decide)

/-- Claim C2: a rebuild with `FOCUS_PRESERVE` and no critical fault in which
the new frame count equals the old one, and whose previous index `p` is none of
the special positions recorded in the old table (log, settings, wifi), focuses
`p`. -/
theorem setFrames_preserve_same_count (env : Env) (oldFsi : FramesetInfo) (p : Nat)
    (hfault : env.error_code = 0)
    (hcount : (rebuild env FrameFocus.FOCUS_PRESERVE p oldFsi).fsi.frameCount
      = oldFsi.frameCount)
    (hlog : p ≠ oldFsi.positions.log) (hsettings : p ≠ oldFsi.positions.settings)
    (hwifi : p ≠ oldFsi.positions.wifi) :
    (rebuild env FrameFocus.FOCUS_PRESERVE p oldFsi).switchTo = p := by
  rw [rebuild_fsi] at hcount
  rw [rebuild_switchTo]
  simp [hfault, focusTarget, hlog, hsettings, hwifi, hcount]

/-- Claim C2 at `p = 3`, from nine frames to nine. -/
theorem setFrames_preserve_same_count_witness :
    (rebuild envWifi FrameFocus.FOCUS_PRESERVE 3 fsiWifi).switchTo = 3 :=
  setFrames_preserve_same_count envWifi fsiWifi 3 (by decide) (by decide) (by decide)
    (by decide) (by decide)

/-- Indexing past a block of `n` equal frames. -/
theorem getElemOpt_replicate_append {α : Type} (n j : Nat) (a : α) (l : List α) :
    (List.replicate n a ++ l)[n + j]? = l[j]? := by
  rw [List.getElem?_append_right (by simp)]
  simp

/-- Claim C3: with a critical fault (`error_code != 0`) every rebuild, whatever
focus was requested and whatever the previous index and the old table were,
focuses the fault position, which is the number of module frames; the fault
frame is at that index and the module frames fill the indices before it. -/
theorem setFrames_fault_wins (env : Env) (focus : FrameFocus) (p : Nat) (oldFsi : FramesetInfo)
    (hfault : env.error_code ≠ 0) :
    (rebuild env focus p oldFsi).switchTo = env.modules.length ∧
    (rebuild env focus p oldFsi).switchTo = (rebuild env focus p oldFsi).fsi.positions.fault ∧
    (rebuild env focus p oldFsi).frames[env.modules.length]?
      = some FrameCallback.drawCriticalFaultFrame ∧
    (∀ i, i < env.modules.length →
      (rebuild env focus p oldFsi).frames[i]? = some FrameCallback.drawModuleFrame) := by
  have hb : (env.error_code != 0) = true := by simpa using hfault
  refine ⟨?_, ?_, ?_, ?_⟩
  · rw [rebuild_switchTo]
    simp [hb, focusTarget, buildFrames_fault]
  · rw [rebuild_switchTo, rebuild_fsi]
    simp [hb, focusTarget]
  · rw [rebuild_frames, buildFrames_frames]
    simp only [faultFrames, hb, if_true, List.append_assoc]
    have h := getElemOpt_replicate_append env.modules.length 0 FrameCallback.drawModuleFrame
      ([FrameCallback.drawCriticalFaultFrame] ++
        (clockFrames env ++ (textMessageFrames env ++ (fixedFrames ++ wifiFrames env))))
    simpa using h
  · intro i hi
    rw [rebuild_frames, buildFrames_frames]
    simp [List.getElem?_append_left, hi]

/-- Claim C3 with two modules and `FOCUS_PRESERVE` requested. -/
theorem setFrames_fault_wins_witness :
    envFault.error_code ≠ 0 ∧
    (rebuild envFault FrameFocus.FOCUS_PRESERVE 9 fsiWifi).switchTo = 2 :=
  ⟨by decide, (setFrames_fault_wins envFault FrameFocus.FOCUS_PRESERVE 9 fsiWifi (by decide)).1⟩

/-- Claim C4: a rebuild with `FOCUS_TEXTMESSAGE` and no critical fault that
inserts a text message frame focuses the recorded text message position; that
position is the module count, plus one if the build has a clock frame; the
text message frame is at that index; and the focused index is the same for
every previous index and every old table. -/
theorem setFrames_textmessage_focus (env : Env) (p : Nat) (oldFsi : FramesetInfo)
    (hfault : env.error_code = 0)
    (htext : env.has_rx_text_message = true ∧
      shouldDrawMessage env env.rx_text_message_from = true) :
    (rebuild env FrameFocus.FOCUS_TEXTMESSAGE p oldFsi).switchTo
      = (rebuild env FrameFocus.FOCUS_TEXTMESSAGE p oldFsi).fsi.positions.textMessage ∧
    (rebuild env FrameFocus.FOCUS_TEXTMESSAGE p oldFsi).fsi.positions.textMessage
      = env.modules.length + (if env.displayClockFrame then 1 else 0) ∧
    (rebuild env FrameFocus.FOCUS_TEXTMESSAGE p oldFsi).frames[
        (rebuild env FrameFocus.FOCUS_TEXTMESSAGE p oldFsi).fsi.positions.textMessage]?
      = some FrameCallback.drawTextMessageFrame ∧
    (∀ (p' : Nat) (oldFsi' : FramesetInfo),
      (rebuild env FrameFocus.FOCUS_TEXTMESSAGE p' oldFsi').switchTo
        = (rebuild env FrameFocus.FOCUS_TEXTMESSAGE p oldFsi).switchTo) := by
  have hb : (env.error_code != 0) = false := by simp [hfault]
  have ht : (env.has_rx_text_message && shouldDrawMessage env env.rx_text_message_from) = true := by
    simp [htext.1, htext.2]
  have hpos := buildFrames_textMessage env FrameFocus.FOCUS_TEXTMESSAGE ht
  have hpos' : (buildFrames env FrameFocus.FOCUS_TEXTMESSAGE).1.fsi.positions.textMessage
      = env.modules.length + (if env.displayClockFrame then 1 else 0) := by
    rw [hpos]
    cases hc : env.displayClockFrame <;> simp [faultFrames, hb, clockFrames, hc]
  refine ⟨?_, ?_, ?_, ?_⟩
  · rw [rebuild_switchTo, rebuild_fsi]
    simp [hb, focusTarget]
  · rw [rebuild_fsi]; exact hpos'
  · rw [rebuild_frames, rebuild_fsi, hpos', buildFrames_frames]
    simp only [List.append_assoc]
    cases hc : env.displayClockFrame
    · simpa [faultFrames, hb, clockFrames, textMessageFrames, ht, hc] using
        getElemOpt_replicate_append env.modules.length 0 FrameCallback.drawModuleFrame
          (FrameCallback.drawTextMessageFrame :: (fixedFrames ++ wifiFrames env))
    · rw [if_pos rfl, getElemOpt_replicate_append]
      simp [faultFrames, hb, clockFrames, textMessageFrames, ht, hc]
  · intro p' oldFsi'
    rw [rebuild_switchTo, rebuild_switchTo]
    simp [hb, focusTarget]

/-- Claim C4 with two modules and a clock frame: the position is 3. -/
theorem setFrames_textmessage_focus_witness :
    envText.error_code = 0 ∧
    (rebuild envText FrameFocus.FOCUS_TEXTMESSAGE 2 fsiWifi).fsi.positions.textMessage = 2 + 1 :=
  ⟨by decide,
   (setFrames_textmessage_focus envText 2 fsiWifi (by decide) (by decide)).2.1⟩

/-- Claim C5: the tag match comes first.  When the old table was installed by
an earlier rebuild and the previous index is the WiFi position recorded in it,
a rebuild with `FOCUS_PRESERVE` and no critical fault focuses the WiFi position
recorded in the new table, whatever the two frame counts are. -/
theorem setFrames_preserve_wifi_tag_first (env0 env : Env) (focus0 : FrameFocus) (p0 : Nat)
    (oldFsi0 : FramesetInfo) (hfault : env.error_code = 0) :
    (rebuild env FrameFocus.FOCUS_PRESERVE
        (rebuild env0 focus0 p0 oldFsi0).fsi.positions.wifi (rebuild env0 focus0 p0 oldFsi0).fsi).switchTo
      = (rebuild env FrameFocus.FOCUS_PRESERVE
        (rebuild env0 focus0 p0 oldFsi0).fsi.positions.wifi
        (rebuild env0 focus0 p0 oldFsi0).fsi).fsi.positions.wifi := by
  have hw := buildFrames_wifi env0 focus0
  have hl := buildFrames_log_settings env0 focus0
  rw [rebuild_switchTo]
  simp only [rebuild_fsi, hfault, bne_self_eq_false, Bool.false_eq_true, if_false, focusTarget,
    hl.1, hl.2]
  have hne : ¬ ((buildFrames env0 focus0).1.fsi.positions.wifi = 0) := by omega
  simp [hne]

/-- Claim C5 where the frame count decreases from nine to eight and moving
back by one would give index 7: the rebuild focuses 8, the new WiFi position. -/
theorem setFrames_preserve_wifi_tag_first_witness :
    envNoWifi.error_code = 0 ∧
    fsiWifi.positions.wifi = 8 ∧ fsiWifi.frameCount = 9 ∧
    (rebuild envNoWifi FrameFocus.FOCUS_PRESERVE 8 fsiWifi).fsi.frameCount = 8 ∧
    (rebuild envNoWifi FrameFocus.FOCUS_PRESERVE 8 fsiWifi).fsi.positions.wifi = 8 ∧
    (rebuild envNoWifi FrameFocus.FOCUS_PRESERVE 8 fsiWifi).switchTo
      = (rebuild envNoWifi FrameFocus.FOCUS_PRESERVE 8 fsiWifi).fsi.positions.wifi :=
  ⟨by decide, by decide, by decide, by decide, by decide,
   setFrames_preserve_wifi_tag_first envWifi envNoWifi FrameFocus.FOCUS_DEFAULT 0 {} (by decide)⟩

/-- Claim C6: every rebuild installs a non-empty frame-set, of at least the
number of module frames plus 8 frames, hence at least 8; the count stored in
the table is the number of frames installed. -/
theorem setFrames_nonempty (env : Env) (focus : FrameFocus) (p : Nat) (oldFsi : FramesetInfo) :
    env.modules.length + 8 ≤ (rebuild env focus p oldFsi).frames.length ∧
    8 ≤ (rebuild env focus p oldFsi).frames.length ∧
    (rebuild env focus p oldFsi).frames ≠ [] ∧
    (rebuild env focus p oldFsi).fsi.frameCount = (rebuild env focus p oldFsi).frames.length := by
  have hlen : env.modules.length + 8 ≤ (rebuild env focus p oldFsi).frames.length := by
    rw [rebuild_frames, buildFrames_frames]
    simp [fixedFrames]
    omega
  refine ⟨hlen, by omega, ?_, ?_⟩
  · intro h
    rw [h] at hlen
    simp at hlen
  · rw [rebuild_fsi, rebuild_frames, buildFrames_frameCount]

/-- Claim C7: a rebuild with `FOCUS_DEFAULT` and no critical fault focuses
index 0, whatever the previous index and the old table were. -/
theorem setFrames_default_first (env : Env) (p : Nat) (oldFsi : FramesetInfo)
    (hfault : env.error_code = 0) :
    (rebuild env FrameFocus.FOCUS_DEFAULT p oldFsi).switchTo = 0 := by
  rw [rebuild_switchTo]
  simp [hfault, focusTarget]

/-- Claim C7 from previous index 5. -/
theorem setFrames_default_first_witness :
    envText.error_code = 0 ∧ (rebuild envText FrameFocus.FOCUS_DEFAULT 5 fsiWifi).switchTo = 0 :=
  ⟨by decide, setFrames_default_first envText 5 fsiWifi (by decide)⟩

/-! ### The command queue (C10) -/

theorem enqueueAll_spec {α : Type} (xs : List α) (q : TypedQueue α)
    (hq : q.items.length ≤ q.maxElements) :
    (q.enqueueAll xs).1
        = List.replicate (min (q.maxElements - q.items.length) xs.length) true
          ++ List.replicate (xs.length - (q.maxElements - q.items.length)) false ∧
    (q.enqueueAll xs).2.items = q.items ++ xs.take (q.maxElements - q.items.length) ∧
    (q.enqueueAll xs).2.maxElements = q.maxElements := by
  induction xs generalizing q with
  | nil => simp [TypedQueue.enqueueAll]
  | cons x xs ih =>
    by_cases hlt : q.items.length < q.maxElements
    · have hq1 : (q.enqueue x) = (true, { q with items := q.items ++ [x] }) := by
        simp [TypedQueue.enqueue, hlt]
      have h := ih { q with items := q.items ++ [x] } (by simp; omega)
      simp only [TypedQueue.enqueueAll, hq1]
      obtain ⟨h1, h2, h3⟩ := h
      refine ⟨?_, ?_, ?_⟩
      · rw [h1]
        simp only [List.length_append, List.length_singleton, List.length_cons]
        have e1 : min (q.maxElements - q.items.length) (xs.length + 1)
            = min (q.maxElements - (q.items.length + 1)) xs.length + 1 := by omega
        have e2 : xs.length + 1 - (q.maxElements - q.items.length)
            = xs.length - (q.maxElements - (q.items.length + 1)) := by omega
        rw [e1, e2, List.replicate_succ]
        simp
      · rw [h2]
        simp only [List.length_append, List.length_singleton]
        have hd : q.maxElements - q.items.length = (q.maxElements - (q.items.length + 1)) + 1 := by
          omega
        rw [hd, List.take_succ_cons]
        simp
      · rw [h3]
    · have hq1 : (q.enqueue x) = (false, q) := by simp [TypedQueue.enqueue, hlt]
      have h := ih q hq
      have hz : q.maxElements - q.items.length = 0 := by omega
      simp only [TypedQueue.enqueueAll, hq1]
      obtain ⟨h1, h2, h3⟩ := h
      rw [hz] at h1 h2 ⊢
      refine ⟨?_, ?_, h3⟩
      · rw [h1]; simp [List.replicate_succ]
      · rw [h2]; simp

/-- Claim C10: the command queue is built with capacity 32; an enqueue on a
full queue returns failure and leaves the queue as it was; forty enqueues with
no dequeue in between, starting from the empty queue, give 32 successes
followed by 8 failures and leave the first 32 commands in the queue. -/
theorem cmdQueue_enqueue_full (cmds : List ScreenCmd) (hlen : cmds.length = 40) :
    cmdQueueInit.maxElements = 32 ∧
    (∀ (q : TypedQueue ScreenCmd) (x : ScreenCmd),
      q.maxElements = 32 → q.items.length = 32 → q.enqueue x = (false, q)) ∧
    (cmdQueueInit.enqueueAll cmds).1 = List.replicate 32 true ++ List.replicate 8 false ∧
    (cmdQueueInit.enqueueAll cmds).2.items = cmds.take 32 ∧
    (cmdQueueInit.enqueueAll cmds).2.items.length = 32 := by
  have h := enqueueAll_spec cmds cmdQueueInit (by simp [cmdQueueInit])
  simp only [cmdQueueInit, List.length_nil, Nat.sub_zero, hlen, List.nil_append] at h
  refine ⟨rfl, ?_, ?_, ?_, ?_⟩
  · intro q x hcap hfull
    simp [TypedQueue.enqueue, hcap, hfull]
  · simpa [cmdQueueInit] using h.1
  · simpa [cmdQueueInit] using h.2.1
  · have h2 : (cmdQueueInit.enqueueAll cmds).2.items = cmds.take 32 := by
      simpa [cmdQueueInit] using h.2.1
    rw [h2, List.length_take, hlen]
    rfl

/-- Claim C10 for forty button presses. -/
theorem cmdQueue_enqueue_full_witness :
    (List.replicate 40 ({ cmd := Cmd.ON_PRESS } : ScreenCmd)).length = 40 ∧
    (cmdQueueInit.enqueueAll (List.replicate 40 ({ cmd := Cmd.ON_PRESS } : ScreenCmd))).1
      = List.replicate 32 true ++ List.replicate 8 false ∧
    (cmdQueueInit.enqueueAll
      (List.replicate 40 ({ cmd := Cmd.ON_PRESS } : ScreenCmd))).2.items.length = 32 :=
  ⟨by decide,
   (cmdQueue_enqueue_full (List.replicate 40 { cmd := Cmd.ON_PRESS }) (by decide)).2.2.1,
   (cmdQueue_enqueue_full (List.replicate 40 { cmd := Cmd.ON_PRESS }) (by decide)).2.2.2.2⟩

/-! ### Input handlers and the tick (C8, C9) -/

/-- Claim C8: while the UI is animating (`frameState` is not `FIXED`),
`handleShowNextFrame`, `handleShowPrevFrame` and, when scan-and-select does not
intercept, `handleOnPress` leave the whole state unchanged, so the current
frame, the frame state, `lastScreenTransition` and `targetFramerate` too. -/
theorem handlers_ignore_input_while_animating {U : Type} (lib : OLEDDisplayUi U) (t : TickEnv)
    (s : Screen U) (hanim : (lib.getUiState s.ui).frameState ≠ FrameState.FIXED) :
    Screen.handleShowNextFrame lib t s = s ∧
    Screen.handleShowPrevFrame lib t s = s ∧
    (t.scanAndSelectDismisses = false → Screen.handleOnPress lib t s = s) := by
  refine ⟨?_, ?_, ?_⟩
  · simp [Screen.handleShowNextFrame, hanim]
  · simp [Screen.handleShowPrevFrame, hanim]
  · intro h
    simp [Screen.handleOnPress, hanim, h]

section TickLemmas

variable {U : Type}

theorem dispatch_with_queue (lib : OLEDDisplayUi U) (env : Env) (t : TickEnv) (cmd : ScreenCmd)
    (s : Screen U) (q : TypedQueue ScreenCmd) :
    Screen.dispatch lib env t cmd { s with cmdQueue := q }
      = { Screen.dispatch lib env t cmd s with cmdQueue := q } := by
  unfold Screen.dispatch
  cases cmd.cmd <;>
    simp only [Screen.handleSetOn, Screen.handleOnPress, Screen.handleShowPrevFrame,
      Screen.handleShowNextFrame, Screen.setFrameImmediateDraw,
      Screen.handleStartFirmwareUpdateScreen, Screen.setFrames, Screen.handlePrint,
      Screen.setFastFramerate] <;>
    (try split_ifs) <;> rfl

theorem processCmds_with_queue (lib : OLEDDisplayUi U) (env : Env) (t : TickEnv)
    (cmds : List ScreenCmd) (s : Screen U) (q : TypedQueue ScreenCmd) :
    Screen.processCmds lib env t cmds { s with cmdQueue := q }
      = { Screen.processCmds lib env t cmds s with cmdQueue := q } := by
  induction cmds generalizing s with
  | nil => rfl
  | cons c cs ih =>
    simp only [Screen.processCmds, List.foldl_cons] at ih ⊢
    rw [dispatch_with_queue, ih]

theorem commandLoop_eq (lib : OLEDDisplayUi U) (env : Env) (t : TickEnv)
    (cmds : List ScreenCmd) (s : Screen U) (hq : s.cmdQueue.items = cmds) :
    Screen.commandLoop lib env t cmds.length s
      = { Screen.processCmds lib env t cmds s with
          cmdQueue := { s.cmdQueue with items := [] } } := by
  induction cmds generalizing s with
  | nil =>
    obtain ⟨ui, ⟨cap, items⟩⟩ := s
    simp only at hq
    subst hq
    rfl
  | cons c cs ih =>
    have hd : s.cmdQueue.dequeue = (some c, { s.cmdQueue with items := cs }) := by
      simp [TypedQueue.dequeue, hq]
    simp only [List.length_cons, Screen.commandLoop, hd]
    rw [dispatch_with_queue, ih _ rfl, processCmds_with_queue]
    simp [Screen.processCmds]

theorem dispatch_targetFramerate (lib : OLEDDisplayUi U) (env : Env) (t : TickEnv)
    (cmd : ScreenCmd) (s : Screen U) :
    (Screen.dispatch lib env t cmd s).targetFramerate = s.targetFramerate ∨
    (Screen.dispatch lib env t cmd s).targetFramerate = SCREEN_TRANSITION_FRAMERATE := by
  unfold Screen.dispatch
  cases cmd.cmd <;>
    simp only [Screen.handleSetOn, Screen.handleOnPress, Screen.handleShowPrevFrame,
      Screen.handleShowNextFrame, Screen.setFrameImmediateDraw,
      Screen.handleStartFirmwareUpdateScreen, Screen.setFrames, Screen.handlePrint,
      Screen.setFastFramerate] <;>
    (try split_ifs) <;> simp

theorem processCmds_targetFramerate (lib : OLEDDisplayUi U) (env : Env) (t : TickEnv)
    (cmds : List ScreenCmd) (s : Screen U)
    (h : s.targetFramerate = SCREEN_TRANSITION_FRAMERATE) :
    (Screen.processCmds lib env t cmds s).targetFramerate = SCREEN_TRANSITION_FRAMERATE := by
  induction cmds generalizing s with
  | nil => exact h
  | cons c cs ih =>
    simp only [Screen.processCmds, List.foldl_cons] at ih ⊢
    apply ih
    rcases dispatch_targetFramerate lib env t c s with h1 | h1
    · rw [h1, h]
    · exact h1

theorem processCmds_append (lib : OLEDDisplayUi U) (env : Env) (t : TickEnv)
    (xs ys : List ScreenCmd) (s : Screen U) :
    Screen.processCmds lib env t (xs ++ ys) s
      = Screen.processCmds lib env t ys (Screen.processCmds lib env t xs s) := by
  simp [Screen.processCmds, List.foldl_append]

theorem afterCommands_eq (lib : OLEDDisplayUi U) (env : Env) (t : TickEnv) (s : Screen U) :
    Screen.afterCommands lib env t s
      = { Screen.processCmds lib env t (Screen.beforeCommands lib t s).cmdQueue.items
            (Screen.beforeCommands lib t s) with
          cmdQueue := { (Screen.beforeCommands lib t s).cmdQueue with items := [] } } := by
  unfold Screen.afterCommands
  exact commandLoop_eq lib env t _ _ rfl

theorem afterLoop_animating (lib : OLEDDisplayUi U) (t : TickEnv) (s : Screen U)
    (hon : s.screenOn = true)
    (hanim : (lib.getUiState (lib.update t.now s.ui)).frameState ≠ FrameState.FIXED) :
    (Screen.afterLoop lib t s).2 = RunResult.delay (1000 / s.targetFramerate) := by
  simp only [Screen.afterLoop, hon, Bool.not_true, Bool.false_eq_true, if_false, hanim,
    decide_False, Bool.and_false, Screen.handleOnPress]
  split_ifs <;> rfl

end TickLemmas

/-- Claim C8 in the middle of a transition. -/
theorem handlers_ignore_input_while_animating_witness :
    (instantUi.getUiState screenAnimating.ui).frameState ≠ FrameState.FIXED ∧
    Screen.handleShowNextFrame instantUi tickQuiet screenAnimating = screenAnimating :=
  ⟨by decide, (handlers_ignore_input_while_animating instantUi tickQuiet screenAnimating
    (by decide)).1⟩

/-- Claim C9 as stated fails.  The display is in use, the screen is on and
idle, and `SHOW_NEXT_FRAME` is pending.  The tick dequeues it while the UI is
`FIXED`, so `handleShowNextFrame` starts the transition and raises the target
rate to 30.  The UI library completes the transition in the `ui->update()` of
the same tick; `runOnce` then finds `frameState == FIXED`, returns to
`IDLE_FRAMERATE` and returns `1000 / 1 = 1000`, not `1000 / 30 = 33`. -/
theorem runOnce_transition_delay_counterexample :
    (screenIdle [{ cmd := Cmd.SHOW_NEXT_FRAME }]).useDisplay = true ∧
    (screenIdle [{ cmd := Cmd.SHOW_NEXT_FRAME }]).screenOn = true ∧
    (instantUi.getUiState (screenIdle [{ cmd := Cmd.SHOW_NEXT_FRAME }]).ui).frameState
      = FrameState.FIXED ∧
    (Screen.afterCommands instantUi envWifi tickQuiet
      (screenIdle [{ cmd := Cmd.SHOW_NEXT_FRAME }])).targetFramerate
      = SCREEN_TRANSITION_FRAMERATE ∧
    (Screen.afterCommands instantUi envWifi tickQuiet
      (screenIdle [{ cmd := Cmd.SHOW_NEXT_FRAME }])).screenOn = true ∧
    (Screen.runOnce instantUi envWifi tickQuiet (screenIdle [{ cmd := Cmd.SHOW_NEXT_FRAME }])).2
      = RunResult.delay (1000 / IDLE_FRAMERATE) ∧
    (Screen.runOnce instantUi envWifi tickQuiet (screenIdle [{ cmd := Cmd.SHOW_NEXT_FRAME }])).2
      ≠ RunResult.delay (1000 / SCREEN_TRANSITION_FRAMERATE) := by
  decide

theorem dispatch_advance_rate {U : Type} (lib : OLEDDisplayUi U) (env : Env) (t : TickEnv)
    (cmd : ScreenCmd) (s : Screen U)
    (hcmd : cmd.cmd = Cmd.SHOW_NEXT_FRAME ∨ cmd.cmd = Cmd.SHOW_PREV_FRAME)
    (hfixed : (lib.getUiState s.ui).frameState = FrameState.FIXED) :
    (Screen.dispatch lib env t cmd s).targetFramerate = SCREEN_TRANSITION_FRAMERATE := by
  rcases hcmd with h | h
  · simp [Screen.dispatch, h, Screen.handleShowNextFrame, hfixed, Screen.setFastFramerate]
  · simp [Screen.dispatch, h, Screen.handleShowPrevFrame, hfixed, Screen.setFastFramerate]

/-- Claim C9, amended: a tick with the display in use that dequeues
`SHOW_NEXT_FRAME` or `SHOW_PREV_FRAME` while the UI is `FIXED` (after the
commands `pre` queued before it), with the screen on when the command loop
ends and the UI still animating after the `ui->update()` of the tick, returns
the delay `1000 / SCREEN_TRANSITION_FRAMERATE = 33` ms, not the idle delay
`1000 / IDLE_FRAMERATE = 1000` ms. -/
theorem runOnce_transition_delay {U : Type} (lib : OLEDDisplayUi U) (env : Env) (t : TickEnv)
    (s : Screen U) (pre post : List ScreenCmd) (cmd : ScreenCmd)
    (huse : s.useDisplay = true)
    (hq : (Screen.beforeCommands lib t s).cmdQueue.items = pre ++ cmd :: post)
    (hcmd : cmd.cmd = Cmd.SHOW_NEXT_FRAME ∨ cmd.cmd = Cmd.SHOW_PREV_FRAME)
    (hfixed : (lib.getUiState
      (Screen.processCmds lib env t pre (Screen.beforeCommands lib t s)).ui).frameState
        = FrameState.FIXED)
    (hon : (Screen.afterCommands lib env t s).screenOn = true)
    (hanim : (lib.getUiState
      (lib.update t.now (Screen.afterCommands lib env t s).ui)).frameState ≠ FrameState.FIXED) :
    (Screen.runOnce lib env t s).2 = RunResult.delay (1000 / SCREEN_TRANSITION_FRAMERATE) ∧
    1000 / SCREEN_TRANSITION_FRAMERATE = 33 ∧ 1000 / IDLE_FRAMERATE = 1000 := by
  refine ⟨?_, by decide, by decide⟩
  have hrate : (Screen.afterCommands lib env t s).targetFramerate
      = SCREEN_TRANSITION_FRAMERATE := by
    rw [afterCommands_eq, hq, processCmds_append]
    show (Screen.processCmds lib env t (cmd :: post) _).targetFramerate = _
    simp only [Screen.processCmds, List.foldl_cons]
    apply processCmds_targetFramerate
    exact dispatch_advance_rate lib env t cmd _ hcmd hfixed
  simp only [Screen.runOnce, huse, Bool.not_true, Bool.false_eq_true, if_false]
  rw [afterLoop_animating lib t _ hon hanim, hrate]

/-- The amended claim C9 for a UI library whose transition outlasts the tick. -/
theorem runOnce_transition_delay_witness :
    (Screen.runOnce slowUi envWifi tickQuiet (screenIdle [{ cmd := Cmd.SHOW_NEXT_FRAME }])).2
      = RunResult.delay (1000 / SCREEN_TRANSITION_FRAMERATE) :=
  (runOnce_transition_delay slowUi envWifi tickQuiet (screenIdle [{ cmd := Cmd.SHOW_NEXT_FRAME }])
    [] [] { cmd := Cmd.SHOW_NEXT_FRAME } (by decide) (by decide) (by decide) (by decide)
    (by decide) (by decide)).1


/-! ### The command loop: order and draining (C11, C12) -/

section LoopLemmas

variable {U : Type}

theorem dispatch_cmdQueue (lib : OLEDDisplayUi U) (env : Env) (t : TickEnv) (cmd : ScreenCmd)
    (s : Screen U) : (Screen.dispatch lib env t cmd s).cmdQueue = s.cmdQueue := by
  unfold Screen.dispatch
  cases cmd.cmd <;>
    simp only [Screen.handleSetOn, Screen.handleOnPress, Screen.handleShowPrevFrame,
      Screen.handleShowNextFrame, Screen.setFrameImmediateDraw,
      Screen.handleStartFirmwareUpdateScreen, Screen.setFrames, Screen.handlePrint,
      Screen.setFastFramerate] <;>
    (try split_ifs) <;> rfl

/-- With more fuel than pending commands the loop ends through its `break`:
it has given the pending commands to the `switch` in queue order, called
`dequeue` once more than there were commands, and computed the state of
`Screen.commandLoop`. -/
theorem commandLoopTrace_spec (lib : OLEDDisplayUi U) (env : Env) (t : TickEnv)
    (cmds : List ScreenCmd) (s : Screen U) (fuel : Nat) (hq : s.cmdQueue.items = cmds)
    (hfuel : cmds.length < fuel) :
    (Screen.commandLoopTrace lib env t fuel s).dispatched = cmds ∧
    (Screen.commandLoopTrace lib env t fuel s).dequeues = cmds.length + 1 ∧
    (Screen.commandLoopTrace lib env t fuel s).finished = true ∧
    (Screen.commandLoopTrace lib env t fuel s).state
      = Screen.commandLoop lib env t cmds.length s := by
  induction cmds generalizing s fuel with
  | nil =>
    obtain ⟨f, rfl⟩ : ∃ f, fuel = f + 1 := ⟨fuel - 1, by simp at hfuel; omega⟩
    have hd : s.cmdQueue.dequeue = (none, s.cmdQueue) := by simp [TypedQueue.dequeue, hq]
    simp [Screen.commandLoopTrace, Screen.commandLoop, hd]
  | cons c cs ih =>
    obtain ⟨f, rfl⟩ : ∃ f, fuel = f + 1 := ⟨fuel - 1, by simp at hfuel; omega⟩
    have hd : s.cmdQueue.dequeue = (some c, { s.cmdQueue with items := cs }) := by
      simp [TypedQueue.dequeue, hq]
    have hq2 : (Screen.dispatch lib env t c
        { s with cmdQueue := { s.cmdQueue with items := cs } }).cmdQueue.items = cs := by
      rw [dispatch_cmdQueue]
    have h := ih _ f hq2 (by simp at hfuel; omega)
    simp only [Screen.commandLoopTrace, Screen.commandLoop, hd, List.length_cons]
    exact ⟨by rw [h.1], by rw [h.2.1], h.2.2.1, h.2.2.2⟩

theorem processCmds_cmdQueue (lib : OLEDDisplayUi U) (env : Env) (t : TickEnv)
    (cmds : List ScreenCmd) (s : Screen U) :
    (Screen.processCmds lib env t cmds s).cmdQueue = s.cmdQueue := by
  induction cmds generalizing s with
  | nil => rfl
  | cons c cs ih =>
    simp only [Screen.processCmds, List.foldl_cons] at ih ⊢
    rw [ih, dispatch_cmdQueue]

theorem beforeCommands_queue (lib : OLEDDisplayUi U) (t : TickEnv) (s : Screen U) :
    (Screen.beforeCommands lib t s).cmdQueue = s.cmdQueue ∨
    (Screen.beforeCommands lib t s).cmdQueue
      = (s.cmdQueue.enqueue { cmd := Cmd.STOP_BOOT_SCREEN }).2 := by
  simp only [Screen.beforeCommands, Screen.stopBootScreen, Screen.setWelcomeFrames,
    Screen.setFrameImmediateDraw, Screen.setFastFramerate]
  split_ifs <;> simp

theorem afterLoop_cmdQueue (lib : OLEDDisplayUi U) (t : TickEnv) (s : Screen U) :
    (Screen.afterLoop lib t s).1.cmdQueue = s.cmdQueue := by
  simp only [Screen.afterLoop, Screen.handleOnPress, Screen.setFastFramerate]
  split_ifs <;> rfl

theorem enqueue_items (q : TypedQueue ScreenCmd) (x : ScreenCmd) :
    (q.enqueue x).2.maxElements = q.maxElements ∧
    ((q.enqueue x).2.items = q.items ∨ (q.enqueue x).2.items = q.items ++ [x]) ∧
    (q.items.length ≤ q.maxElements → (q.enqueue x).2.items.length ≤ q.maxElements) := by
  unfold TypedQueue.enqueue
  split_ifs with h
  · refine ⟨rfl, Or.inr rfl, fun _ => ?_⟩
    simp
    omega
  · exact ⟨rfl, Or.inl rfl, fun h => h⟩

end LoopLemmas

/-- Claim C11: commands are consumed in FIFO order.  After the commands `cmds`
are enqueued in that order on a queue holding `pending`, the queue holds
`pending` followed by the accepted ones (all of `cmds` when they fit), and the
command loop of the tick, given enough fuel to reach its `break`, hands
exactly that list to the handlers, oldest first: its state is the one of
handling them one after the other in that order. -/
theorem commandLoop_fifo {U : Type} (lib : OLEDDisplayUi U) (env : Env) (t : TickEnv)
    (s : Screen U) (cmds : List ScreenCmd) (fuel : Nat)
    (hwf : s.cmdQueue.items.length ≤ s.cmdQueue.maxElements)
    (hfuel : s.cmdQueue.maxElements < fuel) :
    (s.cmdQueue.enqueueAll cmds).2.items
      = s.cmdQueue.items ++ cmds.take (s.cmdQueue.maxElements - s.cmdQueue.items.length) ∧
    (s.cmdQueue.items.length + cmds.length ≤ s.cmdQueue.maxElements →
      (s.cmdQueue.enqueueAll cmds).1 = List.replicate cmds.length true ∧
      (s.cmdQueue.enqueueAll cmds).2.items = s.cmdQueue.items ++ cmds) ∧
    (Screen.commandLoopTrace lib env t fuel
        { s with cmdQueue := (s.cmdQueue.enqueueAll cmds).2 }).dispatched
      = (s.cmdQueue.enqueueAll cmds).2.items ∧
    (Screen.commandLoopTrace lib env t fuel
        { s with cmdQueue := (s.cmdQueue.enqueueAll cmds).2 }).finished = true ∧
    (Screen.commandLoopTrace lib env t fuel
        { s with cmdQueue := (s.cmdQueue.enqueueAll cmds).2 }).state
      = { Screen.processCmds lib env t (s.cmdQueue.enqueueAll cmds).2.items s with
          cmdQueue := { (s.cmdQueue.enqueueAll cmds).2 with items := [] } } := by
  obtain ⟨h1, h2, h3⟩ := enqueueAll_spec cmds s.cmdQueue hwf
  have hlen : (s.cmdQueue.enqueueAll cmds).2.items.length < fuel := by
    rw [h2, List.length_append, List.length_take]
    omega
  obtain ⟨t1, _, t3, t4⟩ := commandLoopTrace_spec lib env t (s.cmdQueue.enqueueAll cmds).2.items
    { s with cmdQueue := (s.cmdQueue.enqueueAll cmds).2 } fuel rfl hlen
  refine ⟨h2, ?_, t1, t3, ?_⟩
  · intro hfit
    constructor
    · rw [h1]
      have e1 : min (s.cmdQueue.maxElements - s.cmdQueue.items.length) cmds.length
          = cmds.length := by omega
      have e2 : cmds.length - (s.cmdQueue.maxElements - s.cmdQueue.items.length) = 0 := by omega
      rw [e1, e2]
      simp
    · rw [h2, List.take_of_length_le (by omega)]
  · rw [t4]
    have h := commandLoop_eq lib env t (s.cmdQueue.enqueueAll cmds).2.items
      { s with cmdQueue := (s.cmdQueue.enqueueAll cmds).2 } rfl
    rw [h, processCmds_with_queue]

/-- Claim C11 for three commands enqueued on the empty queue of the
constructor: they are dispatched in the order of their enqueues. -/
theorem commandLoop_fifo_witness :
    (screenIdle []).cmdQueue.items.length ≤ (screenIdle []).cmdQueue.maxElements ∧
    (Screen.commandLoopTrace instantUi envWifi tickQuiet 33
        { screenIdle [] with
          cmdQueue := ((screenIdle []).cmdQueue.enqueueAll
            [{ cmd := Cmd.SHOW_NEXT_FRAME }, { cmd := Cmd.SET_OFF },
             { cmd := Cmd.SET_ON }]).2 }).dispatched
      = ((screenIdle []).cmdQueue.enqueueAll
            [{ cmd := Cmd.SHOW_NEXT_FRAME }, { cmd := Cmd.SET_OFF },
             { cmd := Cmd.SET_ON }]).2.items ∧
    ((screenIdle []).cmdQueue.enqueueAll
            [{ cmd := Cmd.SHOW_NEXT_FRAME }, { cmd := Cmd.SET_OFF },
             { cmd := Cmd.SET_ON }]).2.items
      = [{ cmd := Cmd.SHOW_NEXT_FRAME }, { cmd := Cmd.SET_OFF }, { cmd := Cmd.SET_ON }] :=
  ⟨by decide,
   (commandLoop_fifo instantUi envWifi tickQuiet (screenIdle [])
      [{ cmd := Cmd.SHOW_NEXT_FRAME }, { cmd := Cmd.SET_OFF }, { cmd := Cmd.SET_ON }] 33
      (by decide) (by decide)).2.2.1,
   by decide⟩

/-- Claim C12: a tick with the display in use drains the command queue.  With
a queue of capacity 32 the command loop, given enough fuel, ends through its
`break` in the state `runOnce` continues from; the queue is then empty, and
still is when `runOnce` returns; the commands handed to the handlers are
exactly the pending ones, each once and in order (those pending when the tick
began, followed by the `STOP_BOOT_SCREEN` the tick itself may enqueue); the
loop calls `dequeue` once per command and once more for the empty queue, at
most 32 + 1 times. -/
theorem runOnce_drains_queue {U : Type} (lib : OLEDDisplayUi U) (env : Env) (t : TickEnv)
    (s : Screen U) (fuel : Nat)
    (huse : s.useDisplay = true) (hcap : s.cmdQueue.maxElements = 32)
    (hwf : s.cmdQueue.items.length ≤ 32) (hfuel : 32 < fuel) :
    (Screen.commandLoopTrace lib env t fuel (Screen.beforeCommands lib t s)).finished = true ∧
    (Screen.commandLoopTrace lib env t fuel (Screen.beforeCommands lib t s)).state
      = Screen.afterCommands lib env t s ∧
    (Screen.afterCommands lib env t s).cmdQueue.items = [] ∧
    (Screen.runOnce lib env t s).1.cmdQueue.items = [] ∧
    ((Screen.commandLoopTrace lib env t fuel (Screen.beforeCommands lib t s)).dispatched
        = s.cmdQueue.items ∨
      (Screen.commandLoopTrace lib env t fuel (Screen.beforeCommands lib t s)).dispatched
        = s.cmdQueue.items ++ [{ cmd := Cmd.STOP_BOOT_SCREEN }]) ∧
    (Screen.commandLoopTrace lib env t fuel (Screen.beforeCommands lib t s)).dequeues
      = (Screen.commandLoopTrace lib env t fuel
          (Screen.beforeCommands lib t s)).dispatched.length + 1 ∧
    (Screen.commandLoopTrace lib env t fuel (Screen.beforeCommands lib t s)).dequeues
      ≤ 32 + 1 := by
  have hq0 : (Screen.beforeCommands lib t s).cmdQueue.items.length ≤ 32 ∧
      ((Screen.beforeCommands lib t s).cmdQueue.items = s.cmdQueue.items ∨
        (Screen.beforeCommands lib t s).cmdQueue.items
          = s.cmdQueue.items ++ [{ cmd := Cmd.STOP_BOOT_SCREEN }]) := by
    obtain ⟨e1, e2, e3⟩ := enqueue_items s.cmdQueue { cmd := Cmd.STOP_BOOT_SCREEN }
    rcases beforeCommands_queue lib t s with h | h
    · rw [h]; exact ⟨hwf, Or.inl rfl⟩
    · rw [h]
      exact ⟨hcap ▸ e3 (by omega), e2⟩
  obtain ⟨t1, t2, t3, t4⟩ := commandLoopTrace_spec lib env t
    (Screen.beforeCommands lib t s).cmdQueue.items (Screen.beforeCommands lib t s) fuel rfl
    (by omega)
  have hempty : (Screen.afterCommands lib env t s).cmdQueue.items = [] := by
    rw [afterCommands_eq]
  refine ⟨t3, t4, hempty, ?_, ?_, ?_, ?_⟩
  · simp only [Screen.runOnce, huse, Bool.not_true, Bool.false_eq_true, if_false]
    rw [afterLoop_cmdQueue, hempty]
  · rw [t1]; exact hq0.2
  · rw [t2, t1]
  · rw [t2]; omega

/-- Claim C12 for a tick with two commands pending. -/
theorem runOnce_drains_queue_witness :
    (screenIdle [{ cmd := Cmd.SHOW_NEXT_FRAME }, { cmd := Cmd.SET_OFF }]).useDisplay = true ∧
    (Screen.runOnce instantUi envWifi tickQuiet
      (screenIdle [{ cmd := Cmd.SHOW_NEXT_FRAME }, { cmd := Cmd.SET_OFF }])).1.cmdQueue.items
      = [] ∧
    (Screen.commandLoopTrace instantUi envWifi tickQuiet 33
      (Screen.beforeCommands instantUi tickQuiet
        (screenIdle [{ cmd := Cmd.SHOW_NEXT_FRAME }, { cmd := Cmd.SET_OFF }]))).dequeues
      ≤ 32 + 1 :=
  ⟨by decide,
   (runOnce_drains_queue instantUi envWifi tickQuiet
      (screenIdle [{ cmd := Cmd.SHOW_NEXT_FRAME }, { cmd := Cmd.SET_OFF }]) 33
      (by decide) (by decide) (by decide) (by decide)).2.2.2.1,
   (runOnce_drains_queue instantUi envWifi tickQuiet
      (screenIdle [{ cmd := Cmd.SHOW_NEXT_FRAME }, { cmd := Cmd.SET_OFF }]) 33
      (by decide) (by decide) (by decide) (by decide)).2.2.2.2.2.2⟩

/-! ### The update of a tick (C13) -/

section UpdateCount

variable {U : Type}

theorem dispatch_updates (lib : OLEDDisplayUi U) (env : Env) (t : TickEnv) (cmd : ScreenCmd)
    (s : Screen (U × Nat)) :
    (Screen.dispatch (countingUpdates lib) env t cmd s).ui.2 = s.ui.2 := by
  unfold Screen.dispatch
  cases cmd.cmd <;>
    simp only [Screen.handleSetOn, Screen.handleOnPress, Screen.handleShowPrevFrame,
      Screen.handleShowNextFrame, Screen.setFrameImmediateDraw,
      Screen.handleStartFirmwareUpdateScreen, Screen.setFrames, Screen.handlePrint,
      Screen.setFastFramerate, countingUpdates] <;>
    (try split_ifs) <;> rfl

theorem processCmds_updates (lib : OLEDDisplayUi U) (env : Env) (t : TickEnv)
    (cmds : List ScreenCmd) (s : Screen (U × Nat)) :
    (Screen.processCmds (countingUpdates lib) env t cmds s).ui.2 = s.ui.2 := by
  induction cmds generalizing s with
  | nil => rfl
  | cons c cs ih =>
    simp only [Screen.processCmds, List.foldl_cons] at ih ⊢
    rw [ih, dispatch_updates]

theorem beforeCommands_updates (lib : OLEDDisplayUi U) (t : TickEnv) (s : Screen (U × Nat)) :
    (Screen.beforeCommands (countingUpdates lib) t s).ui.2 = s.ui.2 := by
  simp only [Screen.beforeCommands, Screen.stopBootScreen, Screen.setWelcomeFrames,
    Screen.setFrameImmediateDraw, Screen.setFastFramerate, countingUpdates]
  split_ifs <;> rfl

theorem afterCommands_updates (lib : OLEDDisplayUi U) (env : Env) (t : TickEnv)
    (s : Screen (U × Nat)) :
    (Screen.afterCommands (countingUpdates lib) env t s).ui.2 = s.ui.2 := by
  rw [afterCommands_eq]
  show (Screen.processCmds (countingUpdates lib) env t _ _).ui.2 = _
  rw [processCmds_updates, beforeCommands_updates]

theorem afterLoop_updates_on (lib : OLEDDisplayUi U) (t : TickEnv) (s : Screen (U × Nat))
    (hon : s.screenOn = true) :
    (Screen.afterLoop (countingUpdates lib) t s).1.ui.2 = s.ui.2 + 1 := by
  simp only [Screen.afterLoop, hon, Bool.not_true, Bool.false_eq_true, if_false,
    Screen.handleOnPress, Screen.setFastFramerate, countingUpdates]
  split_ifs <;> rfl

theorem afterLoop_off (lib : OLEDDisplayUi U) (t : TickEnv) (s : Screen U)
    (hoff : s.screenOn = false) :
    Screen.afterLoop lib t s = ({ s with enabled := false }, RunResult.delay 0) := by
  simp [Screen.afterLoop, hoff]

end UpdateCount

/-- Claim C13: in a tick with the display in use, run on a UI library that
counts the calls of `ui->update`: if the screen is on when the command loop
ends, the tick calls `ui->update` (exactly once, so at least once) before it
returns; if the screen is off then, the tick calls no update, leaves the UI as
the commands left it, disables the task (`enabled = false`) and returns 0. -/
theorem runOnce_updates_when_on {U : Type} (lib : OLEDDisplayUi U) (env : Env) (t : TickEnv)
    (s : Screen (U × Nat)) (huse : s.useDisplay = true) :
    ((Screen.afterCommands (countingUpdates lib) env t s).screenOn = true →
      (Screen.runOnce (countingUpdates lib) env t s).1.ui.2 = s.ui.2 + 1 ∧
      1 ≤ (Screen.runOnce (countingUpdates lib) env t s).1.ui.2 - s.ui.2) ∧
    ((Screen.afterCommands (countingUpdates lib) env t s).screenOn = false →
      (Screen.runOnce (countingUpdates lib) env t s).1.ui.2 = s.ui.2 ∧
      (Screen.runOnce (countingUpdates lib) env t s).1.ui
        = (Screen.afterCommands (countingUpdates lib) env t s).ui ∧
      (Screen.runOnce (countingUpdates lib) env t s).1.enabled = false ∧
      (Screen.runOnce (countingUpdates lib) env t s).2 = RunResult.delay 0) := by
  have hrun : Screen.runOnce (countingUpdates lib) env t s
      = Screen.afterLoop (countingUpdates lib) t
          (Screen.afterCommands (countingUpdates lib) env t s) := by
    simp [Screen.runOnce, huse]
  constructor
  · intro hon
    have h : (Screen.runOnce (countingUpdates lib) env t s).1.ui.2 = s.ui.2 + 1 := by
      rw [hrun, afterLoop_updates_on lib t _ hon, afterCommands_updates]
    exact ⟨h, by omega⟩
  · intro hoff
    rw [hrun, afterLoop_off _ t _ hoff]
    exact ⟨afterCommands_updates lib env t s, rfl, rfl, rfl⟩

/-- Claim C13 for an idle screen that stays on (one update) and for one that a
pending `SET_OFF` turns off (no update, result 0). -/
theorem runOnce_updates_when_on_witness :
    (Screen.runOnce (countingUpdates instantUi) envWifi tickQuiet
      { screenIdle [] with ui := ((screenIdle []).ui, 0) }).1.ui.2 = 0 + 1 ∧
    (Screen.runOnce (countingUpdates instantUi) envWifi tickQuiet
      { screenIdle [{ cmd := Cmd.SET_OFF }] with ui := ((screenIdle []).ui, 0) }).2
      = RunResult.delay 0 :=
  ⟨((runOnce_updates_when_on instantUi envWifi tickQuiet
      { screenIdle [] with ui := ((screenIdle []).ui, 0) } (by decide)).1 (by decide)).1,
   ((runOnce_updates_when_on instantUi envWifi tickQuiet
      { screenIdle [{ cmd := Cmd.SET_OFF }] with ui := ((screenIdle []).ui, 0) }
      (by decide)).2 (by decide)).2.2.2⟩

/-! ### Power commands (C14) -/

/-- Claim C14: duplicate power toggles are absorbed.  `handleSetOn(on)`
leaves the whole state unchanged (so `screenOn`, `enabled`, the display power
and the framerate) when `on` already equals `screenOn` or when the display is
not in use, and applying the same power command twice in a row gives the same
state as applying it once. -/
theorem handleSetOn_absorbs_duplicates {U : Type} (turnOn : Bool) (s : Screen U) :
    ((turnOn = s.screenOn ∨ s.useDisplay = false) → Screen.handleSetOn turnOn s = s) ∧
    Screen.handleSetOn turnOn (Screen.handleSetOn turnOn s) = Screen.handleSetOn turnOn s := by
  constructor
  · rintro (h | h)
    · simp [Screen.handleSetOn, h]
    · simp [Screen.handleSetOn, h]
  · cases hu : s.useDisplay <;> cases ht : turnOn <;> cases hs : s.screenOn <;>
      simp [Screen.handleSetOn, hu, hs]

/-- Claim C14 on an idle screen: switching on a screen that is on changes
nothing, and switching it off twice is switching it off once. -/
theorem handleSetOn_absorbs_duplicates_witness :
    Screen.handleSetOn true (screenIdle []) = screenIdle [] ∧
    Screen.handleSetOn false (Screen.handleSetOn false (screenIdle []))
      = Screen.handleSetOn false (screenIdle []) :=
  ⟨(handleSetOn_absorbs_duplicates true (screenIdle [])).1 (Or.inl (by decide)),
   (handleSetOn_absorbs_duplicates false (screenIdle [])).2⟩

/-! ### The observers (C15, C16, C17) -/

/-- While the normal frame-set is not showing, `handleStatusUpdate`,
`handleTextMessage` and `handleUIFrameEvent` leave the state unchanged, and so
does `handleInputEvent` in a build without a clock frame. -/
theorem guarded_observers_keep_alert {U : Type} (lib : OLEDDisplayUi U) (env : Env)
    (s : Screen U) (hshow : s.showingNormalScreen = false) :
    (∀ arg, (Screen.handleStatusUpdate lib env arg s).1 = s) ∧
    (∀ packetFrom, (Screen.handleTextMessage lib env packetFrom s).1 = s) ∧
    (∀ action, (Screen.handleUIFrameEvent lib env action s).1 = s) ∧
    (env.displayClockFrame = false → ∀ event, (Screen.handleInputEvent lib env event s).1 = s) := by
  refine ⟨?_, ?_, ?_, ?_⟩
  · intro arg
    simp only [Screen.handleStatusUpdate, hshow]
    split_ifs <;> simp_all
  · intro packetFrom
    simp [Screen.handleTextMessage, hshow]
  · intro action
    simp [Screen.handleUIFrameEvent, hshow]
  · intro hclock event
    simp [Screen.handleInputEvent, hshow, hclock]

/-- Claim C15 fails on the code: `handleAdminMessage` calls
`setFrames(FOCUS_PRESERVE)` without the test of `showingNormalScreen` that
`handleStatusUpdate`, `handleTextMessage` and `handleUIFrameEvent` make.  In
the state `screenUpdating`, where `START_FIRMWARE_UPDATE_SCREEN` has been
handled and no stop command has, the single firmware update frame is showing;
a node removal then installs the nine frames of the normal frame-set and sets
`showingNormalScreen` back to true. -/
theorem handleAdminMessage_during_alert :
    screenUpdating.showingNormalScreen = false ∧
    screenUpdating.ui.frameCount = 1 ∧
    screenUpdating.cmdQueue.items = [] ∧
    (Screen.handleAdminMessage instantUi envWifi AdminPayload.remove_by_nodenum
      screenUpdating).1.showingNormalScreen = true ∧
    (Screen.handleAdminMessage instantUi envWifi AdminPayload.remove_by_nodenum
      screenUpdating).1.ui.frameCount = 9 ∧
    (Screen.handleAdminMessage instantUi envWifi AdminPayload.remove_by_nodenum
      screenUpdating).1
      = Screen.setFrames instantUi envWifi FrameFocus.FOCUS_PRESERVE screenUpdating :=
  ⟨by decide, by decide, by decide, by decide, by decide, rfl⟩

/-- The touch path of `handleInputEvent` in a build with a clock frame has no
test of `showingNormalScreen` either: during the firmware update frame a touch
on the watch face button installs the normal frame-set. -/
theorem handleInputEvent_touch_during_alert :
    screenUpdating.showingNormalScreen = false ∧
    (Screen.handleInputEvent instantUi { envWifi with displayClockFrame := true }
      { inputEvent := InputEventChar.OTHER, touchX := 220, touchY := 220 }
      screenUpdating).1.showingNormalScreen = true ∧
    (Screen.handleInputEvent instantUi { envWifi with displayClockFrame := true }
      { inputEvent := InputEventChar.OTHER, touchX := 220, touchY := 220 }
      screenUpdating).1.ui.frameCount = 10 := by
  decide

/-- Claim C16: while the normal frame-set is showing, `handleTextMessage`
rebuilds with `FOCUS_PRESERVE` for an outgoing message (`packet->from == 0`)
and with `FOCUS_TEXTMESSAGE` for an incoming one (`packet->from != 0`); while
it is not showing, it leaves the state unchanged; it returns 0 in every case. -/
theorem handleTextMessage_focus {U : Type} (lib : OLEDDisplayUi U) (env : Env)
    (packetFrom : Nat) (s : Screen U) :
    (s.showingNormalScreen = true → packetFrom = 0 →
      (Screen.handleTextMessage lib env packetFrom s).1
        = Screen.setFrames lib env FrameFocus.FOCUS_PRESERVE s) ∧
    (s.showingNormalScreen = true → packetFrom ≠ 0 →
      (Screen.handleTextMessage lib env packetFrom s).1
        = Screen.setFrames lib env FrameFocus.FOCUS_TEXTMESSAGE s) ∧
    (s.showingNormalScreen = false → (Screen.handleTextMessage lib env packetFrom s).1 = s) ∧
    (Screen.handleTextMessage lib env packetFrom s).2 = 0 := by
  refine ⟨?_, ?_, ?_, ?_⟩
  · intro h1 h2
    simp [Screen.handleTextMessage, h1, h2]
  · intro h1 h2
    simp [Screen.handleTextMessage, h1, h2]
  · intro h1
    simp [Screen.handleTextMessage, h1]
  · simp only [Screen.handleTextMessage]
    split_ifs <;> rfl

/-- Claim C16 for a message from node 5 while the normal frame-set is showing. -/
theorem handleTextMessage_focus_witness :
    (Screen.handleTextMessage instantUi envText 5 (screenIdle [])).1
      = Screen.setFrames instantUi envText FrameFocus.FOCUS_TEXTMESSAGE (screenIdle []) :=
  (handleTextMessage_focus instantUi envText 5 (screenIdle [])).2.1 (by decide) (by decide)

/-- Claim C17: while the normal frame-set is showing, `handleUIFrameEvent` maps
`REGENERATE_FRAMESET` to a rebuild with `FOCUS_MODULE`,
`REGENERATE_FRAMESET_BACKGROUND` to a rebuild with `FOCUS_PRESERVE`, and
`REDRAW_ONLY` to `setFastFramerate()` alone: no rebuild, the table of special
positions and every other member unchanged, the target framerate raised to
the transition rate and the task asked to run at once; the UI library is only
given the new target rate, so the frame-set and the current frame are
unchanged whenever `setTargetFPS` of the library keeps them. -/
theorem handleUIFrameEvent_actions {U : Type} (lib : OLEDDisplayUi U) (env : Env)
    (s : Screen U) (hshow : s.showingNormalScreen = true) :
    (Screen.handleUIFrameEvent lib env UIFrameEventAction.REGENERATE_FRAMESET s).1
      = Screen.setFrames lib env FrameFocus.FOCUS_MODULE s ∧
    (Screen.handleUIFrameEvent lib env UIFrameEventAction.REGENERATE_FRAMESET_BACKGROUND s).1
      = Screen.setFrames lib env FrameFocus.FOCUS_PRESERVE s ∧
    (Screen.handleUIFrameEvent lib env UIFrameEventAction.REDRAW_ONLY s).1
      = { s with
          targetFramerate := SCREEN_TRANSITION_FRAMERATE
          ui := lib.setTargetFPS SCREEN_TRANSITION_FRAMERATE s.ui
          interval := some 0
          runASAP := true } ∧
    (Screen.handleUIFrameEvent lib env UIFrameEventAction.REDRAW_ONLY s).1.framesetInfo
      = s.framesetInfo ∧
    (Screen.handleUIFrameEvent lib env UIFrameEventAction.REDRAW_ONLY s).1.targetFramerate
      = SCREEN_TRANSITION_FRAMERATE ∧
    ((∀ fps u, lib.getUiState (lib.setTargetFPS fps u) = lib.getUiState u) →
      (lib.getUiState (Screen.handleUIFrameEvent lib env
        UIFrameEventAction.REDRAW_ONLY s).1.ui).currentFrame
        = (lib.getUiState s.ui).currentFrame) := by
  refine ⟨?_, ?_, ?_, ?_, ?_, ?_⟩
  · simp [Screen.handleUIFrameEvent, hshow]
  · simp [Screen.handleUIFrameEvent, hshow]
  · simp [Screen.handleUIFrameEvent, hshow, Screen.setFastFramerate]
  · simp [Screen.handleUIFrameEvent, hshow, Screen.setFastFramerate]
  · simp [Screen.handleUIFrameEvent, hshow, Screen.setFastFramerate]
  · intro hlib
    simp [Screen.handleUIFrameEvent, hshow, Screen.setFastFramerate, hlib]

/-- Claim C17 on an idle screen showing frame 2 of nine: after `REDRAW_ONLY`
the UI still has nine frames and shows frame 2, at the transition rate. -/
theorem handleUIFrameEvent_actions_witness :
    (screenIdle []).showingNormalScreen = true ∧
    (Screen.handleUIFrameEvent instantUi envWifi UIFrameEventAction.REDRAW_ONLY
      (screenIdle [])).1.ui
      = { (screenIdle []).ui with targetFPS := SCREEN_TRANSITION_FRAMERATE } ∧
    (Screen.handleUIFrameEvent instantUi envWifi UIFrameEventAction.REDRAW_ONLY
      (screenIdle [])).1.targetFramerate = SCREEN_TRANSITION_FRAMERATE :=
  ⟨by decide, by decide,
   (handleUIFrameEvent_actions instantUi envWifi (screenIdle []) (by decide)).2.2.2.2.1⟩

/-! ### The module that asked for focus (C18) -/

theorem addModuleFrame_numframes (b : Build) (m : MeshModule) :
    (addModuleFrame b m).numframes = b.numframes + 1 := by
  simp [Build.numframes, addModuleFrame_frames]

theorem addModuleFrame_focusedModule (b : Build) (m : MeshModule) :
    (addModuleFrame b m).fsi.positions.focusedModule
      = if m.isRequestingFocus then b.numframes else b.fsi.positions.focusedModule := by
  unfold addModuleFrame
  cases m.isRequestingFocus <;> cases m.isWaypointModule <;> simp

theorem addModuleFrames_focusedModule_none (ms : List MeshModule) (b : Build)
    (hnone : ∀ m, m ∈ ms → m.isRequestingFocus = false) :
    (addModuleFrames b ms).fsi.positions.focusedModule = b.fsi.positions.focusedModule := by
  induction ms generalizing b with
  | nil => rfl
  | cons x xs ih =>
    have h := ih (addModuleFrame b x) (fun m hm => hnone m (List.mem_cons_of_mem x hm))
    simp only [addModuleFrames, List.foldl_cons] at h ⊢
    rw [h, addModuleFrame_focusedModule, hnone x (List.mem_cons_self x xs)]
    simp

theorem addModuleFrames_focusedModule_last (ms : List MeshModule) (b : Build) (i : Nat)
    (m : MeshModule) (hm : ms[i]? = some m) (hreq : m.isRequestingFocus = true)
    (hlast : ∀ (j : Nat) (m' : MeshModule), i < j → ms[j]? = some m' →
      m'.isRequestingFocus = false) :
    (addModuleFrames b ms).fsi.positions.focusedModule = b.numframes + i := by
  induction ms generalizing b i with
  | nil => simp at hm
  | cons x xs ih =>
    cases i with
    | zero =>
      have hx : x = m := by simpa using hm
      have hnone : ∀ m', m' ∈ xs → m'.isRequestingFocus = false := by
        intro m' hmem
        obtain ⟨k, hk, rfl⟩ := List.getElem_of_mem hmem
        exact hlast (k + 1) _ (by omega) (by simp [List.getElem?_eq_getElem hk])
      have h := addModuleFrames_focusedModule_none xs (addModuleFrame b x) hnone
      simp only [addModuleFrames, List.foldl_cons] at h ⊢
      rw [h, addModuleFrame_focusedModule, hx, hreq]
      simp
    | succ k =>
      have h := ih (addModuleFrame b x) k (by simpa using hm)
        (fun j m' hj hj' => hlast (j + 1) m' (by omega) (by simpa using hj'))
      simp only [addModuleFrames, List.foldl_cons] at h ⊢
      rw [h, addModuleFrame_numframes]
      omega

theorem buildFrames_focusedModule (env : Env) (focus : FrameFocus) :
    (buildFrames env focus).1.fsi.positions.focusedModule
      = (addModuleFrames {} env.modules).fsi.positions.focusedModule := by
  simp only [buildFrames, addFaultFrame, addClockFrame, addTextMessageFrame, addFixedFrames_eq,
    addWifiFrame, Build.push, Build.numframes]
  split_ifs <;> rfl

/-- Claim C18 as stated fails.  In `envTwoFocus` the modules at index 0 and at
index 1 both ask for focus; the first of them is at index 0, but the loop of
`setFrames` overwrites `fsi.positions.focusedModule` at every module that
asks, so the rebuild records index 1, and with `FOCUS_MODULE` and no fault it
focuses index 1. -/
theorem setFrames_focus_module_counterexample :
    envTwoFocus.error_code = 0 ∧
    envTwoFocus.modules.map (fun m => m.isRequestingFocus) = [true, true, false] ∧
    (rebuild envTwoFocus FrameFocus.FOCUS_MODULE 0 {}).fsi.positions.focusedModule = 1 ∧
    (rebuild envTwoFocus FrameFocus.FOCUS_MODULE 0 {}).fsi.positions.focusedModule ≠ 0 ∧
    (rebuild envTwoFocus FrameFocus.FOCUS_MODULE 0 {}).switchTo = 1 ∧
    (rebuild envTwoFocus FrameFocus.FOCUS_MODULE 0 {}).switchTo ≠ 0 := by
  decide

/-- Claim C18, amended: when module frames signal that they want focus
during a rebuild, the focused-module position recorded by `setFrames` is the
index of the last of them (the highest index `i` whose module asks for
focus), and a rebuild with `FOCUS_MODULE` and no fault focuses that index. -/
theorem setFrames_focus_module (env : Env) (focus : FrameFocus) (p : Nat)
    (oldFsi : FramesetInfo) (i : Nat) (m : MeshModule)
    (hm : env.modules[i]? = some m) (hreq : m.isRequestingFocus = true)
    (hlast : ∀ (j : Nat) (m' : MeshModule), i < j → env.modules[j]? = some m' →
      m'.isRequestingFocus = false) :
    (rebuild env focus p oldFsi).fsi.positions.focusedModule = i ∧
    (env.error_code = 0 →
      (rebuild env FrameFocus.FOCUS_MODULE p oldFsi).switchTo = i) := by
  have hpos : ∀ f, (buildFrames env f).1.fsi.positions.focusedModule = i := by
    intro f
    rw [buildFrames_focusedModule, addModuleFrames_focusedModule_last env.modules {} i m hm hreq
      hlast]
    simp [Build.numframes]
  refine ⟨?_, ?_⟩
  · rw [rebuild_fsi]; exact hpos focus
  · intro hfault
    rw [rebuild_switchTo]
    simp [hfault, focusTarget, hpos]

/-- The amended claim C18 in `envTwoFocus`: the last module that asks for
focus is at index 1. -/
theorem setFrames_focus_module_witness :
    envTwoFocus.modules[1]? = some { isRequestingFocus := true, isWaypointModule := false } ∧
    (rebuild envTwoFocus FrameFocus.FOCUS_MODULE 0 {}).switchTo = 1 :=
  ⟨by decide,
   (setFrames_focus_module envTwoFocus FrameFocus.FOCUS_MODULE 0 {} 1
      { isRequestingFocus := true, isWaypointModule := false } (by decide) (by decide)
      (by
        intro j m' hj hm'
        match j, hj, hm' with
        | 2, _, h => simpa [envTwoFocus] using (Option.some.inj h).symm ▸ rfl
        | (k + 3), _, h => simp [envTwoFocus] at h)).2 (by decide)⟩

/-! ### The text message frame and the frame sequence (C19, C20) -/

/-- What `shouldDrawMessage` computes: it accepts a packet exactly when it
comes from another node and store and forward is disabled. -/
theorem shouldDrawMessage_iff (env : Env) (packetFrom : Nat) :
    shouldDrawMessage env packetFrom = true
      ↔ packetFrom ≠ 0 ∧ env.store_forward_enabled = false := by
  simp [shouldDrawMessage]

/-- A rebuild inserts the text message frame exactly when a message is stored
and `shouldDrawMessage` accepts it. -/
theorem textMessageFrame_inserted_iff (env : Env) (focus : FrameFocus) (p : Nat)
    (oldFsi : FramesetInfo) :
    FrameCallback.drawTextMessageFrame ∈ (rebuild env focus p oldFsi).frames
      ↔ env.has_rx_text_message = true ∧
        shouldDrawMessage env env.rx_text_message_from = true := by
  rw [rebuild_frames, buildFrames_frames]
  simp only [List.mem_append, List.mem_replicate, faultFrames, clockFrames, textMessageFrames,
    fixedFrames, wifiFrames]
  constructor
  · intro h
    by_contra hc
    have hc2 : (env.has_rx_text_message && shouldDrawMessage env env.rx_text_message_from)
        = false := by
      cases h1 : env.has_rx_text_message <;>
        cases h2 : shouldDrawMessage env env.rx_text_message_from <;> simp_all
    rw [hc2] at h
    rcases h with ((((h | h) | h) | h) | h) | h
    · simp at h
    · split_ifs at h <;> simp at h
    · split_ifs at h <;> simp at h
    · simp at h
    · simp at h
    · split_ifs at h <;> simp at h
  · rintro ⟨h1, h2⟩
    simp [h1, h2]

/-- Claim C19 fails on the code, which contradicts its own comment ("Ignore
messages originating from phone ... unless range test or store and forward
module are enabled").  With an unread message from node 5 and store and
forward enabled, the claim (and the comment) make the message drawable, since
`from != 0`; `shouldDrawMessage`, which returns
`from != 0 && !store_forward.enabled`, rejects it, and the rebuild inserts no
text message frame. -/
theorem shouldDrawMessage_store_forward :
    envStoreForward.has_rx_text_message = true ∧
    envStoreForward.rx_text_message_from = 5 ∧
    envStoreForward.store_forward_enabled = true ∧
    (envStoreForward.rx_text_message_from != 0 || envStoreForward.store_forward_enabled) = true ∧
    shouldDrawMessage envStoreForward envStoreForward.rx_text_message_from = false ∧
    FrameCallback.drawTextMessageFrame
      ∉ (rebuild envStoreForward FrameFocus.FOCUS_TEXTMESSAGE 0 {}).frames ∧
    shouldDrawMessage envStoreForward 0 = false := by
  decide

theorem not_moduleFrame_of_mem_tail (env : Env) (f : FrameCallback)
    (hf : f ∈ faultFrames env ++ clockFrames env ++ textMessageFrames env ++ fixedFrames
      ++ wifiFrames env) : f ≠ FrameCallback.drawModuleFrame := by
  intro hEq
  subst hEq
  simp only [List.mem_append, faultFrames, clockFrames, textMessageFrames, fixedFrames,
    wifiFrames] at hf
  rcases hf with (((h | h) | h) | h) | h
  · split_ifs at h <;> simp at h
  · split_ifs at h <;> simp at h
  · split_ifs at h <;> simp at h
  · simp at h
  · split_ifs at h <;> simp at h

/-- Claim C20: the frames installed by `setFrames` are, in this order, one
module frame per UI module, the fault frame iff `error_code != 0`, the clock
frame iff the build has one, the text message frame iff a message is stored
and `shouldDrawMessage` accepts it, the eight fixed frames (device, last heard,
hop and signal, distance, bearings, position and compass, LoRa, memory), and
the WiFi frame iff WiFi is available; the module frame callback is at index
`i` exactly when `i` is below the number of modules; the frame count, also the
one stored in the table, is the sum of the lengths of these parts. -/
theorem setFrames_frame_sequence (env : Env) (focus : FrameFocus) (p : Nat)
    (oldFsi : FramesetInfo) :
    (rebuild env focus p oldFsi).frames
      = List.replicate env.modules.length FrameCallback.drawModuleFrame
        ++ (if env.error_code ≠ 0 then [FrameCallback.drawCriticalFaultFrame] else [])
        ++ (if env.displayClockFrame = true then
              [if env.digitalWatchFace = true then FrameCallback.drawDigitalClockFrame
               else FrameCallback.drawAnalogClockFrame]
            else [])
        ++ (if env.has_rx_text_message = true
                ∧ shouldDrawMessage env env.rx_text_message_from = true then
              [FrameCallback.drawTextMessageFrame]
            else [])
        ++ [FrameCallback.drawDeviceFocused, FrameCallback.drawLastHeardScreen,
            FrameCallback.drawHopSignalScreen, FrameCallback.drawDistanceScreen,
            FrameCallback.drawNodeListWithCompasses, FrameCallback.drawCompassAndLocationScreen,
            FrameCallback.drawLoRaFocused, FrameCallback.drawMemoryScreen]
        ++ (if env.hasWifi = true ∧ env.wifiAvailable = true then
              [FrameCallback.drawDebugInfoWiFiTrampoline]
            else []) ∧
    (∀ i, (rebuild env focus p oldFsi).frames[i]? = some FrameCallback.drawModuleFrame
      ↔ i < env.modules.length) ∧
    (rebuild env focus p oldFsi).frames.length
      = env.modules.length + (if env.error_code ≠ 0 then 1 else 0)
        + (if env.displayClockFrame = true then 1 else 0)
        + (if env.has_rx_text_message = true
              ∧ shouldDrawMessage env env.rx_text_message_from = true then 1 else 0)
        + 8 + (if env.hasWifi = true ∧ env.wifiAvailable = true then 1 else 0) ∧
    (rebuild env focus p oldFsi).fsi.frameCount = (rebuild env focus p oldFsi).frames.length := by
  have hseq := buildFrames_frames env focus
  have hfault : faultFrames env
      = if env.error_code ≠ 0 then [FrameCallback.drawCriticalFaultFrame] else [] := by
    simp [faultFrames]
  have hclock : clockFrames env
      = if env.displayClockFrame = true then
          [if env.digitalWatchFace = true then FrameCallback.drawDigitalClockFrame
           else FrameCallback.drawAnalogClockFrame]
        else [] := rfl
  have htext : textMessageFrames env
      = if env.has_rx_text_message = true
            ∧ shouldDrawMessage env env.rx_text_message_from = true then
          [FrameCallback.drawTextMessageFrame]
        else [] := by
    simp [textMessageFrames]
  have hwifi : wifiFrames env
      = if env.hasWifi = true ∧ env.wifiAvailable = true then
          [FrameCallback.drawDebugInfoWiFiTrampoline]
        else [] := by
    simp [wifiFrames]
  have hfixed : fixedFrames
      = [FrameCallback.drawDeviceFocused, FrameCallback.drawLastHeardScreen,
         FrameCallback.drawHopSignalScreen, FrameCallback.drawDistanceScreen,
         FrameCallback.drawNodeListWithCompasses, FrameCallback.drawCompassAndLocationScreen,
         FrameCallback.drawLoRaFocused, FrameCallback.drawMemoryScreen] := rfl
  refine ⟨?_, ?_, ?_, ?_⟩
  · rw [rebuild_frames, hseq, hfault, hclock, htext, hwifi, hfixed]
  · intro i
    rw [rebuild_frames, hseq]
    simp only [List.append_assoc]
    by_cases hi : i < env.modules.length
    · simp [List.getElem?_append_left, hi]
    · obtain ⟨j, rfl⟩ : ∃ j, i = env.modules.length + j := ⟨i - env.modules.length, by omega⟩
      rw [getElemOpt_replicate_append]
      constructor
      · intro h
        have hmem := List.getElem?_mem h
        exact absurd rfl (not_moduleFrame_of_mem_tail env _ (by simpa [List.append_assoc] using hmem))
      · intro h
        omega
  · rw [rebuild_frames, hseq, hfault, hclock, htext, hwifi, hfixed]
    simp only [List.length_append, List.length_replicate]
    split_ifs <;> simp
  · rw [rebuild_fsi, rebuild_frames, buildFrames_frameCount]


/-! ### The special-position table (C21) -/

theorem buildFrames_fsi_focus (env : Env) (focus focus2 : FrameFocus) :
    (buildFrames env focus).1 = (buildFrames env focus2).1 := by
  simp only [buildFrames, addFaultFrame]
  split_ifs <;> rfl

theorem getElemOpt_append_length {α : Type} (l r : List α) (n : Nat) (hn : n = l.length) :
    (l ++ r)[n]? = r[0]? := by
  subst hn
  rw [List.getElem?_append_right (Nat.le_refl _)]
  simp

theorem addModuleFrames_focusedModule_some (ms : List MeshModule) (b : Build)
    (h : ∃ m, m ∈ ms ∧ m.isRequestingFocus = true) :
    ∃ (i : Nat) (m : MeshModule), ms[i]? = some m ∧ m.isRequestingFocus = true ∧
      (addModuleFrames b ms).fsi.positions.focusedModule = b.numframes + i := by
  induction ms generalizing b with
  | nil =>
    obtain ⟨m, hm, _⟩ := h
    simp at hm
  | cons x xs ih =>
    by_cases hxs : ∃ m, m ∈ xs ∧ m.isRequestingFocus = true
    · obtain ⟨i, m, hi, hreq, hpos⟩ := ih (addModuleFrame b x) hxs
      refine ⟨i + 1, m, by simpa using hi, hreq, ?_⟩
      simp only [addModuleFrames, List.foldl_cons] at hpos ⊢
      rw [hpos, addModuleFrame_numframes]
      omega
    · have hnone : ∀ m, m ∈ xs → m.isRequestingFocus = false := by
        intro m hm
        cases hreq : m.isRequestingFocus with
        | false => rfl
        | true => exact absurd ⟨m, hm, hreq⟩ hxs
      have hx : x.isRequestingFocus = true := by
        obtain ⟨m, hm, hreq⟩ := h
        rcases List.mem_cons.mp hm with e | e
        · rw [← e]; exact hreq
        · rw [hnone m e] at hreq
          exact absurd hreq (by decide)
      have hpos := addModuleFrames_focusedModule_none xs (addModuleFrame b x) hnone
      refine ⟨0, x, by simp, hx, ?_⟩
      simp only [addModuleFrames, List.foldl_cons] at hpos ⊢
      rw [hpos, addModuleFrame_focusedModule, hx]
      simp

/-- Claim C21 as stated fails.  In `envText` there is no fault, so the fault
tag has no content among the thirteen frames built; `setFrames` writes
`fsi.positions.fault = numframes` before it tests `error_code`, so the table
records index 2 for the fault, and index 2 is the clock frame, a frame of the
new set. -/
theorem setFrames_table_counterexample :
    envText.error_code = 0 ∧
    FrameCallback.drawCriticalFaultFrame
      ∉ (rebuild envText FrameFocus.FOCUS_DEFAULT 0 {}).frames ∧
    (rebuild envText FrameFocus.FOCUS_DEFAULT 0 {}).frames.length = 13 ∧
    (rebuild envText FrameFocus.FOCUS_DEFAULT 0 {}).fsi.positions.fault = 2 ∧
    (rebuild envText FrameFocus.FOCUS_DEFAULT 0 {}).frames[
        (rebuild envText FrameFocus.FOCUS_DEFAULT 0 {}).fsi.positions.fault]?
      = some FrameCallback.drawAnalogClockFrame := by
  decide

/-- Claim C21, amended: after every rebuild the installed table is a function
of the current build only, independent of the requested focus, of the previous
index and of the table installed before.  A fault, a text message, a module
asking for focus or a WiFi frame that is present is recorded at the index of
its frame.  Without a WiFi frame the diagnostic-network position is the frame
count, the index of no frame.  Without a fault the fault position is not
absent: it is the number of module frames, the index of a frame of the new
set, none of whose frames is the fault frame. -/
theorem setFrames_table (env : Env) (focus focus2 : FrameFocus) (p p2 : Nat)
    (oldFsi oldFsi2 : FramesetInfo) :
    (rebuild env focus p oldFsi).fsi = (rebuild env focus2 p2 oldFsi2).fsi ∧
    ((env.hasWifi && env.wifiAvailable) = false →
      (rebuild env focus p oldFsi).fsi.positions.wifi
        = (rebuild env focus p oldFsi).frames.length) ∧
    ((env.hasWifi && env.wifiAvailable) = true →
      (rebuild env focus p oldFsi).frames[(rebuild env focus p oldFsi).fsi.positions.wifi]?
        = some FrameCallback.drawDebugInfoWiFiTrampoline) ∧
    (env.error_code ≠ 0 →
      (rebuild env focus p oldFsi).frames[(rebuild env focus p oldFsi).fsi.positions.fault]?
        = some FrameCallback.drawCriticalFaultFrame) ∧
    (env.error_code = 0 →
      (rebuild env focus p oldFsi).fsi.positions.fault = env.modules.length ∧
      (rebuild env focus p oldFsi).fsi.positions.fault
        < (rebuild env focus p oldFsi).frames.length ∧
      FrameCallback.drawCriticalFaultFrame ∉ (rebuild env focus p oldFsi).frames) ∧
    ((env.has_rx_text_message && shouldDrawMessage env env.rx_text_message_from) = true →
      (rebuild env focus p oldFsi).frames[
          (rebuild env focus p oldFsi).fsi.positions.textMessage]?
        = some FrameCallback.drawTextMessageFrame) ∧
    ((∃ m, m ∈ env.modules ∧ m.isRequestingFocus = true) →
      (∃ m, env.modules[(rebuild env focus p oldFsi).fsi.positions.focusedModule]? = some m ∧
        m.isRequestingFocus = true) ∧
      (rebuild env focus p oldFsi).frames[
          (rebuild env focus p oldFsi).fsi.positions.focusedModule]?
        = some FrameCallback.drawModuleFrame) := by
  have hseq := buildFrames_frames env focus
  have hwifi := buildFrames_wifi env focus
  have hfl := buildFrames_fault env focus
  refine ⟨?_, ?_, ?_, ?_, ?_, ?_, ?_⟩
  · rw [rebuild_fsi, rebuild_fsi, buildFrames_fsi_focus env focus focus2]
  · intro h
    rw [rebuild_fsi, rebuild_frames, hwifi, hseq]
    simp [wifiFrames, h, fixedFrames]
    omega
  · intro h
    rw [rebuild_fsi, rebuild_frames, hseq]
    rw [getElemOpt_append_length _ _ _ (by rw [hwifi]; simp [fixedFrames]; omega)]
    simp [wifiFrames, h]
  · intro h
    have hb : (env.error_code != 0) = true := by simpa using h
    rw [rebuild_fsi, rebuild_frames, hfl, hseq]
    simp only [faultFrames, hb, if_true, List.append_assoc]
    have h2 := getElemOpt_replicate_append env.modules.length 0 FrameCallback.drawModuleFrame
      ([FrameCallback.drawCriticalFaultFrame] ++
        (clockFrames env ++ (textMessageFrames env ++ (fixedFrames ++ wifiFrames env))))
    simpa using h2
  · intro h
    rw [rebuild_fsi, rebuild_frames, hfl, hseq]
    refine ⟨rfl, ?_, ?_⟩
    · simp [fixedFrames]
    · have hb : (env.error_code != 0) = false := by simp [h]
      simp only [faultFrames, clockFrames, textMessageFrames, fixedFrames, wifiFrames, hb,
        Bool.false_eq_true, if_false]
      intro hmem
      simp only [List.mem_append, List.mem_replicate] at hmem
      split_ifs at hmem <;> simp at hmem
  · intro h
    rw [rebuild_fsi, rebuild_frames, hseq, buildFrames_textMessage env focus h]
    simp only [List.append_assoc]
    rw [← List.append_assoc (List.replicate _ _), ← List.append_assoc _ (clockFrames env)]
    rw [getElemOpt_append_length _ _ _ (by simp; omega)]
    simp [textMessageFrames, h]
  · intro h
    obtain ⟨i, m, hi, hreq, hpos⟩ := addModuleFrames_focusedModule_some env.modules {} h
    have hpos2 : (rebuild env focus p oldFsi).fsi.positions.focusedModule = i := by
      rw [rebuild_fsi, buildFrames_focusedModule, hpos]
      simp [Build.numframes]
    have hlt : i < env.modules.length := by
      rcases Nat.lt_or_ge i env.modules.length with hlt | hge
      · exact hlt
      · rw [List.getElem?_eq_none_iff.mpr hge] at hi
        exact absurd hi (by simp)
    rw [hpos2]
    refine ⟨⟨m, hi, hreq⟩, ?_⟩
    rw [rebuild_frames, hseq]
    simp only [List.append_assoc]
    rw [List.getElem?_append_left (by simpa using hlt)]
    simp [hlt]

/-! ### The target framerate (C22, C23) -/

theorem afterLoop_settled {U : Type} (lib : OLEDDisplayUi U) (t : TickEnv) (s : Screen U)
    (hon : s.screenOn = true)
    (hfixed : (lib.getUiState (lib.update t.now s.ui)).frameState = FrameState.FIXED)
    (hcarousel : (s.showingNormalScreen
      && (decide (t.auto_screen_carousel_secs > 0)
        && !t.isWithinTimespanMs s.lastScreenTransition
            (t.auto_screen_carousel_secs * 1000 % 2 ^ 32))) = false) :
    (Screen.afterLoop lib t s).1.targetFramerate = IDLE_FRAMERATE ∧
    (Screen.afterLoop lib t s).2 = RunResult.delay (1000 / IDLE_FRAMERATE) ∧
    1000 / IDLE_FRAMERATE = 1000 := by
  refine ⟨?_, ?_, by decide⟩
  · unfold Screen.afterLoop
    simp only [hon, Bool.not_true, Bool.false_eq_true, if_false, hfixed, decide_True,
      Bool.and_true]
    by_cases hr : s.targetFramerate = IDLE_FRAMERATE
    · have hb : (s.targetFramerate != IDLE_FRAMERATE) = false := by simp [hr]
      simp only [hb, Bool.false_eq_true, if_false, hcarousel]
      exact hr
    · have hb : (s.targetFramerate != IDLE_FRAMERATE) = true := by simp [hr]
      simp only [hb, if_true, hcarousel, Bool.false_eq_true, if_false]
  · unfold Screen.afterLoop
    simp only [hon, Bool.not_true, Bool.false_eq_true, if_false, hfixed, decide_True,
      Bool.and_true]
    by_cases hr : s.targetFramerate = IDLE_FRAMERATE
    · have hb : (s.targetFramerate != IDLE_FRAMERATE) = false := by simp [hr]
      simp only [hb, Bool.false_eq_true, if_false, hcarousel]
      rw [hr]
    · have hb : (s.targetFramerate != IDLE_FRAMERATE) = true := by simp [hr]
      simp only [hb, if_true, hcarousel, Bool.false_eq_true, if_false]

/-- Claim C22: in a tick with the display in use and the screen on when the
command loop ends, if the UI is `FIXED` after the `ui->update()` of the tick
and the auto-carousel does not fire, `targetFramerate` is `IDLE_FRAMERATE`
when the tick returns and the delay returned is `1000 / IDLE_FRAMERATE = 1000`
ms, whatever `targetFramerate` was when the tick began. -/
theorem runOnce_idle_when_settled {U : Type} (lib : OLEDDisplayUi U) (env : Env) (t : TickEnv)
    (s : Screen U) (huse : s.useDisplay = true)
    (hon : (Screen.afterCommands lib env t s).screenOn = true)
    (hfixed : (lib.getUiState
      (lib.update t.now (Screen.afterCommands lib env t s).ui)).frameState = FrameState.FIXED)
    (hcarousel : ((Screen.afterCommands lib env t s).showingNormalScreen
      && (decide (t.auto_screen_carousel_secs > 0)
        && !t.isWithinTimespanMs (Screen.afterCommands lib env t s).lastScreenTransition
            (t.auto_screen_carousel_secs * 1000 % 2 ^ 32))) = false) :
    (Screen.runOnce lib env t s).1.targetFramerate = IDLE_FRAMERATE ∧
    (Screen.runOnce lib env t s).2 = RunResult.delay (1000 / IDLE_FRAMERATE) ∧
    1000 / IDLE_FRAMERATE = 1000 := by
  have hrun : Screen.runOnce lib env t s
      = Screen.afterLoop lib t (Screen.afterCommands lib env t s) := by
    simp [Screen.runOnce, huse]
  rw [hrun]
  exact afterLoop_settled lib t _ hon hfixed hcarousel

/-- Claim C22 for a tick that begins at the transition rate with the UI
already settled. -/
theorem runOnce_idle_when_settled_witness :
    ({ screenIdle [] with targetFramerate := SCREEN_TRANSITION_FRAMERATE }
      : Screen UiModel).targetFramerate = 30 ∧
    (Screen.runOnce instantUi envWifi tickQuiet
      { screenIdle [] with targetFramerate := SCREEN_TRANSITION_FRAMERATE }).2
      = RunResult.delay (1000 / IDLE_FRAMERATE) :=
  ⟨by decide,
   (runOnce_idle_when_settled instantUi envWifi tickQuiet
      { screenIdle [] with targetFramerate := SCREEN_TRANSITION_FRAMERATE }
      (by decide) (by decide) (by decide) (by decide)).2.1⟩

section RateLemmas

variable {U : Type}

theorem setFastFramerate_rateOk (lib : OLEDDisplayUi U) (s : Screen U) :
    (Screen.setFastFramerate lib s).rateOk := Or.inr rfl

theorem setFrames_rateOk (lib : OLEDDisplayUi U) (env : Env) (focus : FrameFocus)
    (s : Screen U) : (Screen.setFrames lib env focus s).rateOk := Or.inr rfl

theorem setFrameImmediateDraw_rateOk (lib : OLEDDisplayUi U) (f : FrameCallback)
    (s : Screen U) : (Screen.setFrameImmediateDraw lib f s).rateOk := Or.inr rfl

theorem dispatch_rateOk (lib : OLEDDisplayUi U) (env : Env) (t : TickEnv) (cmd : ScreenCmd)
    (s : Screen U) (h : s.rateOk) : (Screen.dispatch lib env t cmd s).rateOk := by
  rcases dispatch_targetFramerate lib env t cmd s with h1 | h1
  · unfold Screen.rateOk at h ⊢
    rw [h1]; exact h
  · exact Or.inr h1

theorem processCmds_rateOk (lib : OLEDDisplayUi U) (env : Env) (t : TickEnv)
    (cmds : List ScreenCmd) (s : Screen U) (h : s.rateOk) :
    (Screen.processCmds lib env t cmds s).rateOk := by
  induction cmds generalizing s with
  | nil => exact h
  | cons c cs ih =>
    simp only [Screen.processCmds, List.foldl_cons] at ih ⊢
    exact ih _ (dispatch_rateOk lib env t c s h)

theorem beforeCommands_rateOk (lib : OLEDDisplayUi U) (t : TickEnv) (s : Screen U)
    (h : s.rateOk) : (Screen.beforeCommands lib t s).rateOk := by
  unfold Screen.rateOk at h ⊢
  simp only [Screen.beforeCommands, Screen.stopBootScreen, Screen.setWelcomeFrames,
    Screen.setFrameImmediateDraw, Screen.setFastFramerate]
  split_ifs <;> first | exact h | exact Or.inr rfl

theorem afterCommands_rateOk (lib : OLEDDisplayUi U) (env : Env) (t : TickEnv) (s : Screen U)
    (h : s.rateOk) : (Screen.afterCommands lib env t s).rateOk := by
  rw [afterCommands_eq]
  exact processCmds_rateOk lib env t _ _ (beforeCommands_rateOk lib t s h)

theorem afterLoop_rateOk (lib : OLEDDisplayUi U) (t : TickEnv) (s : Screen U)
    (h : s.rateOk) : (Screen.afterLoop lib t s).1.rateOk := by
  unfold Screen.rateOk at h ⊢
  simp only [Screen.afterLoop, Screen.handleOnPress, Screen.setFastFramerate]
  split_ifs <;> first | exact h | exact Or.inr rfl | exact Or.inl rfl

theorem afterLoop_delay (lib : OLEDDisplayUi U) (t : TickEnv) (s : Screen U)
    (hon : s.screenOn = true) :
    (Screen.afterLoop lib t s).2
      = RunResult.delay (1000 / (Screen.afterLoop lib t s).1.targetFramerate) := by
  simp only [Screen.afterLoop, hon, Bool.not_true, Bool.false_eq_true, if_false]

theorem runOnce_rateOk (lib : OLEDDisplayUi U) (env : Env) (t : TickEnv) (s : Screen U)
    (h : s.rateOk) : (Screen.runOnce lib env t s).1.rateOk := by
  unfold Screen.runOnce
  split_ifs
  · exact h
  · exact afterLoop_rateOk lib t _ (afterCommands_rateOk lib env t s h)

theorem reachable_rateOk (lib : OLEDDisplayUi U) (s : Screen U)
    (h : Screen.Reachable lib s) : s.rateOk := by
  induction h with
  | start s h => exact Or.inl h
  | runOnce env t s _ ih => exact runOnce_rateOk lib env t s ih
  | handleStatusUpdate env arg s _ ih =>
    simp only [Screen.handleStatusUpdate]
    split_ifs <;> first | exact ih | exact setFrames_rateOk lib env _ s
  | handleTextMessage env packetFrom s _ ih =>
    simp only [Screen.handleTextMessage]
    split_ifs <;> first | exact ih | exact setFrames_rateOk lib env _ s
  | handleUIFrameEvent env action s _ ih =>
    simp only [Screen.handleUIFrameEvent]
    split_ifs <;>
      first | exact ih | exact setFrames_rateOk lib env _ s | exact setFastFramerate_rateOk lib s
  | handleInputEvent env event s _ ih =>
    simp only [Screen.handleInputEvent, Screen.showPrevFrame, Screen.showNextFrame]
    split_ifs <;> first | exact ih | exact setFrames_rateOk lib _ _ s
  | handleAdminMessage env arg s _ ih =>
    cases arg
    · exact setFrames_rateOk lib env _ s
    · exact ih
  | dismissCurrentFrame env w s _ ih =>
    simp only [Screen.dismissCurrentFrame]
    split_ifs <;> first | exact ih | exact setFrames_rateOk lib _ _ s
  | setFrames env focus s _ _ => exact setFrames_rateOk lib env focus s
  | setFastFramerate s _ _ => exact setFastFramerate_rateOk lib s
  | setFrameImmediateDraw f s _ _ => exact setFrameImmediateDraw_rateOk lib f s
  | handleSetOn turnOn s _ ih =>
    unfold Screen.rateOk at ih ⊢
    simp only [Screen.handleSetOn]
    split_ifs <;> exact ih
  | enqueue cmd s _ ih => exact ih

end RateLemmas

/-- Claim C23: in every reachable state `targetFramerate` is `IDLE_FRAMERATE`
(1) or `SCREEN_TRANSITION_FRAMERATE` (30), and idle is less than transition;
so `targetFramerate` is not zero where a tick from such a state divides by it,
and a tick that reaches the division (display in use, screen on when the
command loop ends) returns exactly 1000 or 33 ms. -/
theorem targetFramerate_reachable {U : Type} (lib : OLEDDisplayUi U) (s : Screen U)
    (hreach : Screen.Reachable lib s) :
    (s.targetFramerate = IDLE_FRAMERATE ∨ s.targetFramerate = SCREEN_TRANSITION_FRAMERATE) ∧
    IDLE_FRAMERATE = 1 ∧ SCREEN_TRANSITION_FRAMERATE = 30 ∧
    IDLE_FRAMERATE < SCREEN_TRANSITION_FRAMERATE ∧
    (∀ (env : Env) (t : TickEnv),
      (Screen.runOnce lib env t s).1.targetFramerate ≠ 0 ∧
      (s.useDisplay = true → (Screen.afterCommands lib env t s).screenOn = true →
        (Screen.runOnce lib env t s).2
          = RunResult.delay (1000 / (Screen.runOnce lib env t s).1.targetFramerate) ∧
        ((Screen.runOnce lib env t s).2 = RunResult.delay 1000 ∨
          (Screen.runOnce lib env t s).2 = RunResult.delay 33))) := by
  have hs := reachable_rateOk lib s hreach
  refine ⟨hs, rfl, rfl, by decide, ?_⟩
  intro env t
  have hr := runOnce_rateOk lib env t s hs
  unfold Screen.rateOk at hr
  constructor
  · rcases hr with h | h <;> rw [h] <;> decide
  · intro huse hon
    have hrun : Screen.runOnce lib env t s
        = Screen.afterLoop lib t (Screen.afterCommands lib env t s) := by
      simp [Screen.runOnce, huse]
    have hd := afterLoop_delay lib t _ hon
    rw [← hrun] at hd
    refine ⟨hd, ?_⟩
    rcases hr with h | h
    · left; rw [hd, h]; rfl
    · right; rw [hd, h]; rfl

/-- Claim C23 for the state that a tick with a pending `SHOW_NEXT_FRAME`
leaves, reached from an idle screen. -/
theorem targetFramerate_reachable_witness :
    (Screen.runOnce slowUi envWifi tickQuiet
      (screenIdle [{ cmd := Cmd.SHOW_NEXT_FRAME }])).1.targetFramerate
        = SCREEN_TRANSITION_FRAMERATE ∧
    ((Screen.runOnce slowUi envWifi tickQuiet
      (screenIdle [{ cmd := Cmd.SHOW_NEXT_FRAME }])).1.targetFramerate = IDLE_FRAMERATE ∨
     (Screen.runOnce slowUi envWifi tickQuiet
      (screenIdle [{ cmd := Cmd.SHOW_NEXT_FRAME }])).1.targetFramerate
        = SCREEN_TRANSITION_FRAMERATE) :=
  ⟨by decide,
   (targetFramerate_reachable slowUi _
      (Screen.Reachable.runOnce envWifi tickQuiet (screenIdle [{ cmd := Cmd.SHOW_NEXT_FRAME }])
        (Screen.Reachable.start _ (by decide)))).1⟩

/-! ### The wait loops (C24) -/

theorem drawWaitLoop_stuck (obs : Nat → Nat × Nat) (hstuck : ∀ i, (obs i).2 < (obs i).1)
    (fuel i : Nat) : drawWaitLoop obs fuel i = none := by
  induction fuel generalizing i with
  | zero => rfl
  | succ f ih => simp [drawWaitLoop, hstuck i, ih]

theorem drawWaitLoop_from (obs : Nat → Nat × Nat) (n : Nat) (hlast : (obs n).1 ≤ (obs n).2)
    (k i fuel : Nat) (hi : i + k = n) (hbefore : ∀ j, i ≤ j → j < n → (obs j).2 < (obs j).1)
    (hfuel : k < fuel) : drawWaitLoop obs fuel i = some (n + 1) := by
  induction k generalizing i fuel with
  | zero =>
    obtain ⟨f, rfl⟩ : ∃ f, fuel = f + 1 := ⟨fuel - 1, by omega⟩
    have hin : i = n := by omega
    subst hin
    simp [drawWaitLoop, Nat.not_lt.mpr hlast]
  | succ k ih =>
    obtain ⟨f, rfl⟩ : ∃ f, fuel = f + 1 := ⟨fuel - 1, by omega⟩
    have hlt := hbefore i (Nat.le_refl i) (by omega)
    simp only [drawWaitLoop, hlt, if_true]
    exact ih (i + 1) f (by omega) (fun j hj hjn => hbefore j (by omega) hjn) (by omega)

/-- Claim C24 as stated fails: the two wait loops have no cap.  For the UI of
`obsStuck`, whose `lastUpdate` never reaches the captured `startUpdate`, the
loop is still running after any number of iterations, so no bound on the
iterations holds for every behaviour of `lastUpdate`. -/
theorem drawWaitLoop_counterexample :
    (∀ i, (obsStuck i).2 < (obsStuck i).1) ∧
    (∀ fuel, drawWaitLoop obsStuck fuel 0 = none) ∧
    ¬ (∃ bound, ∀ obs : Nat → Nat × Nat, (drawWaitLoop obs bound 0).isSome = true) := by
  have hstuck : ∀ i, (obsStuck i).2 < (obsStuck i).1 := by
    intro i
    simp [obsStuck]
  refine ⟨hstuck, fun fuel => drawWaitLoop_stuck obsStuck hstuck fuel 0, ?_⟩
  rintro ⟨bound, h⟩
  have h1 := h obsStuck
  rw [drawWaitLoop_stuck obsStuck hstuck bound 0] at h1
  simp at h1

/-- Claim C24, amended: the wait loops of `forceDisplay(true)` and
`setScreensaverFrames` have no iteration cap; each ends exactly at the first
iteration `n` after whose `ui->update()` the `lastUpdate` of the UI is not
below the `startUpdate` captured in that iteration, after `n + 1` iterations,
whatever fuel above `n` the loop is given. -/
theorem drawWaitLoop_ends_at_first_draw (obs : Nat → Nat × Nat) (n fuel : Nat)
    (hbefore : ∀ j, j < n → (obs j).2 < (obs j).1) (hlast : (obs n).1 ≤ (obs n).2)
    (hfuel : n < fuel) :
    drawWaitLoop obs fuel 0 = some (n + 1) ∧
    (∀ fuel2, fuel2 ≤ n → drawWaitLoop obs fuel2 0 = none) := by
  refine ⟨drawWaitLoop_from obs n hlast n 0 fuel (by omega) (fun j _ hj => hbefore j hj) hfuel, ?_⟩
  intro fuel2 hle
  have key : ∀ (f i : Nat), i + f ≤ n → drawWaitLoop obs f i = none := by
    intro f
    induction f with
    | zero => intro i _; rfl
    | succ f ih =>
      intro i hi
      have hlt := hbefore i (by omega)
      simp only [drawWaitLoop, hlt, if_true]
      exact ih (i + 1) (by omega)
  exact key fuel2 0 (by omega)

/-- The amended claim C24 for a UI whose third update draws: the loop ends
after three iterations. -/
theorem drawWaitLoop_ends_at_first_draw_witness :
    (obsThird 2).1 ≤ (obsThird 2).2 ∧ drawWaitLoop obsThird 10 0 = some (2 + 1) :=
  ⟨by decide,
   (drawWaitLoop_ends_at_first_draw obsThird 2 10
      (by
        intro j hj
        match j, hj with
        | 0, _ => decide
        | 1, _ => decide)
      (by decide) (by decide)).1⟩

/-! ### Dismissing the current frame (C25) -/

/-- What `dismissCurrentFrame` does: it compares the current frame with the
recorded text message position, then with the recorded waypoint position,
each together with the flag of the device state, and rebuilds when it cleared
a flag; otherwise it changes nothing. -/
theorem dismissCurrentFrame_cases {U : Type} (lib : OLEDDisplayUi U) (env : Env)
    (has_rx_waypoint : Bool) (s : Screen U) :
    (((lib.getUiState s.ui).currentFrame % 256 ≠ s.framesetInfo.positions.textMessage
        ∨ env.has_rx_text_message = false) →
      ((lib.getUiState s.ui).currentFrame % 256 ≠ s.framesetInfo.positions.waypoint
        ∨ has_rx_waypoint = false) →
      Screen.dismissCurrentFrame lib env has_rx_waypoint s = (s, env, has_rx_waypoint)) ∧
    ((lib.getUiState s.ui).currentFrame % 256 = s.framesetInfo.positions.textMessage →
      env.has_rx_text_message = true →
      (Screen.dismissCurrentFrame lib env has_rx_waypoint s).2.1.has_rx_text_message
        = false) := by
  constructor
  · intro h1 h2
    have c1 : (decide ((lib.getUiState s.ui).currentFrame % 256
        = s.framesetInfo.positions.textMessage) && env.has_rx_text_message) = false := by
      rcases h1 with h | h <;> simp [h]
    have c2 : (decide ((lib.getUiState s.ui).currentFrame % 256
        = s.framesetInfo.positions.waypoint) && has_rx_waypoint) = false := by
      rcases h2 with h | h <;> simp [h]
    simp only [Screen.dismissCurrentFrame, c1, c2, Bool.false_eq_true, if_false]
  · intro h1 h2
    simp [Screen.dismissCurrentFrame, h1, h2]

/-- Claim C25 fails on the code.  In `envIncoming` the text message frame is
frame 0 of the normal frame-set and `setFrames` records
`fsi.positions.textMessage = 0` for it.  Then the firmware update screen is
shown: the UI holds the one frame `drawFrameFirmware`, its current frame is 0,
and `framesetInfo` is still the table of the normal frame-set.
`dismissCurrentFrame` finds `currentFrame == framesetInfo.positions.textMessage`
and `has_rx_text_message`, clears the flag and installs the normal frame-set,
although the frame on screen is the firmware update frame and not the text
message frame. -/
theorem dismissCurrentFrame_wrong_frame :
    envIncoming.has_rx_text_message = true ∧
    screenTextMessage.ui.2[screenTextMessage.framesetInfo.positions.textMessage]?
      = some FrameCallback.drawTextMessageFrame ∧
    screenTextMessage.framesetInfo.positions.textMessage = 0 ∧
    screenTextThenFirmware.ui.2 = [FrameCallback.drawFrameFirmware] ∧
    screenTextThenFirmware.showingNormalScreen = false ∧
    ((recordingFrames instantUi).getUiState screenTextThenFirmware.ui).currentFrame = 0 ∧
    screenTextThenFirmware.ui.2[
        ((recordingFrames instantUi).getUiState screenTextThenFirmware.ui).currentFrame]?
      = some FrameCallback.drawFrameFirmware ∧
    screenTextThenFirmware.framesetInfo = screenTextMessage.framesetInfo ∧
    (Screen.dismissCurrentFrame (recordingFrames instantUi) envIncoming false
      screenTextThenFirmware).2.1.has_rx_text_message = false ∧
    (Screen.dismissCurrentFrame (recordingFrames instantUi) envIncoming false
      screenTextThenFirmware).1.showingNormalScreen = true ∧
    (Screen.dismissCurrentFrame (recordingFrames instantUi) envIncoming false
      screenTextThenFirmware).1.ui.2
      = fixedFrames ++ [FrameCallback.drawDebugInfoWiFiTrampoline] := by
  decide

/-! ### The bounds of the frame array (C26) -/

/-- Claim C26: a rebuild with `m` module frames writes the entries
`normalFrames[0 .. frameCount-1]` and no other (index `i` is written exactly
when `i < frameCount`), with `frameCount ≤ m + 12`; the count stored in
`framesetInfo.frameCount` is the number of entries written; and when
`m + 12 ≤ MAX_NUM_NODES + NUM_EXTRA_FRAMES`, with `NUM_EXTRA_FRAMES = 3`, every
index written is inside the array of `MAX_NUM_NODES + NUM_EXTRA_FRAMES`
entries that the constructor allocates. -/
theorem setFrames_writes_in_bounds (env : Env) (focus : FrameFocus) (p : Nat)
    (oldFsi : FramesetInfo) (maxNumNodes : Nat)
    (hfit : env.modules.length + 12 ≤ maxNumNodes + NUM_EXTRA_FRAMES) :
    NUM_EXTRA_FRAMES = 3 ∧
    (rebuild env focus p oldFsi).frames.length ≤ env.modules.length + 12 ∧
    (rebuild env focus p oldFsi).fsi.frameCount = (rebuild env focus p oldFsi).frames.length ∧
    (∀ i, (rebuild env focus p oldFsi).frames[i]? ≠ none
      ↔ i < (rebuild env focus p oldFsi).fsi.frameCount) ∧
    (∀ i, (rebuild env focus p oldFsi).frames[i]? ≠ none →
      i < maxNumNodes + NUM_EXTRA_FRAMES) := by
  have hlen : (rebuild env focus p oldFsi).frames.length ≤ env.modules.length + 12 := by
    rw [rebuild_frames, buildFrames_frames]
    simp only [List.length_append, List.length_replicate, faultFrames, clockFrames,
      textMessageFrames, fixedFrames, wifiFrames]
    split_ifs <;> simp
  have hcount : (rebuild env focus p oldFsi).fsi.frameCount
      = (rebuild env focus p oldFsi).frames.length := by
    rw [rebuild_fsi, rebuild_frames, buildFrames_frameCount]
  have hidx : ∀ i, (rebuild env focus p oldFsi).frames[i]? ≠ none
      ↔ i < (rebuild env focus p oldFsi).frames.length := by
    intro i
    rw [Ne, List.getElem?_eq_none_iff]
    omega
  refine ⟨rfl, hlen, hcount, ?_, ?_⟩
  · intro i
    rw [hcount]
    exact hidx i
  · intro i hi
    have := (hidx i).mp hi
    omega

/-- Claim C26 for two modules and an array of 100 + 3 entries: the fourteen
frames written are inside it. -/
theorem setFrames_writes_in_bounds_witness :
    envFault.modules.length + 12 ≤ 100 + NUM_EXTRA_FRAMES ∧
    (rebuild envFault FrameFocus.FOCUS_DEFAULT 0 {}).frames.length = 14 ∧
    (rebuild envFault FrameFocus.FOCUS_DEFAULT 0 {}).frames.length
      ≤ envFault.modules.length + 12 :=
  ⟨by decide, by decide,
   (setFrames_writes_in_bounds envFault FrameFocus.FOCUS_DEFAULT 0 {} 100 (by decide)).2.1⟩

/-! ### Timestamps (C27) -/

/-- A first call, for a node heard 3590 s ago while the clock reads
1728007200, which is 02:00:00: it caches hour 1, minute 0. -/
theorem deltaToTimestamp_first_call :
    deltaToTimestamp {}
        { tzdefLength := 3, pointersValid := true, secondsAgo := 3590, secondsRTC := 1728007200 }
      = { cache := { hoursCached := 1, minutesCached := 0, daysAgoCached := 0,
                     secondsAgoCached := 3590, validCached := true },
          result := true, written := some (1, 0, 0) } := by
  decide

/-- Claim C27 as stated fails.  After the call of `deltaToTimestamp_first_call`
a second call asks for a node heard 3640 s ago, with the timezone set, valid
pointers and the same clock, 1728007200 = 02:00:00.  The claim gives the hour
`((1728007200 - 3640) mod 86400) / 3600 = 0` (00:59); the call is answered
from the statics, since `3640 - 3590 < 60`, and writes the cached 1:00. -/
theorem deltaToTimestamp_counterexample :
    ((1728007200 - 3640) % 86400) / 3600 = 0 ∧
    3640 ≤ SEC_PER_DAY * 30 * 6 ∧
    (deltaToTimestamp
        (deltaToTimestamp {}
          { tzdefLength := 3, pointersValid := true, secondsAgo := 3590,
            secondsRTC := 1728007200 }).cache
        { tzdefLength := 3, pointersValid := true, secondsAgo := 3640,
          secondsRTC := 1728007200 }).result = true ∧
    (deltaToTimestamp
        (deltaToTimestamp {}
          { tzdefLength := 3, pointersValid := true, secondsAgo := 3590,
            secondsRTC := 1728007200 }).cache
        { tzdefLength := 3, pointersValid := true, secondsAgo := 3640,
          secondsRTC := 1728007200 }).written = some (1, 0, 0) := by
  decide

/-- The statics also answer when they hold no valid result: after a valid
call and a call without timezone, a call that meets all four conditions of
the claim within 60 s of the cached `secondsAgo` returns false. -/
theorem deltaToTimestamp_invalid_cache :
    (deltaToTimestamp
        (deltaToTimestamp
          (deltaToTimestamp {}
            { tzdefLength := 3, pointersValid := true, secondsAgo := 3590,
              secondsRTC := 1728007200 }).cache
          { tzdefLength := 0, pointersValid := true, secondsAgo := 3590,
            secondsRTC := 1728007200 }).cache
        { tzdefLength := 3, pointersValid := true, secondsAgo := 3600,
          secondsRTC := 1728007200 }).result = false := by
  decide

/-- Claim C27, amended: a call with the timezone unset, a null pointer or
`secondsAgo` above six months returns false.  Otherwise a call that is not
answered from the statics (`secondsAgoCached == 0`, or `secondsAgo` not within
60 s above it) returns true exactly when the RTC is set, and then writes
`hours = ((rtc - secondsAgo) mod 2^32 mod 86400) / 3600`, at most 23, which is
`((rtc - secondsAgo) mod 86400) / 3600` when `secondsAgo ≤ rtc < 2^32`, and
`minutes` at most 59; and a call answered from valid statics returns true with
the cached values. -/
theorem deltaToTimestamp_spec (c : TimestampCache) (a : TimestampCall)
    (htz : a.tzdefLength ≠ 0) (hptr : a.pointersValid = true)
    (hago : a.secondsAgo ≤ SEC_PER_DAY * 30 * 6) :
    (∀ a2 : TimestampCall,
      (a2.tzdefLength = 0 ∨ a2.pointersValid = false ∨ a2.secondsAgo > SEC_PER_DAY * 30 * 6) →
      (deltaToTimestamp c a2).result = false ∧ (deltaToTimestamp c a2).written = none) ∧
    (¬ c.hit a.secondsAgo →
      ((deltaToTimestamp c a).result = true ↔ a.secondsRTC ≠ 0) ∧
      (a.secondsRTC ≠ 0 →
        ∃ hours minutes daysAgo,
          (deltaToTimestamp c a).written = some (hours, minutes, daysAgo) ∧
          hours = ((a.secondsRTC + 2 ^ 32 - a.secondsAgo) % 2 ^ 32 % 86400) / 3600 ∧
          hours ≤ 23 ∧
          minutes = ((a.secondsRTC + 2 ^ 32 - a.secondsAgo) % 2 ^ 32 % 86400 % 3600) / 60 ∧
          minutes ≤ 59 ∧
          (a.secondsAgo ≤ a.secondsRTC → a.secondsRTC < 2 ^ 32 →
            hours = ((a.secondsRTC - a.secondsAgo) % 86400) / 3600))) ∧
    (c.hit a.secondsAgo → c.validCached = true →
      (deltaToTimestamp c a).result = true ∧
      (deltaToTimestamp c a).written
        = some (c.hoursCached, c.minutesCached, c.daysAgoCached)) := by
  have hago2 : ¬ a.secondsAgo > SEC_PER_DAY * 30 * 6 := by omega
  refine ⟨?_, ?_, ?_⟩
  · intro a2 h
    rcases h with h | h | h
    · simp [deltaToTimestamp, h]
    · by_cases h0 : a2.tzdefLength = 0 <;> simp [deltaToTimestamp, h, h0]
    · by_cases h0 : a2.tzdefLength = 0 <;> cases hp : a2.pointersValid <;>
        simp [deltaToTimestamp, h, h0, hp]
  · intro hmiss
    have hmiss2 : ¬ ((a.secondsAgo + 2 ^ 32 - c.secondsAgoCached) % 2 ^ 32 < 60
        ∧ c.secondsAgoCached ≠ 0) := hmiss
    constructor
    · by_cases hr : a.secondsRTC = 0
      · simp only [deltaToTimestamp, htz, hptr, hago2, hmiss2, hr, if_false, if_true,
          Bool.not_true, Bool.false_eq_true]
        simp
      · simp only [deltaToTimestamp, htz, hptr, hago2, hmiss2, hr, if_false,
          Bool.not_true, Bool.false_eq_true]
        simpa using hr
    · intro hr
      have hago3 : ¬ a.secondsAgo > 86400 * 30 * 6 := hago2
      simp only [deltaToTimestamp, htz, hptr, hmiss2, hr, if_false,
        Bool.not_true, Bool.false_eq_true, SEC_PER_DAY, SEC_PER_HOUR, SEC_PER_MIN, hago3]
      generalize hx : (a.secondsRTC + 2 ^ 32 - a.secondsAgo) % 2 ^ 32 = x
      refine ⟨_, _, _, rfl, ?_, ?_, ?_, ?_, ?_⟩
      · omega
      · omega
      · omega
      · omega
      · intro hle hlt
        omega
  · intro hhit hvalid
    have hhit2 : (a.secondsAgo + 2 ^ 32 - c.secondsAgoCached) % 2 ^ 32 < 60
        ∧ c.secondsAgoCached ≠ 0 := hhit
    simp only [deltaToTimestamp, htz, hptr, hago2, if_false, Bool.not_true, Bool.false_eq_true,
      if_pos hhit2, hvalid, if_true, and_self]

/-- The amended claim C27 for a first call on fresh statics: it is not
answered from them and returns true. -/
theorem deltaToTimestamp_spec_witness :
    (deltaToTimestamp {}
      { tzdefLength := 3, pointersValid := true, secondsAgo := 3590,
        secondsRTC := 1728007200 }).result = true :=
  ((deltaToTimestamp_spec {}
      { tzdefLength := 3, pointersValid := true, secondsAgo := 3590, secondsRTC := 1728007200 }
      (by decide) (by decide) (by decide)).2.1 (by decide)).1.mpr (by decide)

/-! ### The sorted node list (C28) -/

theorem collectNodes_eq (db : List (Option NodeInfoLite)) (localNum : Nat)
    (sinceLastSeen : NodeInfoLite → Nat) (nodeList : List NodeEntry) :
    collectNodes db localNum sinceLastSeen nodeList
      = nodeList ++ db.filterMap (fun entry =>
          match entry with
          | none => none
          | some node =>
            if node.num = localNum then none
            else some { node := node, lastHeard := sinceLastSeen node }) := by
  induction db generalizing nodeList with
  | nil => simp [collectNodes]
  | cons e es ih =>
    simp only [collectNodes, List.foldl_cons] at ih ⊢
    cases e with
    | none => simp [ih]
    | some node =>
      by_cases h : node.num = localNum
      · simp [ih, h]
      · simp [ih, h]

theorem nodeLess_irrefl (a : NodeEntry) : nodeLess a a = false := by
  simp [nodeLess]

theorem nodeLess_inOrder (a b : NodeEntry) (h : nodeLess b a = false) : a.inOrder b := by
  unfold NodeEntry.inOrder NodeEntry.known
  unfold nodeLess at h
  cases ha : a.node.is_favorite <;> cases hb : b.node.is_favorite <;>
    simp [ha, hb, UINT32_MAX] at h ⊢
  all_goals
    refine ⟨fun hb1 hb2 => (h hb1 hb2).1, fun _ _ hb1 hb2 => (h hb1 hb2).2⟩

theorem nodeLess_trans (a b c : NodeEntry) (hab : nodeLess a b = true)
    (hbc : nodeLess b c = true) : nodeLess a c = true := by
  unfold nodeLess at hab hbc ⊢
  have ea : (a.lastHeard == 0 || a.lastHeard == UINT32_MAX) = true
      ∨ (a.lastHeard == 0 || a.lastHeard == UINT32_MAX) = false := by
    cases (a.lastHeard == 0 || a.lastHeard == UINT32_MAX) <;> simp
  have eb : (b.lastHeard == 0 || b.lastHeard == UINT32_MAX) = true
      ∨ (b.lastHeard == 0 || b.lastHeard == UINT32_MAX) = false := by
    cases (b.lastHeard == 0 || b.lastHeard == UINT32_MAX) <;> simp
  have ec : (c.lastHeard == 0 || c.lastHeard == UINT32_MAX) = true
      ∨ (c.lastHeard == 0 || c.lastHeard == UINT32_MAX) = false := by
    cases (c.lastHeard == 0 || c.lastHeard == UINT32_MAX) <;> simp
  cases ha : a.node.is_favorite <;> cases hb : b.node.is_favorite <;>
    cases hc : c.node.is_favorite <;>
    rcases ea with ea | ea <;> rcases eb with eb | eb <;> rcases ec with ec | ec <;>
    simp only [ha, hb, hc, ea, eb, ec, bne_self_eq_false, Bool.false_eq_true, if_false, if_true,
      Bool.true_eq_false, decide_eq_true_eq, decide_eq_false_iff_not, bne_iff_ne, ne_eq,
      not_false_eq_true, not_true_eq_false, gt_iff_lt, Bool.not_eq_true, and_self,
      decide_True, decide_False, reduceCtorEq] at hab hbc ⊢ <;>
    first
      | omega
      | decide
      | exact absurd hab (by decide)
      | exact absurd hbc (by decide)

theorem nodeLess_incomparable_trans (a b c : NodeEntry)
    (hab : nodeLess a b = false ∧ nodeLess b a = false)
    (hbc : nodeLess b c = false ∧ nodeLess c b = false) :
    nodeLess a c = false ∧ nodeLess c a = false := by
  unfold nodeLess at hab hbc ⊢
  have ea : (a.lastHeard == 0 || a.lastHeard == UINT32_MAX) = true
      ∨ (a.lastHeard == 0 || a.lastHeard == UINT32_MAX) = false := by
    cases (a.lastHeard == 0 || a.lastHeard == UINT32_MAX) <;> simp
  have eb : (b.lastHeard == 0 || b.lastHeard == UINT32_MAX) = true
      ∨ (b.lastHeard == 0 || b.lastHeard == UINT32_MAX) = false := by
    cases (b.lastHeard == 0 || b.lastHeard == UINT32_MAX) <;> simp
  have ec : (c.lastHeard == 0 || c.lastHeard == UINT32_MAX) = true
      ∨ (c.lastHeard == 0 || c.lastHeard == UINT32_MAX) = false := by
    cases (c.lastHeard == 0 || c.lastHeard == UINT32_MAX) <;> simp
  cases ha : a.node.is_favorite <;> cases hb : b.node.is_favorite <;>
    cases hc : c.node.is_favorite <;>
    rcases ea with ea | ea <;> rcases eb with eb | eb <;> rcases ec with ec | ec <;>
    simp only [ha, hb, hc, ea, eb, ec, bne_self_eq_false, Bool.false_eq_true, if_false, if_true,
      Bool.true_eq_false, decide_eq_true_eq, decide_eq_false_iff_not, bne_iff_ne, ne_eq,
      not_false_eq_true, not_true_eq_false, gt_iff_lt, Bool.not_eq_true, and_self,
      decide_True, decide_False, reduceCtorEq] at hab hbc ⊢ <;>
    first
      | omega
      | decide
      | exact absurd hab (by decide)
      | exact absurd hbc (by decide)

theorem stdSort_contract (l : List NodeEntry) :
    (stdSort nodeLess l).Perm l ∧
    (stdSort nodeLess l).Pairwise (fun a b => nodeLess b a = false) := by
  haveI : IsTotal NodeEntry (fun a b => nodeLess b a = false) :=
    ⟨fun a b => by
      by_cases h : nodeLess b a = false
      · exact Or.inl h
      · right
        have hba : nodeLess b a = true := by simpa using h
        by_contra hc
        have hab : nodeLess a b = true := by simpa using hc
        have := nodeLess_trans a b a hab hba
        rw [nodeLess_irrefl] at this
        exact Bool.noConfusion this⟩
  haveI : IsTrans NodeEntry (fun a b => nodeLess b a = false) :=
    ⟨fun a b c hab hbc => by
      by_contra hc
      have hca : nodeLess c a = true := by simpa using hc
      by_cases h1 : nodeLess a b = false
      · by_cases h2 : nodeLess b c = false
        · have := (nodeLess_incomparable_trans a b c ⟨h1, hab⟩ ⟨h2, hbc⟩).2
          rw [hca] at this
          exact Bool.noConfusion this
        · have hbc2 : nodeLess b c = true := by simpa using h2
          have := nodeLess_trans b c a hbc2 hca
          rw [hab] at this
          exact Bool.noConfusion this
      · have hab2 : nodeLess a b = true := by simpa using h1
        have := nodeLess_trans c a b hca hab2
        rw [hbc] at this
        exact Bool.noConfusion this⟩
  exact ⟨List.perm_insertionSort _ l, List.sorted_insertionSort _ l⟩

/-- Claim C28: for every sorting function that meets the contract of
`std::sort` on the comparator (a permutation of its input in which no entry
is less than an earlier one), the list that `retrieveAndSortNodes` leaves is a
permutation of the entries it held followed by one entry for each non-null
node of the database other than the local node; in it every favorite precedes
every non-favorite and, in each of the two groups, entries of known age
(neither 0 nor `UINT32_MAX`) precede those of unknown age and are in
non-decreasing age; and the comparator is a strict weak ordering:
irreflexive, transitive, with transitive incomparability. -/
theorem retrieveAndSortNodes_sorted
    (sort : (NodeEntry → NodeEntry → Bool) → List NodeEntry → List NodeEntry)
    (hperm : ∀ l, (sort nodeLess l).Perm l)
    (hsorted : ∀ l, (sort nodeLess l).Pairwise (fun a b => nodeLess b a = false))
    (db : List (Option NodeInfoLite)) (localNum : Nat) (sinceLastSeen : NodeInfoLite → Nat)
    (nodeList : List NodeEntry) :
    (retrieveAndSortNodes sort db localNum sinceLastSeen nodeList).Perm
      (nodeList ++ db.filterMap (fun entry =>
        match entry with
        | none => none
        | some node =>
          if node.num = localNum then none
          else some { node := node, lastHeard := sinceLastSeen node })) ∧
    (retrieveAndSortNodes sort db localNum sinceLastSeen nodeList).Pairwise
      (fun a b =>
        (b.node.is_favorite = true → a.node.is_favorite = true) ∧
        (a.node.is_favorite = b.node.is_favorite →
          ((b.lastHeard ≠ 0 ∧ b.lastHeard ≠ UINT32_MAX) →
            (a.lastHeard ≠ 0 ∧ a.lastHeard ≠ UINT32_MAX)) ∧
          ((a.lastHeard ≠ 0 ∧ a.lastHeard ≠ UINT32_MAX) →
            (b.lastHeard ≠ 0 ∧ b.lastHeard ≠ UINT32_MAX) → a.lastHeard ≤ b.lastHeard))) ∧
    (∀ a, nodeLess a a = false) ∧
    (∀ a b c, nodeLess a b = true → nodeLess b c = true → nodeLess a c = true) ∧
    (∀ a b c, (nodeLess a b = false ∧ nodeLess b a = false) →
      (nodeLess b c = false ∧ nodeLess c b = false) →
      (nodeLess a c = false ∧ nodeLess c a = false)) := by
  refine ⟨?_, ?_, nodeLess_irrefl, nodeLess_trans, nodeLess_incomparable_trans⟩
  · unfold retrieveAndSortNodes
    rw [← collectNodes_eq]
    exact hperm _
  · unfold retrieveAndSortNodes
    exact (hsorted _).imp (fun {a b} h => nodeLess_inOrder a b h)

/-- Claim C28 on `dbExample`, whose local node is 1: the favorite node 4
comes first, then node 2 of known age, then node 3 of unknown age. -/
theorem retrieveAndSortNodes_sorted_witness :
    retrieveAndSortNodes stdSort dbExample 1 sinceExample []
      = [{ node := { num := 4, is_favorite := true }, lastHeard := 900 },
         { node := { num := 2, is_favorite := false }, lastHeard := 50 },
         { node := { num := 3, is_favorite := false }, lastHeard := UINT32_MAX }] ∧
    (retrieveAndSortNodes stdSort dbExample 1 sinceExample []).Perm
      ([] ++ dbExample.filterMap (fun entry =>
        match entry with
        | none => none
        | some node =>
          if node.num = 1 then none
          else some { node := node, lastHeard := sinceExample node })) :=
  ⟨by decide,
   (retrieveAndSortNodes_sorted stdSort (fun l => (stdSort_contract l).1)
      (fun l => (stdSort_contract l).2) dbExample 1 sinceExample []).1⟩

/-! ### The function overlay (C29) -/

theorem buildFunctionSymbolString_fold (symbols : List String) (acc : String) :
    symbols.foldl (fun acc symbol => symbol ++ " " ++ acc) acc
      = reversedWithSpaces symbols ++ acc := by
  induction symbols generalizing acc with
  | nil => simp [reversedWithSpaces]
  | cons x xs ih =>
    simp only [List.foldl_cons, reversedWithSpaces]
    rw [ih]
    simp only [String.append_assoc]

theorem buildFunctionSymbolString_eq (symbols : List String) :
    buildFunctionSymbolString symbols = reversedWithSpaces symbols := by
  unfold buildFunctionSymbolString
  rw [buildFunctionSymbolString_fold]
  simp

/-- The overlay state is consistent: no symbol twice, and the string is the
symbols in reverse order, each followed by one space. -/
theorem symbolOp_consistent {U : Type} (lib : OLEDDisplayUi U) (op : SymbolOp)
    (s : Screen U × FunctionSymbols)
    (h : s.2.functionSymbol.Nodup ∧
      s.2.functionSymbolString = reversedWithSpaces s.2.functionSymbol) :
    (Screen.runSymbolOps lib [op] s).2.functionSymbol.Nodup ∧
    (Screen.runSymbolOps lib [op] s).2.functionSymbolString
      = reversedWithSpaces (Screen.runSymbolOps lib [op] s).2.functionSymbol := by
  cases op with
  | set sym =>
    simp only [Screen.runSymbolOps, List.foldl_cons, List.foldl_nil, Screen.setFunctionSymbol]
    by_cases hmem : sym ∈ s.2.functionSymbol
    · simp only [hmem, not_true_eq_false, if_false]
      exact h
    · simp only [hmem, not_false_eq_true, if_true]
      refine ⟨?_, buildFunctionSymbolString_eq _⟩
      exact List.Nodup.append h.1 (List.nodup_singleton sym) (by simpa using hmem)
  | remove sym =>
    simp only [Screen.runSymbolOps, List.foldl_cons, List.foldl_nil, Screen.removeFunctionSymbol]
    exact ⟨h.1.filter _, buildFunctionSymbolString_eq _⟩

theorem runSymbolOps_consistent {U : Type} (lib : OLEDDisplayUi U) (ops : List SymbolOp)
    (s : Screen U × FunctionSymbols)
    (h : s.2.functionSymbol.Nodup ∧
      s.2.functionSymbolString = reversedWithSpaces s.2.functionSymbol) :
    (Screen.runSymbolOps lib ops s).2.functionSymbol.Nodup ∧
    (Screen.runSymbolOps lib ops s).2.functionSymbolString
      = reversedWithSpaces (Screen.runSymbolOps lib ops s).2.functionSymbol := by
  induction ops generalizing s with
  | nil => exact h
  | cons op rest ih =>
    have h1 := symbolOp_consistent lib op s h
    simp only [Screen.runSymbolOps, List.foldl_cons, List.foldl_nil] at h1 ih ⊢
    exact ih _ h1

theorem specShown_snoc_set (ops : List SymbolOp) (x y : String) :
    specShown (ops ++ [SymbolOp.set x]) y ↔ y = x ∨ specShown ops y := by
  unfold specShown specSinceRemoval
  simp [List.takeWhile_cons]
  constructor
  · rintro (h | h)
    · exact Or.inr h
    · exact Or.inl h
  · rintro (h | h)
    · exact Or.inr h
    · exact Or.inl h

theorem specShown_snoc_remove (ops : List SymbolOp) (x y : String) :
    specShown (ops ++ [SymbolOp.remove x]) y ↔ y ≠ x ∧ specShown ops y := by
  unfold specShown specSinceRemoval
  by_cases h : x = y
  · subst h
    simp [List.takeWhile_cons]
  · have h2 : ¬ y = x := fun e => h e.symm
    simp [List.takeWhile_cons, h, h2]

theorem specInsertionsFrom_set (before rest : List SymbolOp) (sym : String) :
    specInsertionsFrom before (SymbolOp.set sym :: rest)
      = if ¬ specShown before sym ∧ SymbolOp.remove sym ∉ rest then
          sym :: specInsertionsFrom (before ++ [SymbolOp.set sym]) rest
        else specInsertionsFrom (before ++ [SymbolOp.set sym]) rest := rfl

theorem specInsertionsFrom_remove (before rest : List SymbolOp) (sym : String) :
    specInsertionsFrom before (SymbolOp.remove sym :: rest)
      = specInsertionsFrom (before ++ [SymbolOp.remove sym]) rest := rfl

theorem specInsertionsFrom_snoc_remove (before rest : List SymbolOp) (x : String) :
    specInsertionsFrom before (rest ++ [SymbolOp.remove x])
      = (specInsertionsFrom before rest).filter (fun y => y != x) := by
  induction rest generalizing before with
  | nil => rfl
  | cons op rest ih =>
    cases op with
    | set sym =>
      rw [List.cons_append, specInsertionsFrom_set, specInsertionsFrom_set, ih]
      by_cases hx : sym = x
      · subst hx
        have hc2 : ¬ (¬ specShown before sym
            ∧ SymbolOp.remove sym ∉ rest ++ [SymbolOp.remove sym]) := by
          intro h
          exact h.2 (by simp)
        rw [if_neg hc2]
        split_ifs
        · simp
        · rfl
      · by_cases hc : ¬ specShown before sym ∧ SymbolOp.remove sym ∉ rest
        · have hc2 : ¬ specShown before sym
              ∧ SymbolOp.remove sym ∉ rest ++ [SymbolOp.remove x] := by
            refine ⟨hc.1, ?_⟩
            simp [hc.2, hx]
          rw [if_pos hc, if_pos hc2]
          simp [List.filter_cons, hx]
        · have hc2 : ¬ (¬ specShown before sym
              ∧ SymbolOp.remove sym ∉ rest ++ [SymbolOp.remove x]) := by
            intro h
            apply hc
            refine ⟨h.1, ?_⟩
            intro hm
            exact h.2 (List.mem_append_left _ hm)
          rw [if_neg hc, if_neg hc2]
    | remove sym =>
      rw [List.cons_append, specInsertionsFrom_remove, specInsertionsFrom_remove, ih]

theorem specInsertionsFrom_snoc_set (before rest : List SymbolOp) (x : String) :
    specInsertionsFrom before (rest ++ [SymbolOp.set x])
      = specInsertionsFrom before rest
          ++ (if ¬ specShown (before ++ rest) x then [x] else []) := by
  induction rest generalizing before with
  | nil =>
    rw [List.nil_append, specInsertionsFrom_set, List.append_nil]
    by_cases hs : specShown before x
    · simp [hs, specInsertionsFrom]
    · simp [hs, specInsertionsFrom]
  | cons op rest ih =>
    cases op with
    | set sym =>
      rw [List.cons_append, specInsertionsFrom_set, specInsertionsFrom_set, ih]
      have e : before ++ [SymbolOp.set sym] ++ rest = before ++ SymbolOp.set sym :: rest := by simp
      rw [e]
      by_cases hc : ¬ specShown before sym ∧ SymbolOp.remove sym ∉ rest
      · have hc2 : ¬ specShown before sym
            ∧ SymbolOp.remove sym ∉ rest ++ [SymbolOp.set x] := by
          refine ⟨hc.1, ?_⟩
          simp [hc.2]
        rw [if_pos hc, if_pos hc2]
        rfl
      · have hc2 : ¬ (¬ specShown before sym
            ∧ SymbolOp.remove sym ∉ rest ++ [SymbolOp.set x]) := by
          intro h
          apply hc
          refine ⟨h.1, ?_⟩
          intro hm
          exact h.2 (List.mem_append_left _ hm)
        rw [if_neg hc, if_neg hc2]
    | remove sym =>
      rw [List.cons_append, specInsertionsFrom_remove, specInsertionsFrom_remove, ih]
      have e : before ++ [SymbolOp.remove sym] ++ rest = before ++ SymbolOp.remove sym :: rest := by
        simp
      rw [e]

theorem mem_specInsertionOrder (ops : List SymbolOp) (y : String) :
    y ∈ specInsertionOrder ops ↔ specShown ops y := by
  induction ops using List.reverseRecOn with
  | nil => simp [specInsertionOrder, specInsertionsFrom, specShown, specSinceRemoval]
  | append_singleton ops op ih =>
    unfold specInsertionOrder at ih ⊢
    cases op with
    | set x =>
      rw [specInsertionsFrom_snoc_set, specShown_snoc_set, List.mem_append, ih, List.nil_append]
      by_cases hs : specShown ops x
      · simp [hs]
        intro h; subst h; exact hs
      · simp [hs]
        tauto
    | remove x =>
      rw [specInsertionsFrom_snoc_remove, specShown_snoc_remove, List.mem_filter, ih]
      simp
      tauto

theorem runSymbolOps_snoc {U : Type} (lib : OLEDDisplayUi U) (ops : List SymbolOp)
    (op : SymbolOp) (s : Screen U × FunctionSymbols) :
    Screen.runSymbolOps lib (ops ++ [op]) s
      = Screen.runSymbolOps lib [op] (Screen.runSymbolOps lib ops s) := by
  simp [Screen.runSymbolOps, List.foldl_append]

theorem runSymbolOps_insertionOrder {U : Type} (lib : OLEDDisplayUi U) (ops : List SymbolOp)
    (screen : Screen U) :
    (Screen.runSymbolOps lib ops (screen, {})).2.functionSymbol = specInsertionOrder ops := by
  induction ops using List.reverseRecOn with
  | nil => rfl
  | append_singleton ops op ih =>
    rw [runSymbolOps_snoc]
    have hmem : ∀ x, x ∈ (Screen.runSymbolOps lib ops (screen, {})).2.functionSymbol
        ↔ specShown ops x := by
      intro x
      rw [ih, mem_specInsertionOrder]
    generalize Screen.runSymbolOps lib ops (screen, {}) = st at ih hmem
    cases op with
    | set x =>
      unfold specInsertionOrder at ih ⊢
      rw [specInsertionsFrom_snoc_set, List.nil_append]
      simp only [Screen.runSymbolOps, List.foldl_cons, List.foldl_nil, Screen.setFunctionSymbol]
      by_cases hs : specShown ops x
      · have hm := (hmem x).mpr hs
        simp only [hm, hs, not_true_eq_false, if_false, List.append_nil]
        exact ih
      · have hm : ¬ x ∈ st.2.functionSymbol := fun h => hs ((hmem x).mp h)
        simp only [hm, hs, not_false_eq_true, if_true]
        rw [ih]
    | remove x =>
      unfold specInsertionOrder at ih ⊢
      rw [specInsertionsFrom_snoc_remove]
      simp only [Screen.runSymbolOps, List.foldl_cons, List.foldl_nil,
        Screen.removeFunctionSymbol]
      rw [ih]

theorem reversedWithSpaces_snoc (symbols : List String) (sym : String) :
    reversedWithSpaces (symbols ++ [sym]) = sym ++ " " ++ reversedWithSpaces symbols := by
  induction symbols with
  | nil => simp [reversedWithSpaces]
  | cons x xs ih =>
    have e : reversedWithSpaces (x :: (xs ++ [sym]))
        = reversedWithSpaces (xs ++ [sym]) ++ (x ++ " ") := rfl
    have e2 : reversedWithSpaces (x :: xs) = reversedWithSpaces xs ++ (x ++ " ") := rfl
    rw [List.cons_append, e, e2, ih]
    simp only [String.append_assoc]

/-- Claim C29: starting from the empty symbol list and the empty string,
after any sequence of `setFunctionSymbol` and `removeFunctionSymbol` the
symbol list is the insertion order of the calls made (the symbols set since
they were last removed, in the order of the calls that inserted them), it has
no duplicate, and `functionSymbolString` is these symbols in reverse insertion
order, each followed by one space; `setFunctionSymbol` of a symbol that is in
the list changes nothing, neither the overlay nor the screen, and
`setFunctionSymbol` of a symbol that is not in the list puts it last in the
list and first in the string. -/
theorem functionSymbols_consistent {U : Type} (lib : OLEDDisplayUi U) (ops : List SymbolOp)
    (screen : Screen U) :
    (Screen.runSymbolOps lib ops (screen, {})).2.functionSymbol = specInsertionOrder ops ∧
    (Screen.runSymbolOps lib ops (screen, {})).2.functionSymbolString
      = reversedWithSpaces (specInsertionOrder ops) ∧
    (Screen.runSymbolOps lib ops (screen, {})).2.functionSymbol.Nodup ∧
    (Screen.runSymbolOps lib ops (screen, {})).2.functionSymbolString
      = reversedWithSpaces (Screen.runSymbolOps lib ops (screen, {})).2.functionSymbol ∧
    (∀ sym, sym ∈ (Screen.runSymbolOps lib ops (screen, {})).2.functionSymbol →
      Screen.setFunctionSymbol lib sym (Screen.runSymbolOps lib ops (screen, {}))
        = Screen.runSymbolOps lib ops (screen, {})) ∧
    (∀ sym, sym ∉ (Screen.runSymbolOps lib ops (screen, {})).2.functionSymbol →
      (Screen.setFunctionSymbol lib sym
          (Screen.runSymbolOps lib ops (screen, {}))).2.functionSymbol
        = (Screen.runSymbolOps lib ops (screen, {})).2.functionSymbol ++ [sym] ∧
      (Screen.setFunctionSymbol lib sym
          (Screen.runSymbolOps lib ops (screen, {}))).2.functionSymbolString
        = sym ++ " " ++ (Screen.runSymbolOps lib ops (screen, {})).2.functionSymbolString) := by
  have h := runSymbolOps_consistent lib ops (screen, {}) ⟨List.nodup_nil, rfl⟩
  have hord := runSymbolOps_insertionOrder lib ops screen
  refine ⟨hord, ?_, h.1, h.2, ?_, ?_⟩
  · rw [h.2, hord]
  · intro sym hmem
    simp [Screen.setFunctionSymbol, hmem]
  · intro sym hmem
    simp only [Screen.setFunctionSymbol, hmem, not_false_eq_true, if_true, true_and]
    rw [buildFunctionSymbolString_eq, reversedWithSpaces_snoc, h.2]

/-- Claim C29 on the six calls of `symbolOpsExample`: the insertion order is
`B`, `C`, `A` (the second insertion of `A` counts, after its removal), and
the string shows them newest first. -/
theorem functionSymbols_consistent_witness :
    specInsertionOrder symbolOpsExample = ["B", "C", "A"] ∧
    (Screen.runSymbolOps instantUi symbolOpsExample (screenIdle [], {})).2.functionSymbol
      = ["B", "C", "A"] ∧
    (Screen.runSymbolOps instantUi symbolOpsExample (screenIdle [], {})).2.functionSymbolString
      = "A C B " :=
  ⟨by decide,
   (functionSymbols_consistent instantUi symbolOpsExample (screenIdle [])).1.trans (by decide),
   (functionSymbols_consistent instantUi symbolOpsExample (screenIdle [])).2.1.trans
     (by decide)⟩

/-! ### The brightness (C30) -/

/-- Claim C30: for every 8-bit brightness `b` in [8, 254],
`increaseBrightness` gives `b + 62` if `b + 62 ≤ 254` and `b` otherwise,
`decreaseBrightness` gives `b - 62` if `b ≥ 70` and `b` otherwise; both
results stay in [8, 254], so nothing wraps around 8 bits; and
`decreaseBrightness` undoes every `increaseBrightness` that changed the
value. -/
theorem brightness_steps (b : Nat) (hlow : 8 ≤ b) (hhigh : b ≤ 254) :
    increaseBrightness b = (if b + 62 ≤ 254 then b + 62 else b) ∧
    decreaseBrightness b = (if b ≥ 70 then b - 62 else b) ∧
    (8 ≤ increaseBrightness b ∧ increaseBrightness b ≤ 254) ∧
    (8 ≤ decreaseBrightness b ∧ decreaseBrightness b ≤ 254) ∧
    (increaseBrightness b ≠ b → decreaseBrightness (increaseBrightness b) = b) := by
  have hi : increaseBrightness b = (if b + 62 ≤ 254 then b + 62 else b) := by
    unfold increaseBrightness
    split_ifs <;> omega
  have hd : decreaseBrightness b = (if b ≥ 70 then b - 62 else b) := by
    unfold decreaseBrightness
    split_ifs <;> omega
  refine ⟨hi, hd, ?_, ?_, ?_⟩
  · rw [hi]; split_ifs <;> omega
  · rw [hd]; split_ifs <;> omega
  · intro hne
    rw [hi] at hne ⊢
    split_ifs at hne ⊢ with h1
    · unfold decreaseBrightness
      split_ifs <;> omega
    · exact absurd rfl hne

/-- Claim C30 at brightness 130: one step up gives 192, and one step down
from there gives 130 again. -/
theorem brightness_steps_witness :
    increaseBrightness 130 = 192 ∧ decreaseBrightness 192 = 130 ∧
    (increaseBrightness 130 ≠ 130 → decreaseBrightness (increaseBrightness 130) = 130) :=
  ⟨by decide, by decide, (brightness_steps 130 (by decide) (by decide)).2.2.2.2⟩

end graphics
